import Mathlib

/-!
# MissionControl `switch_controller.cpp`: a shallow embedding

The definitions below transcribe `mc_mitm/source/controllers/switch_controller.cpp`.

Conventions of the embedding.
* `u8`, `u32`, `unsigned` values are natural numbers; every operation that can leave the
  32-bit range is reduced `% 2 ^ 32` explicitly.
* `s32` values are integers; every `s32` operation is wrapped to two's complement by `wrap32`.
* A byte buffer (`u8 *`) is a `List Nat`; `p + k` is `List.drop k`; a read outside the list,
  a shift by an out-of-range count and an integer division by zero have no defined result
  and are `none`.
-/

namespace MissionControl

/-! ## Machine integers -/

/-- Two's complement wrap of an integer to the `s32` range. -/
def wrap32 (x : Int) : Int := (x + 2147483648) % 4294967296 - 2147483648

/-- Membership in the `s32` range. -/
def isS32 (x : Int) : Prop := -2147483648 ≤ x ∧ x ≤ 2147483647

instance (x : Int) : Decidable (isS32 x) := by unfold isS32; infer_instance

/-- Division of `s32` values, `a / b` in C: truncation toward zero; no result for `b = 0`, nor
for `INT_MIN / -1`, whose quotient is not an `s32` value.  Every other quotient of `s32`
values is an `s32` value, which the wrap leaves as it is. -/
def sdiv32 (a b : Int) : Option Int :=
  if b = 0 ∨ (a = -2147483648 ∧ b = -1) then none else some (wrap32 (Int.tdiv a b))

/-- The `std::clamp(v, lo, hi)` of the standard library. -/
def clamp (v lo hi : Int) : Int := if v < lo then lo else if hi < v then hi else v

/-! ## `hid_field_extract` -/

/-- The `while (n > 0)` loop of `hid_field_extract`.  The first argument bounds the number of
iterations; the remaining ones are the loop variables `idx`, `bit_nr`, `bit_shift`,
`bits_to_copy`, `value` and `n`. -/
def hid_field_extract_loop (report : List Nat) :
    Nat → Nat → Nat → Nat → Nat → Nat → Int → Option Nat
  | 0, _, _, _, _, value, n => if n > 0 then none else some value
  | fuel + 1, idx, bit_nr, bit_shift, bits_to_copy, value, n =>
    if n > 0 then
      match report[idx]? with
      | none => none
      | some byte =>
        if 32 ≤ bit_nr then none
        else
          hid_field_extract_loop report fuel (idx + 1) (bit_nr + bits_to_copy) 0 8
            (value ||| ((byte >>> bit_shift) <<< bit_nr) % 4294967296) (n - bits_to_copy)
    else some value

/-- The function `static u32 hid_field_extract(u8 *report, unsigned offset, int n)`. -/
def hid_field_extract (report : List Nat) (offset : Nat) (n : Int) : Option Nat :=
  if n < 0 then none
  else
    let idx := offset / 8
    let bit_shift := offset % 8
    let bits_to_copy := 8 - bit_shift
    let mask := if n < 32 then (1 <<< n.toNat) % 4294967296 - 1 else 4294967295
    (hid_field_extract_loop report n.toNat idx 0 bit_shift bits_to_copy 0 n).map
      (fun value => value &&& mask)

/-- Bit `k` of a buffer: bit `k % 8`, counted from the least significant one, of byte `k / 8`. -/
def bufferBit (report : List Nat) (k : Nat) : Bool := (report.getD (k / 8) 0).testBit (k % 8)

/-- The unsigned integer whose bit `i`, for `i < n`, is bit `offset + i` of the buffer. -/
def fieldValue (report : List Nat) (offset n : Nat) : Nat :=
  ∑ i in Finset.range n, (bufferBit report (offset + i)).toNat * 2 ^ i

/-! ## Calibration magic -/

def JC_MAX_STICK_MAG : Int := 32767
def JC_CAL_USR_MAGIC_0 : Nat := 0xB2
def JC_CAL_USR_MAGIC_1 : Nat := 0xA1

/-- The function `static bool has_cal_magic(u8 *reply)`; `||` reads `reply[1]` only when the first test
is false. -/
def has_cal_magic (reply : List Nat) : Option Bool :=
  match reply[0]? with
  | none => none
  | some r0 =>
    if r0 ≠ JC_CAL_USR_MAGIC_0 then some true
    else
      match reply[1]? with
      | none => none
      | some r1 => some (decide (r1 ≠ JC_CAL_USR_MAGIC_1))

/-! ## Stick calibration -/

/-- Modelled from the spec: `struct joycon_stick_cal` is declared in `switch_controller.hpp`,
which is not part of the sources; the code reads and writes its `s32` members `max`, `min`
and `center`. -/
structure joycon_stick_cal where
  max : Int
  min : Int
  center : Int
deriving DecidableEq, Repr

/-- Modelled from the spec: `struct joycon_stick_cal_xy` is declared in
`switch_controller.hpp`; the code uses its members `x` and `y`. -/
structure joycon_stick_cal_xy where
  x : joycon_stick_cal
  y : joycon_stick_cal
deriving DecidableEq, Repr

/-- All three members of an axis calibration are `s32` values. -/
def joycon_stick_cal.wf (cal : joycon_stick_cal) : Prop :=
  isS32 cal.max ∧ isS32 cal.min ∧ isS32 cal.center

instance (cal : joycon_stick_cal) : Decidable cal.wf := by
  unfold joycon_stick_cal.wf; infer_instance

/-- The function `static s32 joycon_map_stick_val(struct joycon_stick_cal *cal, s32 val)`. -/
def joycon_map_stick_val (cal : joycon_stick_cal) (val : Int) : Option Int :=
  let center := cal.center
  let min := cal.min
  let max := cal.max
  let quotient :=
    if val > center then
      sdiv32 (wrap32 (wrap32 (val - center) * JC_MAX_STICK_MAG)) (wrap32 (max - center))
    else
      sdiv32 (wrap32 (wrap32 (center - val) * (-JC_MAX_STICK_MAG))) (wrap32 (center - min))
  quotient.map (fun new_val => clamp new_val (-JC_MAX_STICK_MAG) JC_MAX_STICK_MAG)

/-- The function `static void joycon_read_stick_calibration(u8 *raw_cal, struct joycon_stick_cal_xy *cal,
bool left_stick)`; the result is the calibration left in `*cal`. -/
def joycon_read_stick_calibration (raw_cal : List Nat) (cal : joycon_stick_cal_xy)
    (left_stick : Bool) : Option joycon_stick_cal_xy :=
  if left_stick then do
    let x_max_above ← hid_field_extract (raw_cal.drop 0) 0 12
    let x_min_below ← hid_field_extract (raw_cal.drop 6) 0 12
    let y_max_above ← hid_field_extract (raw_cal.drop 1) 4 12
    let y_min_below ← hid_field_extract (raw_cal.drop 7) 4 12
    let x_center ← hid_field_extract (raw_cal.drop 3) 0 12
    let y_center ← hid_field_extract (raw_cal.drop 4) 4 12
    let cal : joycon_stick_cal_xy :=
      { x := { cal.x with center := wrap32 x_center },
        y := { cal.y with center := wrap32 y_center } }
    let cal := { cal with x := { cal.x with max := wrap32 (cal.x.center + wrap32 x_max_above) } }
    let cal := { cal with x := { cal.x with min := wrap32 (cal.x.center - wrap32 x_min_below) } }
    let cal := { cal with y := { cal.y with max := wrap32 (cal.y.center + wrap32 y_max_above) } }
    let cal := { cal with y := { cal.y with min := wrap32 (cal.y.center - wrap32 y_min_below) } }
    pure cal
  else do
    let x_center ← hid_field_extract (raw_cal.drop 0) 0 12
    let y_center ← hid_field_extract (raw_cal.drop 1) 4 12
    let x_min_below ← hid_field_extract (raw_cal.drop 3) 0 12
    let y_min_below ← hid_field_extract (raw_cal.drop 4) 4 12
    let x_max_above ← hid_field_extract (raw_cal.drop 6) 0 12
    let y_max_above ← hid_field_extract (raw_cal.drop 7) 4 12
    let cal : joycon_stick_cal_xy :=
      { x := { cal.x with center := wrap32 x_center },
        y := { cal.y with center := wrap32 y_center } }
    let cal := { cal with x := { cal.x with max := wrap32 (cal.x.center + wrap32 x_max_above) } }
    let cal := { cal with x := { cal.x with min := wrap32 (cal.x.center - wrap32 x_min_below) } }
    let cal := { cal with y := { cal.y with max := wrap32 (cal.y.center + wrap32 y_max_above) } }
    let cal := { cal with y := { cal.y with min := wrap32 (cal.y.center - wrap32 y_min_below) } }
    pure cal


/-! ## Player LEDs -/

/-- Modelled from the spec: `enum SwitchPlayerNumber` is declared in `switch_controller.hpp`,
which is not part of the sources; the table names the players one to eight and `Unknown`. -/
inductive SwitchPlayerNumber where
  | One | Two | Three | Four | Five | Six | Seven | Eight | Unknown
deriving DecidableEq, Repr

/-- The table `const u8 led_player_mappings[]`, indexed by the LED pattern `0000` to `1111`. -/
def led_player_mappings : List SwitchPlayerNumber :=
  [ .Unknown, .One, .Unknown, .Two, .Unknown, .Six, .Eight, .Three,
    .One, .Five, .Six, .Seven, .Two, .Seven, .Three, .Four ]

/-- A `Result` value: `0` is success (`R_SUCCEED`), anything else is a failure. -/
abbrev Result := Nat

/-- The value of `return -1` as a `Result`. -/
def RESULT_MINUS_ONE : Result := 4294967295

def R_FAILED (r : Result) : Bool := r != 0

def R_SUCCEEDED (r : Result) : Bool := r == 0

/-- The function `Result LedsMaskToPlayerNumber(u8 led_mask, u8 *player_number)`: the returned `Result`
and the value left in `*player_number`. -/
def LedsMaskToPlayerNumber (led_mask : Nat) : Option (Result × SwitchPlayerNumber) :=
  match led_player_mappings[(led_mask &&& 0xf) ||| (led_mask >>> 4)]? with
  | none => none
  | some player_number =>
    if player_number = SwitchPlayerNumber.Unknown then some (RESULT_MINUS_ONE, player_number)
    else some (0, player_number)

/-! ## Input reports -/

/-- Modelled from the spec: `struct SwitchButtonData` is declared in `switch_controller.hpp`,
which is not part of the sources.  It is a bit-field; the members below are the one-bit
buttons the code names, and `unnamed` holds the bits of the field the code never names. -/
structure SwitchButtonData where
  Y : Bool
  X : Bool
  B : Bool
  A : Bool
  R : Bool
  ZR : Bool
  minus : Bool
  plus : Bool
  rstick_press : Bool
  lstick_press : Bool
  home : Bool
  capture : Bool
  dpad_down : Bool
  dpad_up : Bool
  dpad_right : Bool
  dpad_left : Bool
  L : Bool
  ZL : Bool
  unnamed : Nat
deriving DecidableEq, Repr

/-- The value of `*buttons = {0}`. -/
def SwitchButtonData.zero : SwitchButtonData :=
  { Y := false, X := false, B := false, A := false, R := false, ZR := false, minus := false,
    plus := false, rstick_press := false, lstick_press := false, home := false,
    capture := false, dpad_down := false, dpad_up := false, dpad_right := false,
    dpad_left := false, L := false, ZL := false, unnamed := 0 }

/-- Modelled from the spec: `struct SwitchAnalogStick` is declared in `switch_controller.hpp`,
which is not part of the sources.  The code reads its raw coordinates with `GetX`, `GetY` and
stores them with `SetX`, `SetY`. -/
structure SwitchAnalogStick where
  x : Nat
  y : Nat
deriving DecidableEq, Repr

def SwitchAnalogStick.GetX (s : SwitchAnalogStick) : Nat := s.x
def SwitchAnalogStick.GetY (s : SwitchAnalogStick) : Nat := s.y
def SwitchAnalogStick.SetX (s : SwitchAnalogStick) (v : Nat) : SwitchAnalogStick := { s with x := v }
def SwitchAnalogStick.SetY (s : SwitchAnalogStick) (v : Nat) : SwitchAnalogStick := { s with y := v }

/-- Modelled from the spec: `struct SwitchInputReport` is declared in `switch_controller.hpp`,
which is not part of the sources.  These are the members `TranslateInputReport` and
`ApplyButtonCombos` touch. -/
structure SwitchInputReport where
  id : Nat
  buttons : SwitchButtonData
  left_stick : SwitchAnalogStick
  right_stick : SwitchAnalogStick
deriving DecidableEq, Repr

/-! ## Virtual controllers -/

/-- The type `HidAnalogStickState` of libnx: a pair of `s32` coordinates. -/
structure HidAnalogStickState where
  x : Int
  y : Int
deriving DecidableEq, Repr

/-- The type `HiddbgHdlsState` of libnx, restricted to the members the code writes. -/
structure HiddbgHdlsState where
  buttons : Nat
  analog_stick_l : HidAnalogStickState
  analog_stick_r : HidAnalogStickState
deriving DecidableEq, Repr

/-- Modelled from the spec: `struct hdls_controller` is declared in `switch_controller.hpp`,
which is not part of the sources.  `handle` is the opaque driver handle of the slot. -/
structure hdls_controller where
  initialized : Bool
  handle : Nat
  state : HiddbgHdlsState
deriving DecidableEq, Repr

/-- The `HidNpadButton` bits of libnx. -/
def HidNpadButton_A : Nat := 1
def HidNpadButton_B : Nat := 2
def HidNpadButton_X : Nat := 4
def HidNpadButton_Y : Nat := 8
def HidNpadButton_StickL : Nat := 16
def HidNpadButton_StickR : Nat := 32
def HidNpadButton_L : Nat := 64
def HidNpadButton_R : Nat := 128
def HidNpadButton_ZL : Nat := 256
def HidNpadButton_ZR : Nat := 512
def HidNpadButton_Plus : Nat := 1024
def HidNpadButton_Minus : Nat := 2048
def HidNpadButton_Left : Nat := 4096
def HidNpadButton_Up : Nat := 8192
def HidNpadButton_Right : Nat := 16384
def HidNpadButton_Down : Nat := 32768

/-- The value of `SIZE_MAX` for the 64-bit `size_t` of the target. -/
def SIZE_MAX : Nat := 18446744073709551615

/-- A call made to the virtual-device driver during one tick. -/
inductive DriverCall where
  | hiddbgAttachHdlsVirtualDevice (slot : Nat)
  | hiddbgDetachHdlsVirtualDevice (handle : Nat)
  | hiddbgSetHdlsState (handle : Nat) (state : HiddbgHdlsState)
deriving DecidableEq, Repr

/-- The answers of the virtual-device driver to the calls of one tick: the `Result` and handle
of the attach made by the chord, the `Result` of the state push that follows it, and the
`Result` of the per-tick state push of every slot. -/
structure DriverAnswers where
  attach_result : Result
  attach_handle : Nat
  attach_push_result : Result
  push_result : Nat → Result

/-- The members of `SwitchController` that `TranslateInputReport` reads and writes. -/
structure SwitchController where
  m_hdls_controllers : List hdls_controller
  m_hdls_combo_pressed : Bool
  m_cal_left : joycon_stick_cal_xy
  m_cal_right : joycon_stick_cal_xy
  m_cal_left_user : joycon_stick_cal_xy
  m_cal_right_user : joycon_stick_cal_xy
  m_has_user_cal_left : Bool
  m_has_user_cal_right : Bool
deriving DecidableEq, Repr

/-- The state threaded through one call of `TranslateInputReport`: the controller, the
report being translated and the driver calls made so far. -/
structure TickState where
  ctx : SwitchController
  report : SwitchInputReport
  calls : List DriverCall
deriving DecidableEq, Repr

/-- The slot selection at the head of `TranslateInputReport`. -/
def select_hdls_id (buttons : SwitchButtonData) : Nat :=
  if buttons.ZL then 0
  else if buttons.L then 1
  else if buttons.R then 2
  else SIZE_MAX

/-- The attach/detach chord of `TranslateInputReport`; `none` is a failed `R_ABORT_UNLESS`. -/
def hdls_combo (drv : DriverAnswers) (hdls_id : Nat) (st : TickState) : Option TickState :=
  let buttons := st.report.buttons
  if buttons.lstick_press && buttons.rstick_press && hdls_id != SIZE_MAX then
    match st.ctx.m_hdls_controllers[hdls_id]? with
    | none => none
    | some hdls_controller =>
      if !st.ctx.m_hdls_combo_pressed then
        if hdls_controller.initialized then
          let hdls_controller := { hdls_controller with initialized := false }
          some { st with
            ctx := { st.ctx with
              m_hdls_controllers := st.ctx.m_hdls_controllers.set hdls_id hdls_controller,
              m_hdls_combo_pressed := true },
            calls := st.calls ++ [DriverCall.hiddbgDetachHdlsVirtualDevice hdls_controller.handle] }
        else if R_FAILED drv.attach_result then none
        else
          let hdls_controller := { hdls_controller with handle := drv.attach_handle }
          if R_FAILED drv.attach_push_result then none
          else
            let pushed := hdls_controller.state
            let hdls_controller := { hdls_controller with initialized := true }
            some { st with
              ctx := { st.ctx with
                m_hdls_controllers := st.ctx.m_hdls_controllers.set hdls_id hdls_controller,
                m_hdls_combo_pressed := true },
              calls := st.calls ++ [DriverCall.hiddbgAttachHdlsVirtualDevice hdls_id,
                DriverCall.hiddbgSetHdlsState hdls_controller.handle pushed] }
      else some { st with ctx := { st.ctx with m_hdls_combo_pressed := true } }
  else some { st with ctx := { st.ctx with m_hdls_combo_pressed := false } }

/-- The button mask built for the selected slot from the physical buttons. -/
def hdls_buttons (buttons : SwitchButtonData) : Nat :=
  let b := 0
  let b := if buttons.A then b ||| HidNpadButton_A else b
  let b := if buttons.B then b ||| HidNpadButton_B else b
  let b := if buttons.L then b ||| HidNpadButton_L else b
  let b := if buttons.R then b ||| HidNpadButton_R else b
  let b := if buttons.X then b ||| HidNpadButton_X else b
  let b := if buttons.Y then b ||| HidNpadButton_Y else b
  let b := if buttons.ZR then b ||| HidNpadButton_ZR else b
  let b := if buttons.plus then b ||| HidNpadButton_Plus else b
  let b := if buttons.minus then b ||| HidNpadButton_Minus else b
  let b := if buttons.dpad_left then b ||| HidNpadButton_Left else b
  let b := if buttons.dpad_right then b ||| HidNpadButton_Right else b
  let b := if buttons.dpad_up then b ||| HidNpadButton_Up else b
  let b := if buttons.dpad_down then b ||| HidNpadButton_Down else b
  let b := if buttons.lstick_press then b ||| HidNpadButton_StickL else b
  let b := if buttons.rstick_press then b ||| HidNpadButton_StickR else b
  b

/-- The body of the `for` loop of `TranslateInputReport` for slot `i`; `STICK_CENTER` is the
constant of that name, declared in a header that is not part of the sources.  `none` is an
arithmetic fault of `joycon_map_stick_val`. -/
def hdls_loop_body (STICK_CENTER : Nat) (drv : DriverAnswers) (hdls_id i : Nat)
    (st : TickState) : Option TickState :=
  match st.ctx.m_hdls_controllers[i]? with
  | none => none
  | some hdls_controller =>
    if !hdls_controller.initialized then some st
    else
      let state : HiddbgHdlsState :=
        { hdls_controller.state with buttons := 0, analog_stick_l := { x := 0, y := 0 } }
      let selected : Option (HiddbgHdlsState × SwitchInputReport) :=
        if i = hdls_id then do
          let state := { state with buttons := hdls_buttons st.report.buttons }
          let cal_l := if st.ctx.m_has_user_cal_left then st.ctx.m_cal_left_user
            else st.ctx.m_cal_left
          let lx ← joycon_map_stick_val cal_l.x st.report.left_stick.GetX
          let ly ← joycon_map_stick_val cal_l.y st.report.left_stick.GetY
          let state := { state with analog_stick_l := { x := lx, y := ly } }
          let cal_r := if st.ctx.m_has_user_cal_right then st.ctx.m_cal_right_user
            else st.ctx.m_cal_right
          let rx ← joycon_map_stick_val cal_r.x st.report.right_stick.GetX
          let ry ← joycon_map_stick_val cal_r.y st.report.right_stick.GetY
          let state := { state with analog_stick_r := { x := rx, y := ry } }
          let report := { st.report with
            buttons := SwitchButtonData.zero,
            left_stick := (st.report.left_stick.SetX STICK_CENTER).SetY STICK_CENTER,
            right_stick := (st.report.right_stick.SetX STICK_CENTER).SetY STICK_CENTER }
          pure (state, report)
        else pure (state, st.report)
      match selected with
      | none => none
      | some (state, report) =>
        let pushed := DriverCall.hiddbgSetHdlsState hdls_controller.handle state
        let hdls_controller := { hdls_controller with state := state }
        if R_FAILED (drv.push_result i) then
          let hdls_controller := { hdls_controller with initialized := false }
          some { ctx := { st.ctx with
                   m_hdls_controllers := st.ctx.m_hdls_controllers.set i hdls_controller },
                 report := report,
                 calls := st.calls ++ [pushed,
                   DriverCall.hiddbgDetachHdlsVirtualDevice hdls_controller.handle] }
        else
          some { ctx := { st.ctx with
                   m_hdls_controllers := st.ctx.m_hdls_controllers.set i hdls_controller },
                 report := report,
                 calls := st.calls ++ [pushed] }

/-- The `for` loop of `TranslateInputReport` over the slot indices still to visit. -/
def hdls_loop (STICK_CENTER : Nat) (drv : DriverAnswers) (hdls_id : Nat) :
    List Nat → TickState → Option TickState
  | [], st => some st
  | i :: rest, st =>
    match hdls_loop_body STICK_CENTER drv hdls_id i st with
    | none => none
    | some st => hdls_loop STICK_CENTER drv hdls_id rest st

/-- The method `void SwitchController::TranslateInputReport(SwitchInputReport *input_report)`: the
controller and the report after the call, with the driver calls it made. -/
def TranslateInputReport (STICK_CENTER : Nat) (drv : DriverAnswers) (ctx : SwitchController)
    (input_report : SwitchInputReport) : Option TickState :=
  let hdls_id := select_hdls_id input_report.buttons
  match hdls_combo drv hdls_id { ctx := ctx, report := input_report, calls := [] } with
  | none => none
  | some st =>
    hdls_loop STICK_CENTER drv hdls_id (List.range st.ctx.m_hdls_controllers.length) st

/-- The method `void SwitchController::ApplyButtonCombos(SwitchButtonData *buttons)`. -/
def ApplyButtonCombos (buttons : SwitchButtonData) : SwitchButtonData :=
  let buttons :=
    if buttons.minus && buttons.dpad_down then
      { buttons with home := true, minus := false, dpad_down := false }
    else buttons
  let buttons :=
    if buttons.minus && buttons.dpad_up then
      { buttons with capture := true, minus := false, dpad_up := false }
    else buttons
  buttons

/-- The two calls `this->TranslateInputReport(input_report);
this->ApplyButtonCombos(&input_report->buttons);` of `HandleDataReportEvent`. -/
def TranslateAndApplyCombos (STICK_CENTER : Nat) (drv : DriverAnswers) (ctx : SwitchController)
    (input_report : SwitchInputReport) : Option TickState :=
  match TranslateInputReport STICK_CENTER drv ctx input_report with
  | none => none
  | some st =>
    some { st with report := { st.report with buttons := ApplyButtonCombos st.report.buttons } }

/-! ## Sample values -/

/-- A controller with three slots, the second of them attached. -/
def example_controller : SwitchController :=
  { m_hdls_controllers :=
      [ ⟨false, 0, ⟨0, ⟨0, 0⟩, ⟨0, 0⟩⟩⟩,
        ⟨true, 7, ⟨64, ⟨100, -100⟩, ⟨5, 6⟩⟩⟩,
        ⟨false, 0, ⟨0, ⟨0, 0⟩, ⟨0, 0⟩⟩⟩ ],
    m_hdls_combo_pressed := true,
    m_cal_left := ⟨⟨3000, 1000, 2000⟩, ⟨3000, 1000, 2000⟩⟩,
    m_cal_right := ⟨⟨3000, 1000, 2000⟩, ⟨3000, 1000, 2000⟩⟩,
    m_cal_left_user := ⟨⟨0, 0, 0⟩, ⟨0, 0, 0⟩⟩,
    m_cal_right_user := ⟨⟨0, 0, 0⟩, ⟨0, 0, 0⟩⟩,
    m_has_user_cal_left := false,
    m_has_user_cal_right := false }

/-- A driver that accepts every call except the state push of slot 1. -/
def example_driver : DriverAnswers :=
  { attach_result := 0, attach_handle := 9, attach_push_result := 0,
    push_result := fun i => if i = 1 then RESULT_MINUS_ONE else 0 }

/-- A report with `minus`, `dpad_down`, `dpad_up` and `A` held and no shoulder button. -/
def example_report : SwitchInputReport :=
  { id := 0x30,
    buttons := { SwitchButtonData.zero with
      minus := true, dpad_down := true, dpad_up := true, A := true, unnamed := 3 },
    left_stick := ⟨3000, 100⟩,
    right_stick := ⟨5, 6⟩ }


/-! ## Calibrations applied by a tick -/

/-- An axis calibration of `s32` members with `min < center < max`. -/
def joycon_stick_cal.valid (cal : joycon_stick_cal) : Prop :=
  cal.wf ∧ cal.min < cal.center ∧ cal.center < cal.max

instance (cal : joycon_stick_cal) : Decidable cal.valid := by
  unfold joycon_stick_cal.valid; infer_instance

/-- The calibration `TranslateInputReport` applies to the left stick: `&m_cal_left`, replaced
by `&m_cal_left_user` when `m_has_user_cal_left` is set. -/
def SwitchController.left_cal (ctx : SwitchController) : joycon_stick_cal_xy :=
  if ctx.m_has_user_cal_left then ctx.m_cal_left_user else ctx.m_cal_left

/-- The calibration `TranslateInputReport` applies to the right stick: `&m_cal_right`, replaced
by `&m_cal_right_user` when `m_has_user_cal_right` is set. -/
def SwitchController.right_cal (ctx : SwitchController) : joycon_stick_cal_xy :=
  if ctx.m_has_user_cal_right then ctx.m_cal_right_user else ctx.m_cal_right

/-- All four axis calibrations applied by a tick are valid. -/
def SwitchController.cals_valid (ctx : SwitchController) : Prop :=
  ctx.left_cal.x.valid ∧ ctx.left_cal.y.valid ∧ ctx.right_cal.x.valid ∧ ctx.right_cal.y.valid

instance (ctx : SwitchController) : Decidable ctx.cals_valid := by
  unfold SwitchController.cals_valid; infer_instance

/-- The state of a slot at the head of the loop body, lines 381 to 383: the button mask and
the left stick are reset, the right stick is not written. -/
def idle_state (state : HiddbgHdlsState) : HiddbgHdlsState :=
  { state with buttons := 0, analog_stick_l := { x := 0, y := 0 } }

/-- The report after `*buttons = {0}` and the four `SetX`/`SetY(STICK_CENTER)` calls. -/
def consumed_report (STICK_CENTER : Nat) (report : SwitchInputReport) : SwitchInputReport :=
  { report with
    buttons := SwitchButtonData.zero,
    left_stick := (report.left_stick.SetX STICK_CENTER).SetY STICK_CENTER,
    right_stick := (report.right_stick.SetX STICK_CENTER).SetY STICK_CENTER }

/-- The attached flags of the slots, in slot order. -/
def SwitchController.attached (ctx : SwitchController) : List Bool :=
  ctx.m_hdls_controllers.map (fun c => c.initialized)

/-- Consecutive ticks: `TranslateInputReport` run on each report in turn, every tick starting
from the controller the previous one left; the result lists the state after each tick. -/
def run_ticks (STICK_CENTER : Nat) :
    SwitchController → List (DriverAnswers × SwitchInputReport) → Option (List TickState)
  | _, [] => some []
  | ctx, (drv, input_report) :: rest =>
    match TranslateInputReport STICK_CENTER drv ctx input_report with
    | none => none
    | some st =>
      match run_ticks STICK_CENTER st.ctx rest with
      | none => none
      | some sts => some (st :: sts)

/-! ## Pending responses -/

/-- The `BtdrvHidEventType` values of libnx that the code names. -/
inductive BtdrvHidEventType where
  | Data | SetReport | GetReport
deriving DecidableEq, Repr

/-- The type `bluetooth::HidReport`: `size` and the byte array `data`, of which `data_0` is
`data[0]` and `data_rest` the bytes after it. -/
structure HidReport where
  size : Nat
  data_0 : Nat
  data_rest : List Nat
deriving DecidableEq, Repr

/-- The type `bluetooth::HidReportEventInfo`, restricted to what the code reads from it: the
report of a data or get-report event and the `res` of a set-report or get-report event. -/
structure HidReportEventInfo where
  report : HidReport
  res : Result
deriving DecidableEq, Repr

/-- Modelled from the spec: `class HidResponse` is declared in a header that is not part of
the sources.  A pending response holds the expected event type, the correlation tag set by
`SetUserData`, and the payload stored by `SetData`, which also signals completion; `data` is
`none` until then. -/
structure HidResponse where
  type : BtdrvHidEventType
  user_data : Nat
  data : Option HidReportEventInfo
deriving DecidableEq, Repr

def HidResponse.GetType (r : HidResponse) : BtdrvHidEventType := r.type
def HidResponse.GetUserData (r : HidResponse) : Nat := r.user_data
def HidResponse.SetData (r : HidResponse) (event_info : HidReportEventInfo) : HidResponse :=
  { r with data := some event_info }

/-- The value of `std::make_shared<HidResponse>(type)`: nothing delivered yet. -/
def HidResponse.make (type : BtdrvHidEventType) : HidResponse :=
  { type := type, user_data := 0, data := none }

/-- A report handed on to the console by a handler. -/
inductive Forwarded where
  | WriteHidSetReport (res : Result)
  | WriteHidGetReport (report : HidReport)
deriving DecidableEq, Repr

/-- Lines 182 to 186 of `HandleDataReportEvent`, the part of the handler that touches
`m_future_responses`: the queue after the event. -/
def HandleDataReportEvent_responses (m_future_responses : List HidResponse)
    (event_info : HidReportEventInfo) : List HidResponse :=
  match m_future_responses with
  | [] => []
  | front :: rest =>
    if front.GetType = BtdrvHidEventType.Data ∧ front.GetUserData = event_info.report.data_0 then
      front.SetData event_info :: rest
    else front :: rest

/-- The method `SwitchController::HandleSetReportEvent`: the queue after the event and the
report forwarded, if any. -/
def HandleSetReportEvent (m_future_responses : List HidResponse)
    (event_info : HidReportEventInfo) : List HidResponse × Option Forwarded :=
  match m_future_responses with
  | [] => ([], some (Forwarded.WriteHidSetReport event_info.res))
  | front :: rest =>
    if front.GetType = BtdrvHidEventType.SetReport then
      (front.SetData event_info :: rest, none)
    else (front :: rest, none)

/-- The method `SwitchController::HandleGetReportEvent`: the queue after the event and the
report forwarded, if any. -/
def HandleGetReportEvent (m_future_responses : List HidResponse)
    (event_info : HidReportEventInfo) : List HidResponse × Option Forwarded :=
  match m_future_responses with
  | [] => ([], some (Forwarded.WriteHidGetReport event_info.report))
  | front :: rest =>
    if front.GetType = BtdrvHidEventType.GetReport then
      (front.SetData event_info :: rest, none)
    else (front :: rest, none)

/-- One inbound event handled by the ingestion path: its kind selects the handler. -/
def ingest (m_future_responses : List HidResponse)
    (event : BtdrvHidEventType × HidReportEventInfo) : List HidResponse :=
  match event.1 with
  | BtdrvHidEventType.Data => HandleDataReportEvent_responses m_future_responses event.2
  | BtdrvHidEventType.SetReport => (HandleSetReportEvent m_future_responses event.2).1
  | BtdrvHidEventType.GetReport => (HandleGetReportEvent m_future_responses event.2).1

/-- The queue operations of a request, common to `WriteDataReport`, `SetReport` and
`GetReport`: `push` appends the descriptor at the back, the send is made, the inbound events
that arrive before `TimedWait` returns are handled, and `ON_SCOPE_EXIT` pops the front.  The
result is the queue after the call and the payload found in the call's own descriptor, `none`
when the send failed or the wait timed out. -/
def issue_request (m_future_responses : List HidResponse) (response : HidResponse)
    (send_result : Result) (inbound : List (BtdrvHidEventType × HidReportEventInfo)) :
    List HidResponse × Option HidReportEventInfo :=
  let pushed := m_future_responses ++ [response]
  if R_FAILED send_result then (pushed.tail, none)
  else
    let waited := inbound.foldl ingest pushed
    match waited[m_future_responses.length]? with
    | none => (waited.tail, none)
    | some own => (waited.tail, own.data)

/-- The method `SwitchController::SetReport(type, report)`: the queue after the call and the
`Result`. -/
def SetReport (m_future_responses : List HidResponse) (send_result : Result)
    (inbound : List (BtdrvHidEventType × HidReportEventInfo)) : List HidResponse × Result :=
  let response := HidResponse.make BtdrvHidEventType.SetReport
  match issue_request m_future_responses response send_result inbound with
  | (queue, none) =>
    if R_FAILED send_result then (queue, send_result) else (queue, RESULT_MINUS_ONE)
  | (queue, some response_data) => (queue, response_data.res)

/-- The method `SwitchController::GetReport(id, type, out_report)`: the queue after the call,
the `Result` and the report copied to `out_report`. -/
def GetReport (m_future_responses : List HidResponse) (send_result : Result)
    (inbound : List (BtdrvHidEventType × HidReportEventInfo)) :
    List HidResponse × Result × Option HidReport :=
  let response := HidResponse.make BtdrvHidEventType.GetReport
  match issue_request m_future_responses response send_result inbound with
  | (queue, none) =>
    if R_FAILED send_result then (queue, send_result, none) else (queue, RESULT_MINUS_ONE, none)
  | (queue, some response_data) =>
    if R_SUCCEEDED response_data.res then (queue, response_data.res, some response_data.report)
    else (queue, response_data.res, none)

/-! ## More sample values -/

/-- A controller before any flash read: three detached slots and zeroed calibrations. -/
def fresh_controller : SwitchController :=
  { m_hdls_controllers :=
      [ ⟨false, 0, ⟨0, ⟨0, 0⟩, ⟨0, 0⟩⟩⟩,
        ⟨false, 0, ⟨0, ⟨0, 0⟩, ⟨0, 0⟩⟩⟩,
        ⟨false, 0, ⟨0, ⟨0, 0⟩, ⟨0, 0⟩⟩⟩ ],
    m_hdls_combo_pressed := false,
    m_cal_left := ⟨⟨0, 0, 0⟩, ⟨0, 0, 0⟩⟩,
    m_cal_right := ⟨⟨0, 0, 0⟩, ⟨0, 0, 0⟩⟩,
    m_cal_left_user := ⟨⟨0, 0, 0⟩, ⟨0, 0, 0⟩⟩,
    m_cal_right_user := ⟨⟨0, 0, 0⟩, ⟨0, 0, 0⟩⟩,
    m_has_user_cal_left := false,
    m_has_user_cal_right := false }

/-- The fresh controller once the factory calibrations have been read. -/
def calibrated_controller : SwitchController :=
  { fresh_controller with
    m_cal_left := ⟨⟨3000, 1000, 2000⟩, ⟨3000, 1000, 2000⟩⟩,
    m_cal_right := ⟨⟨3000, 1000, 2000⟩, ⟨3000, 1000, 2000⟩⟩ }

/-- A driver that accepts every call and hands out the handle 9. -/
def accepting_driver : DriverAnswers :=
  { attach_result := 0, attach_handle := 9, attach_push_result := 0, push_result := fun _ => 0 }

/-- A report holding the attach chord for slot 0: ZL and both stick presses, with the right
stick pushed to the calibration maximum. -/
def chord_report : SwitchInputReport :=
  { id := 0x30,
    buttons := { SwitchButtonData.zero with ZL := true, lstick_press := true, rstick_press := true },
    left_stick := ⟨2000, 2000⟩,
    right_stick := ⟨3000, 2000⟩ }

/-- A report with no button held and both sticks at rest. -/
def idle_report : SwitchInputReport :=
  { id := 0x30, buttons := SwitchButtonData.zero, left_stick := ⟨2000, 2000⟩,
    right_stick := ⟨2000, 2000⟩ }

/-- A report holding only ZL. -/
def zl_report : SwitchInputReport :=
  { idle_report with buttons := { SwitchButtonData.zero with ZL := true } }

/-- A report holding L and A, which selects slot 1. -/
def l_report : SwitchInputReport :=
  { idle_report with buttons := { SwitchButtonData.zero with L := true, A := true } }

/-- A factory left-stick calibration as it is read from flash address `0x603D`: nine bytes
holding the maximum deltas `0x400`, the centers `0x800` and the minimum deltas `0x400` of both
axes. -/
def left_cal_blob : List Nat := [0x00, 0x04, 0x40, 0x00, 0x08, 0x80, 0x00, 0x04, 0x40]

/-- The fresh controller once `left_cal_blob` has been parsed into `m_cal_left`, and before the
right calibration is read: `min = 1024`, `center = 2048`, `max = 3072` on both left axes,
`m_cal_right` still zero. -/
def left_calibrated_controller : SwitchController :=
  { fresh_controller with m_cal_left := ⟨⟨3072, 1024, 2048⟩, ⟨3072, 1024, 2048⟩⟩ }

/-- A report holding the attach chord for slot 0 with the left stick at raw `x = 3072`. -/
def left_max_report : SwitchInputReport :=
  { chord_report with left_stick := ⟨3072, 2048⟩ }

/-! ## Delivery to the front of the queue -/

/-- The delivery rule of the ingestion path, for a handler that took the queue `before` to
`after` on the event `event_info`: the descriptors keep their number, order, expected kind and
tag, and nothing behind the front changes.  When `matching` holds of the front, the front
afterwards holds the payload `event_info`, with its kind and tag as before; when it does not,
the queue is as it was.  So a front to which nothing had been delivered holds the payload
afterwards exactly when `matching` holds of it. -/
def FrontOnlyDelivery (matching : HidResponse → Prop) (before after : List HidResponse)
    (event_info : HidReportEventInfo) : Prop :=
  after.length = before.length ∧
    after.map (fun r => (r.type, r.user_data)) = before.map (fun r => (r.type, r.user_data)) ∧
    after.tail = before.tail ∧
    ∀ front rest, before = front :: rest →
      (matching front →
        after = { type := front.type, user_data := front.user_data, data := some event_info }
          :: rest) ∧
      (¬ matching front → after = before) ∧
      (front.data = none →
        ((after.head?.bind (fun r => r.data) = some event_info) ↔ matching front))

/-! ## The per-tick state push -/

/-- Lines 466 to 469 of the loop body for slot `i`: `state` has been written to the slot and
is pushed to the driver, and the slot is detached when the push fails; `report` is the report
the body leaves. -/
def push_slot (drv : DriverAnswers) (i : Nat) (st : TickState)
    (hdls_controller : hdls_controller) (state : HiddbgHdlsState)
    (report : SwitchInputReport) : TickState :=
  let pushed := DriverCall.hiddbgSetHdlsState hdls_controller.handle state
  let hdls_controller := { hdls_controller with state := state }
  if R_FAILED (drv.push_result i) then
    let hdls_controller := { hdls_controller with initialized := false }
    { ctx := { st.ctx with
        m_hdls_controllers := st.ctx.m_hdls_controllers.set i hdls_controller },
      report := report,
      calls := st.calls ++ [pushed,
        DriverCall.hiddbgDetachHdlsVirtualDevice hdls_controller.handle] }
  else
    { ctx := { st.ctx with
        m_hdls_controllers := st.ctx.m_hdls_controllers.set i hdls_controller },
      report := report,
      calls := st.calls ++ [pushed] }

/-- The state written to an attached slot `i` by the loop body, lines 381 to 463, with the
report the body leaves: the mapped buttons and sticks and the consumed report for the selected
slot, the idle state and the untouched report for any other; `none` is an arithmetic fault of
`joycon_map_stick_val`.  `cal_l` and `cal_r` are the calibrations applied to the sticks. -/
def slot_update (STICK_CENTER : Nat) (hdls_id i : Nat) (cal_l cal_r : joycon_stick_cal_xy)
    (report : SwitchInputReport) (hdls_controller : hdls_controller) :
    Option (HiddbgHdlsState × SwitchInputReport) :=
  if i = hdls_id then do
    let lx ← joycon_map_stick_val cal_l.x report.left_stick.GetX
    let ly ← joycon_map_stick_val cal_l.y report.left_stick.GetY
    let rx ← joycon_map_stick_val cal_r.x report.right_stick.GetX
    let ry ← joycon_map_stick_val cal_r.y report.right_stick.GetY
    pure ({ buttons := hdls_buttons report.buttons,
            analog_stick_l := { x := lx, y := ly },
            analog_stick_r := { x := rx, y := ry } },
          consumed_report STICK_CENTER report)
  else some (idle_state hdls_controller.state, report)

/-- The driver answers `drv` with the per-tick state push of slot `i` accepted. -/
def DriverAnswers.accepting_push (drv : DriverAnswers) (i : Nat) : DriverAnswers :=
  { drv with push_result := fun j => if j = i then 0 else drv.push_result j }

/-- Every call the driver is asked to make in the tick succeeds. -/
def DriverAnswers.all_succeed (drv : DriverAnswers) : Prop :=
  drv.attach_result = 0 ∧ drv.attach_push_result = 0 ∧ ∀ i, drv.push_result i = 0

/-- The attach chord is held in the report: both stick presses and one of ZL, L, R. -/
def chord_held (input_report : SwitchInputReport) : Bool :=
  input_report.buttons.lstick_press && input_report.buttons.rstick_press &&
    select_hdls_id input_report.buttons != SIZE_MAX

/-- The tick states `a` and `b` agree on the report, on the applied calibrations and on every
slot but slot `i`. -/
def TickState.agree_except (i : Nat) (a b : TickState) : Prop :=
  a.report = b.report ∧
    a.ctx.left_cal = b.ctx.left_cal ∧
    a.ctx.right_cal = b.ctx.right_cal ∧
    a.ctx.m_hdls_controllers.length = b.ctx.m_hdls_controllers.length ∧
    ∀ j, j ≠ i → a.ctx.m_hdls_controllers[j]? = b.ctx.m_hdls_controllers[j]?

/-- Slot `i` is detached in `a` whenever it is attached in `b`. -/
def TickState.detached_where_attached (i : Nat) (a b : TickState) : Prop :=
  ∀ c, b.ctx.m_hdls_controllers[i]? = some c → c.initialized = true →
    ∃ c', a.ctx.m_hdls_controllers[i]? = some c' ∧ c'.initialized = false

/-! ## Bit-level lemmas -/

theorem fieldValue_succ (report : List Nat) (offset n : Nat) :
    fieldValue report offset (n + 1) =
      2 ^ n * (bufferBit report (offset + n)).toNat + fieldValue report offset n := by
  unfold fieldValue
  rw [Finset.sum_range_succ]
  ring

theorem fieldValue_lt (report : List Nat) (offset : Nat) :
    ∀ n, fieldValue report offset n < 2 ^ n := by
  intro n
  induction n with
  | zero => simp [fieldValue]
  | succ n ih =>
    rw [fieldValue_succ]
    have hbit : (bufferBit report (offset + n)).toNat ≤ 1 := Bool.toNat_le _
    have hmul : 2 ^ n * (bufferBit report (offset + n)).toNat ≤ 2 ^ n * 1 :=
      Nat.mul_le_mul_left _ hbit
    rw [pow_succ]
    omega

theorem fieldValue_testBit (report : List Nat) (offset : Nat) :
    ∀ n j, (fieldValue report offset n).testBit j =
      (decide (j < n) && bufferBit report (offset + j)) := by
  intro n
  induction n with
  | zero => intro j; simp [fieldValue]
  | succ n ih =>
    intro j
    rw [fieldValue_succ, Nat.testBit_mul_pow_two_add _ (fieldValue_lt report offset n), ih]
    by_cases h : j < n
    · have h2 : j < n + 1 := by omega
      simp [h, h2]
    · rw [if_neg h, Nat.testBit_bool_to_nat]
      by_cases h3 : j = n
      · subst h3; simp
      · have h4 : ¬ j < n + 1 := by omega
        have h5 : ¬ j - n = 0 := by omega
        simp [h4, h5]

theorem byte_testBit_high {b : Nat} (hb : b < 256) {j : Nat} (hj : 8 ≤ j) :
    b.testBit j = false := by
  apply Nat.testBit_lt_two_pow
  calc b < 2 ^ 8 := hb
    _ ≤ 2 ^ j := Nat.pow_le_pow_right (by decide) hj

theorem hid_field_extract_loop_spec (report : List Nat) (hb : ∀ b ∈ report, b < 256) :
    ∀ (fuel idx bit_nr bit_shift value : Nat) (n : Int),
      bit_shift < 8 → n.toNat ≤ fuel → (bit_nr : Int) + n ≤ 32 →
      (0 < n → ((8 * idx + bit_shift : Nat) : Int) + n ≤ ((8 * report.length : Nat) : Int)) →
      (∀ j, bit_nr ≤ j → value.testBit j = false) →
      ∃ v, hid_field_extract_loop report fuel idx bit_nr bit_shift (8 - bit_shift) value n
            = some v ∧
        ∀ j : Nat, (j : Int) < bit_nr + n → v.testBit j =
          if j < bit_nr then value.testBit j
          else bufferBit report (8 * idx + bit_shift + (j - bit_nr)) := by
  intro fuel
  induction fuel with
  | zero =>
    intro idx bit_nr bit_shift value n _ hfuel _ _ _
    have hn : ¬ n > 0 := by omega
    refine ⟨value, by simp [hid_field_extract_loop, hn], ?_⟩
    intro j hj
    have : j < bit_nr := by omega
    simp [this]
  | succ fuel ih =>
    intro idx bit_nr bit_shift value n hs hfuel h32 hin hval
    by_cases hn : n > 0
    · have hidx : idx < report.length := by
        have := hin hn
        omega
      have hbyte : report[idx] < 256 := hb _ (List.getElem_mem _)
      have hnr : ¬ 32 ≤ bit_nr := by omega
      obtain ⟨v, hv, hbits⟩ := ih (idx + 1) (bit_nr + (8 - bit_shift)) 0
        (value ||| ((report[idx] >>> bit_shift) <<< bit_nr) % 4294967296)
        (n - ((8 - bit_shift : Nat) : Int)) (by omega) (by omega) (by push_cast; omega)
        (by intro h; have := hin hn; push_cast at *; omega)
        (by
          intro j hj
          rw [Nat.testBit_or, hval j (by omega)]
          have h2 : (4294967296 : Nat) = 2 ^ 32 := by norm_num
          rw [h2, Nat.testBit_mod_two_pow, Nat.testBit_shiftLeft, Nat.testBit_shiftRight]
          have : report[idx].testBit (bit_shift + (j - bit_nr)) = false :=
            byte_testBit_high hbyte (by omega)
          simp [this])
      refine ⟨v, ?_, ?_⟩
      · rw [hid_field_extract_loop]
        simp only [hn, if_true, List.getElem?_eq_getElem hidx, hnr, if_false]
        simpa using hv
      · intro j hj
        rw [hbits j (by push_cast; omega)]
        by_cases hj1 : j < bit_nr
        · have hj2 : j < bit_nr + (8 - bit_shift) := by omega
          rw [if_pos hj1, if_pos hj2, Nat.testBit_or]
          have h2 : (4294967296 : Nat) = 2 ^ 32 := by norm_num
          rw [h2, Nat.testBit_mod_two_pow, Nat.testBit_shiftLeft]
          have : ¬ j ≥ bit_nr := by omega
          simp [this]
        · rw [if_neg hj1]
          by_cases hj2 : j < bit_nr + (8 - bit_shift)
          · rw [if_pos hj2, Nat.testBit_or, hval j (by omega)]
            have h2 : (4294967296 : Nat) = 2 ^ 32 := by norm_num
            rw [h2, Nat.testBit_mod_two_pow, Nat.testBit_shiftLeft, Nat.testBit_shiftRight]
            have hj3 : j < 32 := by omega
            have hj4 : j ≥ bit_nr := by omega
            have hdiv : (8 * idx + bit_shift + (j - bit_nr)) / 8 = idx := by omega
            have hmod : (8 * idx + bit_shift + (j - bit_nr)) % 8 = bit_shift + (j - bit_nr) := by
              omega
            simp [hj3, hj4, bufferBit, hdiv, hmod, List.getElem?_eq_getElem hidx]
          · rw [if_neg hj2]
            congr 1
            omega
    · refine ⟨value, by simp [hid_field_extract_loop, hn], ?_⟩
      intro j hj
      have : j < bit_nr := by omega
      simp [this]

theorem hid_field_extract_eq (report : List Nat) (offset n : Nat)
    (hb : ∀ b ∈ report, b < 256) (h1 : 1 ≤ n) (h32 : n ≤ 32)
    (hin : offset + n ≤ 8 * report.length) :
    hid_field_extract report offset (n : Int) = some (fieldValue report offset n) := by
  obtain ⟨v, hv, hbits⟩ := hid_field_extract_loop_spec report hb n (offset / 8) 0 (offset % 8) 0
    (n : Int) (Nat.mod_lt _ (by decide)) (by simp) (by simpa using h32)
    (by intro _; have := Nat.div_add_mod offset 8; push_cast; omega) (by simp)
  have hmask : (if (n : Int) < 32 then (1 <<< n) % 4294967296 - 1 else 4294967295)
      = 2 ^ n - 1 := by
    by_cases h : (n : Int) < 32
    · have hlt : n < 32 := by omega
      have hpow : 2 ^ n < 2 ^ 32 := Nat.pow_lt_pow_right (by decide) hlt
      rw [if_pos h, Nat.shiftLeft_eq, one_mul, Nat.mod_eq_of_lt (by simpa using hpow)]
    · have : n = 32 := by omega
      subst this
      rw [if_neg h]
      norm_num
  unfold hid_field_extract
  have hneg : ¬ (n : Int) < 0 := by omega
  rw [if_neg hneg]
  simp only [Int.toNat_ofNat, hmask, hv, Option.map_some']
  congr 1
  apply Nat.eq_of_testBit_eq
  intro j
  rw [Nat.testBit_and, Nat.testBit_two_pow_sub_one, fieldValue_testBit]
  by_cases hj : j < n
  · rw [hbits j (by simpa using hj)]
    have hoff : 8 * (offset / 8) + offset % 8 + (j - 0) = offset + j := by
      have := Nat.div_add_mod offset 8
      omega
    rw [hoff]
    simp [hj]
  · simp [hj]

/-- C1: for every buffer of bytes, every bit offset and every width `1 ≤ n ≤ 32` whose bits lie
inside the buffer, `hid_field_extract` returns the unsigned integer
`∑ i < n, bit (offset + i) * 2 ^ i`, bit `k` of the buffer being bit `k % 8` of byte `k / 8`;
the result is below `2 ^ n`. -/
theorem hid_field_extract_exact (report : List Nat) (offset n : Nat)
    (hb : ∀ b ∈ report, b < 256) (h1 : 1 ≤ n) (h32 : n ≤ 32)
    (hin : offset + n ≤ 8 * report.length) :
    hid_field_extract report offset (n : Int)
        = some (∑ i in Finset.range n, (bufferBit report (offset + i)).toNat * 2 ^ i) ∧
      (∑ i in Finset.range n, (bufferBit report (offset + i)).toNat * 2 ^ i) < 2 ^ n :=
  ⟨hid_field_extract_eq report offset n hb h1 h32 hin, fieldValue_lt report offset n⟩

theorem hid_field_extract_exact_witness :
    hid_field_extract [0xAB, 0xCD, 0xEF, 0x12, 0xF4] 1 ((32 : Nat) : Int)
        = some (∑ i in Finset.range 32,
            (bufferBit [0xAB, 0xCD, 0xEF, 0x12, 0xF4] (1 + i)).toNat * 2 ^ i) ∧
      (∑ i in Finset.range 32,
          (bufferBit [0xAB, 0xCD, 0xEF, 0x12, 0xF4] (1 + i)).toNat * 2 ^ i) < 2 ^ 32 :=
  hid_field_extract_exact [0xAB, 0xCD, 0xEF, 0x12, 0xF4] 1 32 (by decide) (by decide)
    (by decide) (by decide)

/-! ## Calibration blobs -/

theorem pack12_lo (a b : Nat) (ha : a < 256) :
    ((0 ||| ((a >>> 0) <<< 0) % 4294967296) ||| ((b >>> 0) <<< 8) % 4294967296) &&& 4095
      = a ||| ((b &&& 0xF) <<< 8) := by
  apply Nat.eq_of_testBit_eq
  intro j
  have h32 : (4294967296 : Nat) = 2 ^ 32 := by norm_num
  have h12 : (4095 : Nat) = 2 ^ 12 - 1 := by norm_num
  have h4 : (0xF : Nat) = 2 ^ 4 - 1 := by norm_num
  rw [h32, h12, h4]
  simp only [Nat.testBit_and, Nat.testBit_or, Nat.testBit_mod_two_pow, Nat.testBit_shiftLeft,
    Nat.testBit_shiftRight, Nat.testBit_two_pow_sub_one, Nat.zero_testBit, Nat.zero_add,
    Nat.sub_zero, Bool.false_or]
  by_cases h8 : j < 8
  · have e1 : j < 32 := by omega
    have e2 : j < 12 := by omega
    have e3 : ¬ j ≥ 8 := by omega
    simp [e1, e2, e3]
  · have ea : a.testBit j = false := byte_testBit_high ha (by omega)
    by_cases h12 : j < 12
    · have e1 : j < 32 := by omega
      have e3 : j ≥ 8 := by omega
      have e4 : j - 8 < 4 := by omega
      simp [e1, h12, e3, e4, ea]
    · have e3 : j ≥ 8 := by omega
      have e4 : ¬ j - 8 < 4 := by omega
      simp [h12, e3, e4, ea]

theorem pack12_hi (a b : Nat) (ha : a < 256) (hb : b < 256) :
    ((0 ||| ((a >>> 4) <<< 0) % 4294967296) ||| ((b >>> 0) <<< 4) % 4294967296) &&& 4095
      = (a >>> 4) ||| (b <<< 4) := by
  apply Nat.eq_of_testBit_eq
  intro j
  have h32 : (4294967296 : Nat) = 2 ^ 32 := by norm_num
  have h12 : (4095 : Nat) = 2 ^ 12 - 1 := by norm_num
  rw [h32, h12]
  simp only [Nat.testBit_and, Nat.testBit_or, Nat.testBit_mod_two_pow, Nat.testBit_shiftLeft,
    Nat.testBit_shiftRight, Nat.testBit_two_pow_sub_one, Nat.zero_testBit, Nat.zero_add,
    Nat.sub_zero, Bool.false_or]
  by_cases h12 : j < 12
  · have e1 : j < 32 := by omega
    simp [e1, h12]
  · have ea : a.testBit (4 + j) = false := byte_testBit_high ha (by omega)
    have eb : b.testBit (j - 4) = false := byte_testBit_high hb (by omega)
    simp [h12, ea, eb]

theorem extract12_lo (a b : Nat) (rest : List Nat) (ha : a < 256) :
    hid_field_extract (a :: b :: rest) 0 12 = some (a ||| ((b &&& 0xF) <<< 8)) := by
  have h := pack12_lo a b ha
  simp [hid_field_extract, hid_field_extract_loop] at h ⊢
  exact h

theorem extract12_hi (a b : Nat) (rest : List Nat) (ha : a < 256) (hb : b < 256) :
    hid_field_extract (a :: b :: rest) 4 12 = some ((a >>> 4) ||| (b <<< 4)) := by
  have h := pack12_hi a b ha hb
  simp [hid_field_extract, hid_field_extract_loop] at h ⊢
  exact h

theorem field12_lo_lt (a b : Nat) (ha : a < 256) : a ||| ((b &&& 0xF) <<< 8) < 4096 := by
  rw [← pack12_lo a b ha]
  exact Nat.lt_succ_of_le Nat.and_le_right

theorem field12_hi_lt (a b : Nat) (ha : a < 256) (hb : b < 256) :
    (a >>> 4) ||| (b <<< 4) < 4096 := by
  rw [← pack12_hi a b ha hb]
  exact Nat.lt_succ_of_le Nat.and_le_right

theorem wrap32_of_isS32 {x : Int} (h : isS32 x) : wrap32 x = x := by
  unfold isS32 at h
  unfold wrap32
  omega

theorem nine_bytes (b : List Nat) (hlen : b.length = 9) :
    ∃ b0 b1 b2 b3 b4 b5 b6 b7 b8, b = [b0, b1, b2, b3, b4, b5, b6, b7, b8] := by
  match b, hlen with
  | [b0, b1, b2, b3, b4, b5, b6, b7, b8], _ => exact ⟨b0, b1, b2, b3, b4, b5, b6, b7, b8, rfl⟩

theorem wrap32_field (n : Nat) (h : n < 4096) : wrap32 (n : Int) = (n : Int) := by
  unfold wrap32; omega

theorem wrap32_field_add (a b : Nat) (ha : a < 4096) (hb : b < 4096) :
    wrap32 ((a : Int) + (b : Int)) = (a : Int) + (b : Int) := by
  unfold wrap32; omega

theorem wrap32_field_sub (a b : Nat) (ha : a < 4096) (hb : b < 4096) :
    wrap32 ((a : Int) - (b : Int)) = (a : Int) - (b : Int) := by
  unfold wrap32; omega

/-- C2: for every 9-byte blob `b`, the left-stick layout yields the centers from bytes 3 to 5,
`max = center + delta` with the deltas of bytes 0 to 2 and `min = center - delta` with the
deltas of bytes 6 to 8. -/
theorem joycon_read_stick_calibration_left (b : List Nat) (cal : joycon_stick_cal_xy)
    (hlen : b.length = 9) (hb : ∀ v ∈ b, v < 256) :
    ∃ out, joycon_read_stick_calibration b cal true = some out ∧
      out.x.center = ((b.getD 3 0 ||| ((b.getD 4 0 &&& 0xF) <<< 8) : Nat) : Int) ∧
      out.y.center = (((b.getD 4 0 >>> 4) ||| (b.getD 5 0 <<< 4) : Nat) : Int) ∧
      out.x.max = out.x.center + ((b.getD 0 0 ||| ((b.getD 1 0 &&& 0xF) <<< 8) : Nat) : Int) ∧
      out.y.max = out.y.center + (((b.getD 1 0 >>> 4) ||| (b.getD 2 0 <<< 4) : Nat) : Int) ∧
      out.x.min = out.x.center - ((b.getD 6 0 ||| ((b.getD 7 0 &&& 0xF) <<< 8) : Nat) : Int) ∧
      out.y.min = out.y.center - (((b.getD 7 0 >>> 4) ||| (b.getD 8 0 <<< 4) : Nat) : Int) := by
  obtain ⟨b0, b1, b2, b3, b4, b5, b6, b7, b8, rfl⟩ := nine_bytes b hlen
  have h0 : b0 < 256 := hb _ (by simp)
  have h1 : b1 < 256 := hb _ (by simp)
  have h2 : b2 < 256 := hb _ (by simp)
  have h3 : b3 < 256 := hb _ (by simp)
  have h4 : b4 < 256 := hb _ (by simp)
  have h5 : b5 < 256 := hb _ (by simp)
  have h6 : b6 < 256 := hb _ (by simp)
  have h7 : b7 < 256 := hb _ (by simp)
  have h8 : b8 < 256 := hb _ (by simp)
  have l0 := field12_lo_lt b0 b1 h0
  have l3 := field12_lo_lt b3 b4 h3
  have l6 := field12_lo_lt b6 b7 h6
  have l1 := field12_hi_lt b1 b2 h1 h2
  have l4 := field12_hi_lt b4 b5 h4 h5
  have l7 := field12_hi_lt b7 b8 h7 h8
  have e0 : hid_field_extract (List.drop 0 [b0, b1, b2, b3, b4, b5, b6, b7, b8]) 0 12 = _ :=
    extract12_lo b0 b1 _ h0
  have e3 : hid_field_extract (List.drop 3 [b0, b1, b2, b3, b4, b5, b6, b7, b8]) 0 12 = _ :=
    extract12_lo b3 b4 _ h3
  have e6 : hid_field_extract (List.drop 6 [b0, b1, b2, b3, b4, b5, b6, b7, b8]) 0 12 = _ :=
    extract12_lo b6 b7 _ h6
  have e1 : hid_field_extract (List.drop 1 [b0, b1, b2, b3, b4, b5, b6, b7, b8]) 4 12 = _ :=
    extract12_hi b1 b2 _ h1 h2
  have e4 : hid_field_extract (List.drop 4 [b0, b1, b2, b3, b4, b5, b6, b7, b8]) 4 12 = _ :=
    extract12_hi b4 b5 _ h4 h5
  have e7 : hid_field_extract (List.drop 7 [b0, b1, b2, b3, b4, b5, b6, b7, b8]) 4 12 = _ :=
    extract12_hi b7 b8 _ h7 h8
  have hEq : joycon_read_stick_calibration [b0, b1, b2, b3, b4, b5, b6, b7, b8] cal true
      = some
        { x := { max := ((b3 ||| ((b4 &&& 0xF) <<< 8) : Nat) : Int)
                    + ((b0 ||| ((b1 &&& 0xF) <<< 8) : Nat) : Int),
                 min := ((b3 ||| ((b4 &&& 0xF) <<< 8) : Nat) : Int)
                    - ((b6 ||| ((b7 &&& 0xF) <<< 8) : Nat) : Int),
                 center := ((b3 ||| ((b4 &&& 0xF) <<< 8) : Nat) : Int) },
          y := { max := (((b4 >>> 4) ||| (b5 <<< 4) : Nat) : Int)
                    + (((b1 >>> 4) ||| (b2 <<< 4) : Nat) : Int),
                 min := (((b4 >>> 4) ||| (b5 <<< 4) : Nat) : Int)
                    - (((b7 >>> 4) ||| (b8 <<< 4) : Nat) : Int),
                 center := (((b4 >>> 4) ||| (b5 <<< 4) : Nat) : Int) } } := by
    unfold joycon_read_stick_calibration
    rw [if_pos rfl, e0, e3, e6, e1, e4, e7]
    simp only [Option.bind_eq_bind, Option.some_bind, Option.pure_def, wrap32_field _ l0,
      wrap32_field _ l1, wrap32_field _ l3, wrap32_field _ l4, wrap32_field _ l6,
      wrap32_field _ l7, wrap32_field_add _ _ l3 l0, wrap32_field_add _ _ l4 l1,
      wrap32_field_sub _ _ l3 l6, wrap32_field_sub _ _ l4 l7]
  exact ⟨_, hEq, rfl, rfl, rfl, rfl, rfl, rfl⟩

theorem joycon_read_stick_calibration_left_witness :
    ∃ out, joycon_read_stick_calibration [1, 2, 3, 4, 5, 6, 7, 8, 9]
        ⟨⟨0, 0, 0⟩, ⟨0, 0, 0⟩⟩ true = some out ∧
      out.x.center = (((([1, 2, 3, 4, 5, 6, 7, 8, 9] : List Nat).getD 3 0 |||
        ((([1, 2, 3, 4, 5, 6, 7, 8, 9] : List Nat).getD 4 0 &&& 0xF) <<< 8) : Nat)) : Int) ∧
      out.y.center = ((((([1, 2, 3, 4, 5, 6, 7, 8, 9] : List Nat).getD 4 0 >>> 4) |||
        (([1, 2, 3, 4, 5, 6, 7, 8, 9] : List Nat).getD 5 0 <<< 4) : Nat)) : Int) ∧
      out.x.max = out.x.center + (((([1, 2, 3, 4, 5, 6, 7, 8, 9] : List Nat).getD 0 0 |||
        ((([1, 2, 3, 4, 5, 6, 7, 8, 9] : List Nat).getD 1 0 &&& 0xF) <<< 8) : Nat)) : Int) ∧
      out.y.max = out.y.center + ((((([1, 2, 3, 4, 5, 6, 7, 8, 9] : List Nat).getD 1 0 >>> 4) |||
        (([1, 2, 3, 4, 5, 6, 7, 8, 9] : List Nat).getD 2 0 <<< 4) : Nat)) : Int) ∧
      out.x.min = out.x.center - (((([1, 2, 3, 4, 5, 6, 7, 8, 9] : List Nat).getD 6 0 |||
        ((([1, 2, 3, 4, 5, 6, 7, 8, 9] : List Nat).getD 7 0 &&& 0xF) <<< 8) : Nat)) : Int) ∧
      out.y.min = out.y.center - ((((([1, 2, 3, 4, 5, 6, 7, 8, 9] : List Nat).getD 7 0 >>> 4) |||
        (([1, 2, 3, 4, 5, 6, 7, 8, 9] : List Nat).getD 8 0 <<< 4) : Nat)) : Int) :=
  joycon_read_stick_calibration_left [1, 2, 3, 4, 5, 6, 7, 8, 9] ⟨⟨0, 0, 0⟩, ⟨0, 0, 0⟩⟩
    (by decide) (by decide)

/-- C3: for every 9-byte blob `b`, the right-stick layout is the role-reversed one: the centers
come from bytes 0 to 2, `min = center - delta` with the deltas of bytes 3 to 5 and
`max = center + delta` with the deltas of bytes 6 to 8. -/
theorem joycon_read_stick_calibration_right (b : List Nat) (cal : joycon_stick_cal_xy)
    (hlen : b.length = 9) (hb : ∀ v ∈ b, v < 256) :
    ∃ out, joycon_read_stick_calibration b cal false = some out ∧
      out.x.center = ((b.getD 0 0 ||| ((b.getD 1 0 &&& 0xF) <<< 8) : Nat) : Int) ∧
      out.y.center = (((b.getD 1 0 >>> 4) ||| (b.getD 2 0 <<< 4) : Nat) : Int) ∧
      out.x.min = out.x.center - ((b.getD 3 0 ||| ((b.getD 4 0 &&& 0xF) <<< 8) : Nat) : Int) ∧
      out.y.min = out.y.center - (((b.getD 4 0 >>> 4) ||| (b.getD 5 0 <<< 4) : Nat) : Int) ∧
      out.x.max = out.x.center + ((b.getD 6 0 ||| ((b.getD 7 0 &&& 0xF) <<< 8) : Nat) : Int) ∧
      out.y.max = out.y.center + (((b.getD 7 0 >>> 4) ||| (b.getD 8 0 <<< 4) : Nat) : Int) := by
  obtain ⟨b0, b1, b2, b3, b4, b5, b6, b7, b8, rfl⟩ := nine_bytes b hlen
  have h0 : b0 < 256 := hb _ (by simp)
  have h1 : b1 < 256 := hb _ (by simp)
  have h2 : b2 < 256 := hb _ (by simp)
  have h3 : b3 < 256 := hb _ (by simp)
  have h4 : b4 < 256 := hb _ (by simp)
  have h5 : b5 < 256 := hb _ (by simp)
  have h6 : b6 < 256 := hb _ (by simp)
  have h7 : b7 < 256 := hb _ (by simp)
  have h8 : b8 < 256 := hb _ (by simp)
  have l0 := field12_lo_lt b0 b1 h0
  have l3 := field12_lo_lt b3 b4 h3
  have l6 := field12_lo_lt b6 b7 h6
  have l1 := field12_hi_lt b1 b2 h1 h2
  have l4 := field12_hi_lt b4 b5 h4 h5
  have l7 := field12_hi_lt b7 b8 h7 h8
  have e0 : hid_field_extract (List.drop 0 [b0, b1, b2, b3, b4, b5, b6, b7, b8]) 0 12 = _ :=
    extract12_lo b0 b1 _ h0
  have e3 : hid_field_extract (List.drop 3 [b0, b1, b2, b3, b4, b5, b6, b7, b8]) 0 12 = _ :=
    extract12_lo b3 b4 _ h3
  have e6 : hid_field_extract (List.drop 6 [b0, b1, b2, b3, b4, b5, b6, b7, b8]) 0 12 = _ :=
    extract12_lo b6 b7 _ h6
  have e1 : hid_field_extract (List.drop 1 [b0, b1, b2, b3, b4, b5, b6, b7, b8]) 4 12 = _ :=
    extract12_hi b1 b2 _ h1 h2
  have e4 : hid_field_extract (List.drop 4 [b0, b1, b2, b3, b4, b5, b6, b7, b8]) 4 12 = _ :=
    extract12_hi b4 b5 _ h4 h5
  have e7 : hid_field_extract (List.drop 7 [b0, b1, b2, b3, b4, b5, b6, b7, b8]) 4 12 = _ :=
    extract12_hi b7 b8 _ h7 h8
  have hEq : joycon_read_stick_calibration [b0, b1, b2, b3, b4, b5, b6, b7, b8] cal false
      = some
        { x := { max := ((b0 ||| ((b1 &&& 0xF) <<< 8) : Nat) : Int)
                    + ((b6 ||| ((b7 &&& 0xF) <<< 8) : Nat) : Int),
                 min := ((b0 ||| ((b1 &&& 0xF) <<< 8) : Nat) : Int)
                    - ((b3 ||| ((b4 &&& 0xF) <<< 8) : Nat) : Int),
                 center := ((b0 ||| ((b1 &&& 0xF) <<< 8) : Nat) : Int) },
          y := { max := (((b1 >>> 4) ||| (b2 <<< 4) : Nat) : Int)
                    + (((b7 >>> 4) ||| (b8 <<< 4) : Nat) : Int),
                 min := (((b1 >>> 4) ||| (b2 <<< 4) : Nat) : Int)
                    - (((b4 >>> 4) ||| (b5 <<< 4) : Nat) : Int),
                 center := (((b1 >>> 4) ||| (b2 <<< 4) : Nat) : Int) } } := by
    unfold joycon_read_stick_calibration
    rw [if_neg Bool.false_ne_true, e0, e3, e6, e1, e4, e7]
    simp only [Option.bind_eq_bind, Option.some_bind, Option.pure_def, wrap32_field _ l0,
      wrap32_field _ l1, wrap32_field _ l3, wrap32_field _ l4, wrap32_field _ l6,
      wrap32_field _ l7, wrap32_field_add _ _ l0 l6, wrap32_field_add _ _ l1 l7,
      wrap32_field_sub _ _ l0 l3, wrap32_field_sub _ _ l1 l4]
  exact ⟨_, hEq, rfl, rfl, rfl, rfl, rfl, rfl⟩

theorem joycon_read_stick_calibration_right_witness :
    ∃ out, joycon_read_stick_calibration [1, 2, 3, 4, 5, 6, 7, 8, 9]
        ⟨⟨0, 0, 0⟩, ⟨0, 0, 0⟩⟩ false = some out ∧
      out.x.center = (((([1, 2, 3, 4, 5, 6, 7, 8, 9] : List Nat).getD 0 0 |||
        ((([1, 2, 3, 4, 5, 6, 7, 8, 9] : List Nat).getD 1 0 &&& 0xF) <<< 8) : Nat)) : Int) ∧
      out.y.center = ((((([1, 2, 3, 4, 5, 6, 7, 8, 9] : List Nat).getD 1 0 >>> 4) |||
        (([1, 2, 3, 4, 5, 6, 7, 8, 9] : List Nat).getD 2 0 <<< 4) : Nat)) : Int) ∧
      out.x.min = out.x.center - (((([1, 2, 3, 4, 5, 6, 7, 8, 9] : List Nat).getD 3 0 |||
        ((([1, 2, 3, 4, 5, 6, 7, 8, 9] : List Nat).getD 4 0 &&& 0xF) <<< 8) : Nat)) : Int) ∧
      out.y.min = out.y.center - ((((([1, 2, 3, 4, 5, 6, 7, 8, 9] : List Nat).getD 4 0 >>> 4) |||
        (([1, 2, 3, 4, 5, 6, 7, 8, 9] : List Nat).getD 5 0 <<< 4) : Nat)) : Int) ∧
      out.x.max = out.x.center + (((([1, 2, 3, 4, 5, 6, 7, 8, 9] : List Nat).getD 6 0 |||
        ((([1, 2, 3, 4, 5, 6, 7, 8, 9] : List Nat).getD 7 0 &&& 0xF) <<< 8) : Nat)) : Int) ∧
      out.y.max = out.y.center + ((((([1, 2, 3, 4, 5, 6, 7, 8, 9] : List Nat).getD 7 0 >>> 4) |||
        (([1, 2, 3, 4, 5, 6, 7, 8, 9] : List Nat).getD 8 0 <<< 4) : Nat)) : Int) :=
  joycon_read_stick_calibration_right [1, 2, 3, 4, 5, 6, 7, 8, 9] ⟨⟨0, 0, 0⟩, ⟨0, 0, 0⟩⟩
    (by decide) (by decide)

/-! ## The stick mapper -/

theorem clamp_bounds (v : Int) : -32767 ≤ clamp v (-32767) 32767 ∧ clamp v (-32767) 32767 ≤ 32767 := by
  unfold clamp
  split
  · omega
  · split <;> omega

theorem clamp_mono {u v : Int} (h : u ≤ v) :
    clamp u (-32767) 32767 ≤ clamp v (-32767) 32767 := by
  unfold clamp
  split <;> split <;> (try split) <;> (try split) <;> omega

theorem sdiv32_eq (a b : Int) (h0 : b ≠ 0) (h1 : b ≠ -1) :
    sdiv32 a b = some (wrap32 (Int.tdiv a b)) := by
  unfold sdiv32
  rw [if_neg]
  rintro (h | ⟨_, h⟩)
  · exact h0 h
  · exact h1 h

theorem sdiv32_zero (a : Int) : sdiv32 a 0 = none := by
  simp [sdiv32]

/-- The mapper above the center, when neither the span nor the product overflows. -/
theorem joycon_map_stick_val_above (cal : joycon_stick_cal) (val : Int)
    (hv : cal.center < val) (hval : val - cal.center ≤ 65538)
    (hmax : cal.center < cal.max) (hspan : cal.max - cal.center ≤ 2147483647) :
    joycon_map_stick_val cal val
      = some (clamp (((val - cal.center) * 32767) / (cal.max - cal.center)) (-32767) 32767) := by
  have hd : wrap32 (cal.max - cal.center) = cal.max - cal.center := by unfold wrap32; omega
  have hn1 : wrap32 (val - cal.center) = val - cal.center := by unfold wrap32; omega
  have hn2 : wrap32 ((val - cal.center) * 32767) = (val - cal.center) * 32767 := by
    unfold wrap32; omega
  have hnum : 0 ≤ (val - cal.center) * 32767 := by omega
  have hq0 : 0 ≤ ((val - cal.center) * 32767) / (cal.max - cal.center) :=
    Int.ediv_nonneg hnum (by omega)
  have hq1 : ((val - cal.center) * 32767) / (cal.max - cal.center) ≤ (val - cal.center) * 32767 :=
    Int.ediv_le_self _ hnum
  have hq : wrap32 (((val - cal.center) * 32767) / (cal.max - cal.center))
      = ((val - cal.center) * 32767) / (cal.max - cal.center) := by
    unfold wrap32; omega
  have hne : cal.max - cal.center ≠ 0 := by omega
  have hne1 : cal.max - cal.center ≠ -1 := by omega
  have hgt : val > cal.center := hv
  simp only [joycon_map_stick_val, JC_MAX_STICK_MAG, hgt, if_true, hd, hn1, hn2,
    sdiv32_eq _ _ hne hne1,
    Int.tdiv_eq_ediv hnum (by omega : (0 : Int) ≤ cal.max - cal.center), hq,
    Option.map_some']

/-- The mapper at or below the center, when neither the span nor the product overflows. -/
theorem joycon_map_stick_val_below (cal : joycon_stick_cal) (val : Int)
    (hv : val ≤ cal.center) (hval : cal.center - val ≤ 65538)
    (hmin : cal.min < cal.center) (hspan : cal.center - cal.min ≤ 2147483647) :
    joycon_map_stick_val cal val
      = some (clamp (-(((cal.center - val) * 32767) / (cal.center - cal.min))) (-32767) 32767) := by
  have hd : wrap32 (cal.center - cal.min) = cal.center - cal.min := by unfold wrap32; omega
  have hn1 : wrap32 (cal.center - val) = cal.center - val := by unfold wrap32; omega
  have hn2 : wrap32 ((cal.center - val) * -32767) = -((cal.center - val) * 32767) := by
    unfold wrap32; omega
  have hnum : 0 ≤ (cal.center - val) * 32767 := by omega
  have hq0 : 0 ≤ ((cal.center - val) * 32767) / (cal.center - cal.min) :=
    Int.ediv_nonneg hnum (by omega)
  have hq1 : ((cal.center - val) * 32767) / (cal.center - cal.min) ≤ (cal.center - val) * 32767 :=
    Int.ediv_le_self _ hnum
  have hq : wrap32 (-(((cal.center - val) * 32767) / (cal.center - cal.min)))
      = -(((cal.center - val) * 32767) / (cal.center - cal.min)) := by
    unfold wrap32; omega
  have hne : cal.center - cal.min ≠ 0 := by omega
  have hne1 : cal.center - cal.min ≠ -1 := by omega
  have hgt : ¬ val > cal.center := by omega
  simp only [joycon_map_stick_val, JC_MAX_STICK_MAG, hgt, if_false, hd, hn1, hn2,
    sdiv32_eq _ _ hne hne1,
    Int.neg_tdiv, Int.tdiv_eq_ediv hnum (by omega : (0 : Int) ≤ cal.center - cal.min), hq,
    Option.map_some']

theorem wrap32_span_ne_zero {lo hi : Int} (hlo : isS32 lo) (hhi : isS32 hi) (h : lo < hi) :
    wrap32 (hi - lo) ≠ 0 := by
  unfold isS32 at hlo hhi
  unfold wrap32
  omega

/-- The wrapped span of two `s32` values is not `-1` unless they are the two ends of the
`s32` range. -/
theorem wrap32_span_ne_neg_one {lo hi : Int} (hlo : isS32 lo) (hhi : isS32 hi) (h : lo < hi)
    (hends : -2147483648 < lo ∨ hi < 2147483647) : wrap32 (hi - lo) ≠ -1 := by
  unfold isS32 at hlo hhi
  unfold wrap32
  omega

/-- C4, as the code has it: for every axis calibration of `s32` members with
`min < center < max` the mapper returns `0` at the center; it returns `32767` at `max` when
`max - center ≤ 65538` and `-32767` at `min` when `center - min ≤ 65538`, the spans for which
the 32-bit product does not overflow. -/
theorem joycon_map_stick_val_landmarks (cal : joycon_stick_cal) (hwf : cal.wf)
    (hlo : cal.min < cal.center) (hhi : cal.center < cal.max) :
    joycon_map_stick_val cal cal.center = some 0 ∧
      (cal.max - cal.center ≤ 65538 → joycon_map_stick_val cal cal.max = some 32767) ∧
      (cal.center - cal.min ≤ 65538 → joycon_map_stick_val cal cal.min = some (-32767)) := by
  obtain ⟨hmax, hmin, hcen⟩ := hwf
  refine ⟨?_, ?_, ?_⟩
  · have hne : wrap32 (cal.center - cal.min) ≠ 0 := wrap32_span_ne_zero hmin hcen hlo
    have hne1 : wrap32 (cal.center - cal.min) ≠ -1 :=
      wrap32_span_ne_neg_one hmin hcen hlo (Or.inr (by unfold isS32 at hmax; omega))
    have hgt : ¬ cal.center > cal.center := lt_irrefl _
    have hw0 : wrap32 0 = 0 := by decide
    simp only [joycon_map_stick_val, hgt, if_false, sub_self, hw0, zero_mul,
      sdiv32_eq _ _ hne hne1, Int.zero_tdiv, Option.map_some']
    rfl
  · intro hspan
    rw [joycon_map_stick_val_above cal cal.max hhi hspan hhi (by omega)]
    have hne : cal.max - cal.center ≠ 0 := by omega
    rw [Int.mul_ediv_cancel_left _ hne]
    rfl
  · intro hspan
    rw [joycon_map_stick_val_below cal cal.min (le_of_lt hlo) hspan hlo (by omega)]
    have hne : cal.center - cal.min ≠ 0 := by omega
    rw [Int.mul_ediv_cancel_left _ hne]
    rfl

theorem joycon_map_stick_val_landmarks_witness :
    joycon_map_stick_val ⟨3000, 1000, 2000⟩ 2000 = some 0 ∧
      joycon_map_stick_val ⟨3000, 1000, 2000⟩ 3000 = some 32767 ∧
      joycon_map_stick_val ⟨3000, 1000, 2000⟩ 1000 = some (-32767) :=
  have h := joycon_map_stick_val_landmarks ⟨3000, 1000, 2000⟩ (by decide) (by decide)
    (by decide)
  ⟨h.1, h.2.1 (by decide), h.2.2 (by decide)⟩

/-- C4 as stated fails: the calibration `min = 0`, `center = 1`, `max = 100001` has `s32`
members with `min < center < max`, and the mapper returns `-10182` at `max`, not `32767`. -/
theorem joycon_map_stick_val_max_overflow :
    (⟨100001, 0, 1⟩ : joycon_stick_cal).wf ∧ (0 : Int) < 1 ∧ (1 : Int) < 100001 ∧
      joycon_map_stick_val ⟨100001, 0, 1⟩ 100001 = some (-10182) ∧
      joycon_map_stick_val ⟨100001, 0, 1⟩ 100001 ≠ some 32767 := by
  decide

/-- C5, as the code has it: for every axis calibration with `min < center < max` whose spans
fit in an `s32`, the mapper is monotonic non-decreasing over the raw values within `65538` of
the center, the values for which the 32-bit product does not overflow. -/
theorem joycon_map_stick_val_monotone (cal : joycon_stick_cal)
    (hlo : cal.min < cal.center) (hhi : cal.center < cal.max)
    (hspan_lo : cal.center - cal.min ≤ 2147483647) (hspan_hi : cal.max - cal.center ≤ 2147483647)
    (a b : Int) (hab : a ≤ b) (ha : cal.center - 65538 ≤ a) (hb : b ≤ cal.center + 65538) :
    ∃ ra rb, joycon_map_stick_val cal a = some ra ∧ joycon_map_stick_val cal b = some rb ∧
      ra ≤ rb := by
  by_cases hbc : cal.center < b
  · by_cases hac : cal.center < a
    · refine ⟨_, _, joycon_map_stick_val_above cal a hac (by omega) hhi hspan_hi,
        joycon_map_stick_val_above cal b hbc (by omega) hhi hspan_hi, ?_⟩
      apply clamp_mono
      apply Int.ediv_le_ediv (by omega)
      omega
    · refine ⟨_, _, joycon_map_stick_val_below cal a (by omega) (by omega) hlo hspan_lo,
        joycon_map_stick_val_above cal b hbc (by omega) hhi hspan_hi, ?_⟩
      apply clamp_mono
      have h1 : 0 ≤ ((cal.center - a) * 32767) / (cal.center - cal.min) :=
        Int.ediv_nonneg (by omega) (by omega)
      have h2 : 0 ≤ ((b - cal.center) * 32767) / (cal.max - cal.center) :=
        Int.ediv_nonneg (by omega) (by omega)
      omega
  · refine ⟨_, _, joycon_map_stick_val_below cal a (by omega) (by omega) hlo hspan_lo,
      joycon_map_stick_val_below cal b (by omega) (by omega) hlo hspan_lo, ?_⟩
    apply clamp_mono
    have h1 : ((cal.center - b) * 32767) / (cal.center - cal.min)
        ≤ ((cal.center - a) * 32767) / (cal.center - cal.min) :=
      Int.ediv_le_ediv (by omega) (by omega)
    omega

theorem joycon_map_stick_val_monotone_witness :
    ∃ ra rb, joycon_map_stick_val ⟨3000, 1000, 2000⟩ 1500 = some ra ∧
      joycon_map_stick_val ⟨3000, 1000, 2000⟩ 2500 = some rb ∧ ra ≤ rb :=
  joycon_map_stick_val_monotone ⟨3000, 1000, 2000⟩ (by decide) (by decide) (by decide)
    (by decide) 1500 2500 (by decide) (by decide) (by decide)

/-- C5 as stated fails: with `min = -1`, `center = 0`, `max = 1` the raw values
`65538 ≤ 65539` are `s32` values and map to `32767` and `-32767`. -/
theorem joycon_map_stick_val_not_monotone :
    (⟨1, -1, 0⟩ : joycon_stick_cal).wf ∧ (-1 : Int) < 0 ∧ (0 : Int) < 1 ∧
      isS32 65538 ∧ isS32 65539 ∧ (65538 : Int) ≤ 65539 ∧
      joycon_map_stick_val ⟨1, -1, 0⟩ 65538 = some 32767 ∧
      joycon_map_stick_val ⟨1, -1, 0⟩ 65539 = some (-32767) := by
  decide

/-- C6: for every axis calibration of `s32` members with `min < center < max` and every
integer raw value, however far below `min` or above `max`, the mapper returns a value, and
that value lies in `[-32767, 32767]`. -/
theorem joycon_map_stick_val_range (cal : joycon_stick_cal) (hwf : cal.wf)
    (hlo : cal.min < cal.center) (hhi : cal.center < cal.max) (val : Int) :
    ∃ r, joycon_map_stick_val cal val = some r ∧ -32767 ≤ r ∧ r ≤ 32767 := by
  obtain ⟨hmax, hmin, hcen⟩ := hwf
  by_cases hgt : val > cal.center
  · have hne : wrap32 (cal.max - cal.center) ≠ 0 := wrap32_span_ne_zero hcen hmax hhi
    have hne1 : wrap32 (cal.max - cal.center) ≠ -1 :=
      wrap32_span_ne_neg_one hcen hmax hhi (Or.inl (by unfold isS32 at hmin; omega))
    simp only [joycon_map_stick_val, hgt, if_true, sdiv32_eq _ _ hne hne1, Option.map_some',
      JC_MAX_STICK_MAG]
    exact ⟨_, rfl, clamp_bounds _⟩
  · have hne : wrap32 (cal.center - cal.min) ≠ 0 := wrap32_span_ne_zero hmin hcen hlo
    have hne1 : wrap32 (cal.center - cal.min) ≠ -1 :=
      wrap32_span_ne_neg_one hmin hcen hlo (Or.inr (by unfold isS32 at hmax; omega))
    simp only [joycon_map_stick_val, hgt, if_false, sdiv32_eq _ _ hne hne1, Option.map_some',
      JC_MAX_STICK_MAG]
    exact ⟨_, rfl, clamp_bounds _⟩

theorem joycon_map_stick_val_range_witness :
    ∃ r, joycon_map_stick_val ⟨3000, 1000, 2000⟩ 2147483647 = some r ∧ -32767 ≤ r ∧ r ≤ 32767 :=
  joycon_map_stick_val_range ⟨3000, 1000, 2000⟩ (by decide) (by decide) (by decide)
    2147483647

/-- C7: with the zero calibration `min = center = max = 0` the mapper divides by zero for
every raw value, so the call has no defined result. -/
theorem joycon_map_stick_val_zero_cal (val : Int) :
    joycon_map_stick_val ⟨0, 0, 0⟩ val = none := by
  have hw0 : wrap32 ((0 : Int) - 0) = 0 := by decide
  by_cases hgt : val > 0
  · simp only [joycon_map_stick_val, hgt, if_true, hw0, sdiv32_zero, Option.map_none']
  · simp only [joycon_map_stick_val, hgt, if_false, hw0, sdiv32_zero, Option.map_none']

/-! ## Player LEDs -/

theorem led_index_lt (led_mask : Nat) (h8 : led_mask < 256) :
    (led_mask &&& 0xf) ||| (led_mask >>> 4) < 16 := by
  have h1 : led_mask &&& 0xf < 2 ^ 4 := Nat.lt_succ_of_le Nat.and_le_right
  have h2 : led_mask >>> 4 < 2 ^ 4 := by
    rw [Nat.shiftRight_eq_div_pow]
    omega
  exact Nat.or_lt_two_pow h1 h2

/-- C8: for every 8-bit `led_mask`, `LedsMaskToPlayerNumber` looks up the combined nibble
`c = (led_mask & 0xF) | (led_mask >> 4)` in the 16-entry table: it fails exactly when the
entry is `Unknown` and otherwise succeeds with the entry, so two masks with the same `c` give
the same result; mask `0b0001` gives player one, `0b1111` gives player four, and `0b0000`,
`0b0010`, `0b0100` give an error. -/
theorem LedsMaskToPlayerNumber_table (led_mask : Nat) (h8 : led_mask < 256) :
    (∃ r p, LedsMaskToPlayerNumber led_mask = some (r, p) ∧
        led_player_mappings[(led_mask &&& 0xf) ||| (led_mask >>> 4)]? = some p ∧
        (R_FAILED r = true ↔ p = SwitchPlayerNumber.Unknown) ∧
        (R_SUCCEEDED r = true ↔ p ≠ SwitchPlayerNumber.Unknown)) ∧
      (∀ other : Nat,
        (other &&& 0xf) ||| (other >>> 4) = (led_mask &&& 0xf) ||| (led_mask >>> 4) →
        LedsMaskToPlayerNumber other = LedsMaskToPlayerNumber led_mask) ∧
      LedsMaskToPlayerNumber 0b0001 = some (0, SwitchPlayerNumber.One) ∧
      LedsMaskToPlayerNumber 0b1111 = some (0, SwitchPlayerNumber.Four) ∧
      LedsMaskToPlayerNumber 0b0000 = some (RESULT_MINUS_ONE, SwitchPlayerNumber.Unknown) ∧
      LedsMaskToPlayerNumber 0b0010 = some (RESULT_MINUS_ONE, SwitchPlayerNumber.Unknown) ∧
      LedsMaskToPlayerNumber 0b0100 = some (RESULT_MINUS_ONE, SwitchPlayerNumber.Unknown) := by
  refine ⟨?_, ?_, by decide, by decide, by decide, by decide, by decide⟩
  · have hlt : (led_mask &&& 0xf) ||| (led_mask >>> 4) < led_player_mappings.length :=
      led_index_lt led_mask h8
    have hget := List.getElem?_eq_getElem hlt
    by_cases hp : led_player_mappings[(led_mask &&& 0xf) ||| (led_mask >>> 4)]
        = SwitchPlayerNumber.Unknown
    · refine ⟨RESULT_MINUS_ONE, _, ?_, hget, ?_, ?_⟩
      · simp only [LedsMaskToPlayerNumber, hget, hp, if_true]
      · simp [hp, R_FAILED, RESULT_MINUS_ONE]
      · simp [hp, R_SUCCEEDED, RESULT_MINUS_ONE]
    · refine ⟨0, _, ?_, hget, ?_, ?_⟩
      · simp only [LedsMaskToPlayerNumber, hget, hp, if_false]
      · simp [hp, R_FAILED]
      · simp [hp, R_SUCCEEDED]
  · intro other hc
    simp only [LedsMaskToPlayerNumber, hc]

theorem LedsMaskToPlayerNumber_table_witness :
    (∃ r p, LedsMaskToPlayerNumber 0x11 = some (r, p) ∧
        led_player_mappings[(0x11 &&& 0xf) ||| (0x11 >>> 4)]? = some p ∧
        (R_FAILED r = true ↔ p = SwitchPlayerNumber.Unknown) ∧
        (R_SUCCEEDED r = true ↔ p ≠ SwitchPlayerNumber.Unknown)) ∧
      (∀ other : Nat,
        (other &&& 0xf) ||| (other >>> 4) = (0x11 &&& 0xf) ||| (0x11 >>> 4) →
        LedsMaskToPlayerNumber other = LedsMaskToPlayerNumber 0x11) ∧
      LedsMaskToPlayerNumber 0b0001 = some (0, SwitchPlayerNumber.One) ∧
      LedsMaskToPlayerNumber 0b1111 = some (0, SwitchPlayerNumber.Four) ∧
      LedsMaskToPlayerNumber 0b0000 = some (RESULT_MINUS_ONE, SwitchPlayerNumber.Unknown) ∧
      LedsMaskToPlayerNumber 0b0010 = some (RESULT_MINUS_ONE, SwitchPlayerNumber.Unknown) ∧
      LedsMaskToPlayerNumber 0b0100 = some (RESULT_MINUS_ONE, SwitchPlayerNumber.Unknown) :=
  LedsMaskToPlayerNumber_table 0x11 (by decide)

/-! ## Calibration magic -/

/-- C9: for every pair of bytes `(b0, b1)`, `has_cal_magic` returns true if and only if it is
not the case that `b0 = 0xB2` and `b1 = 0xA1`. -/
theorem has_cal_magic_iff_magic_absent (b0 b1 : Nat) (rest : List Nat) :
    ∃ r, has_cal_magic (b0 :: b1 :: rest) = some r ∧
      (r = true ↔ ¬ (b0 = 0xB2 ∧ b1 = 0xA1)) := by
  by_cases h0 : b0 = 0xB2
  · by_cases h1 : b1 = 0xA1
    · exact ⟨false, by simp [has_cal_magic, JC_CAL_USR_MAGIC_0, JC_CAL_USR_MAGIC_1, h0, h1],
        by simp [h0, h1]⟩
    · exact ⟨true, by simp [has_cal_magic, JC_CAL_USR_MAGIC_0, JC_CAL_USR_MAGIC_1, h0, h1],
        by simp [h1]⟩
  · exact ⟨true, by simp [has_cal_magic, JC_CAL_USR_MAGIC_0, h0], by simp [h0]⟩

/-! ## Translation of a report -/

theorem hdls_loop_body_unselected (STICK_CENTER : Nat) (drv : DriverAnswers) (hdls_id i : Nat)
    (st : TickState) (hi : i < st.ctx.m_hdls_controllers.length) (hne : i ≠ hdls_id) :
    ∃ st', hdls_loop_body STICK_CENTER drv hdls_id i st = some st' ∧
      st'.report = st.report ∧
      st'.ctx.m_hdls_controllers.length = st.ctx.m_hdls_controllers.length := by
  unfold hdls_loop_body
  rw [List.getElem?_eq_getElem hi]
  by_cases hinit : st.ctx.m_hdls_controllers[i].initialized = true
  · by_cases hfail : R_FAILED (drv.push_result i) = true
    · simp [hinit, hne, hfail]
    · simp [hinit, hne, hfail]
  · simp [hinit]

theorem hdls_loop_unselected (STICK_CENTER : Nat) (drv : DriverAnswers) (hdls_id : Nat) :
    ∀ (slots : List Nat) (st : TickState),
      (∀ i ∈ slots, i < st.ctx.m_hdls_controllers.length ∧ i ≠ hdls_id) →
      ∃ st', hdls_loop STICK_CENTER drv hdls_id slots st = some st' ∧
        st'.report = st.report := by
  intro slots
  induction slots with
  | nil => intro st _; exact ⟨st, rfl, rfl⟩
  | cons i rest ih =>
    intro st h
    obtain ⟨hi, hne⟩ := h i (List.mem_cons_self _ _)
    obtain ⟨st1, hbody, hrep, hlen⟩ := hdls_loop_body_unselected STICK_CENTER drv hdls_id i st hi hne
    obtain ⟨st2, hloop, hrep2⟩ := ih st1 (by
      intro j hj
      rw [hlen]
      exact h j (List.mem_cons_of_mem _ hj))
    refine ⟨st2, ?_, hrep2.trans hrep⟩
    simp only [hdls_loop, hbody, hloop]

/-- With none of ZL, L, R held `TranslateInputReport` returns and leaves the report as it
received it. -/
theorem TranslateInputReport_unselected (STICK_CENTER : Nat) (drv : DriverAnswers)
    (ctx : SwitchController) (input_report : SwitchInputReport)
    (hlen : ctx.m_hdls_controllers.length ≤ SIZE_MAX)
    (hZL : input_report.buttons.ZL = false) (hL : input_report.buttons.L = false)
    (hR : input_report.buttons.R = false) :
    ∃ st, TranslateInputReport STICK_CENTER drv ctx input_report = some st ∧
      st.report = input_report := by
  have hid : select_hdls_id input_report.buttons = SIZE_MAX := by
    simp [select_hdls_id, hZL, hL, hR]
  have hcombo : hdls_combo drv SIZE_MAX { ctx := ctx, report := input_report, calls := [] }
      = some { ctx := { ctx with m_hdls_combo_pressed := false }, report := input_report,
               calls := [] } := by
    simp [hdls_combo]
  obtain ⟨st, hloop, hrep⟩ := hdls_loop_unselected STICK_CENTER drv SIZE_MAX
    (List.range ctx.m_hdls_controllers.length)
    { ctx := { ctx with m_hdls_combo_pressed := false }, report := input_report, calls := [] }
    (by
      intro i hi
      have := List.mem_range.mp hi
      exact ⟨this, by omega⟩)
  refine ⟨st, ?_, hrep⟩
  simp only [TranslateInputReport, hid, hcombo]
  exact hloop

/-- C10: for every report with none of ZL, L, R held and both `minus` and `dpad_down` set,
`TranslateInputReport` followed by `ApplyButtonCombos` returns a report with `home` set,
`minus` and `dpad_down` cleared, and every other button bit and both sticks unchanged. -/
theorem home_combo_in_passthrough (STICK_CENTER : Nat) (drv : DriverAnswers)
    (ctx : SwitchController) (input_report : SwitchInputReport)
    (hlen : ctx.m_hdls_controllers.length ≤ SIZE_MAX)
    (hZL : input_report.buttons.ZL = false) (hL : input_report.buttons.L = false)
    (hR : input_report.buttons.R = false)
    (hminus : input_report.buttons.minus = true)
    (hdown : input_report.buttons.dpad_down = true) :
    ∃ st, TranslateAndApplyCombos STICK_CENTER drv ctx input_report = some st ∧
      st.report = { input_report with
        buttons := { input_report.buttons with
          home := true, minus := false, dpad_down := false } } := by
  obtain ⟨st, htr, hrep⟩ := TranslateInputReport_unselected STICK_CENTER drv ctx input_report
    hlen hZL hL hR
  refine ⟨_, by simp only [TranslateAndApplyCombos, htr]; rfl, ?_⟩
  simp [hrep, ApplyButtonCombos, hminus, hdown]

theorem home_combo_in_passthrough_witness :
    ∃ st, TranslateAndApplyCombos 0x800 example_driver example_controller example_report
        = some st ∧
      st.report = { example_report with
        buttons := { example_report.buttons with
          home := true, minus := false, dpad_down := false } } :=
  home_combo_in_passthrough 0x800 example_driver example_controller example_report
    (by decide) rfl rfl rfl rfl rfl


/-! ## Button chords -/

/-- C11, as the code has it: `ApplyButtonCombos` applies the two chord rules one after the
other to the bits as updated in place.  With `minus` and `dpad_down` set at entry only the
home rule fires, whatever `dpad_up` is: `home` is set, `minus` and `dpad_down` are cleared and
every other bit, `capture` and `dpad_up` included, is unchanged.  With `minus` and `dpad_up`
set and `dpad_down` clear at entry, `capture` is set and `minus` and `dpad_up` are cleared. -/
theorem ApplyButtonCombos_in_sequence (buttons : SwitchButtonData)
    (hminus : buttons.minus = true) :
    (buttons.dpad_down = true →
        ApplyButtonCombos buttons
          = { buttons with home := true, minus := false, dpad_down := false }) ∧
      (buttons.dpad_down = false → buttons.dpad_up = true →
        ApplyButtonCombos buttons
          = { buttons with capture := true, minus := false, dpad_up := false }) := by
  constructor
  · intro hdown
    simp [ApplyButtonCombos, hminus, hdown]
  · intro hdown hup
    simp [ApplyButtonCombos, hminus, hdown, hup]

theorem ApplyButtonCombos_in_sequence_witness :
    ApplyButtonCombos
        { SwitchButtonData.zero with minus := true, dpad_down := true, dpad_up := true }
      = { SwitchButtonData.zero with home := true, dpad_up := true } ∧
    ApplyButtonCombos { SwitchButtonData.zero with minus := true, dpad_up := true }
      = { SwitchButtonData.zero with capture := true } :=
  ⟨(ApplyButtonCombos_in_sequence
      { SwitchButtonData.zero with minus := true, dpad_down := true, dpad_up := true } rfl).1 rfl,
    (ApplyButtonCombos_in_sequence
      { SwitchButtonData.zero with minus := true, dpad_up := true } rfl).2 rfl rfl⟩

/-- C11 as stated fails: with `minus`, `dpad_down` and `dpad_up` all set at entry the result
has `home` set but `capture` clear and `dpad_up` still set. -/
theorem ApplyButtonCombos_capture_not_fired :
    (ApplyButtonCombos
        { SwitchButtonData.zero with minus := true, dpad_down := true, dpad_up := true }).home
      = true ∧
    (ApplyButtonCombos
        { SwitchButtonData.zero with minus := true, dpad_down := true, dpad_up := true }).capture
      = false ∧
    (ApplyButtonCombos
        { SwitchButtonData.zero with minus := true, dpad_down := true, dpad_up := true }).dpad_up
      = true := by
  decide

/-! ## Pass-through ticks -/

/-- C14: for every tick whose report has none of ZL, L, R held, and for every slot table,
`TranslateInputReport` returns and leaves the button field and both stick fields of the
report exactly as received. -/
theorem TranslateInputReport_passthrough (STICK_CENTER : Nat) (drv : DriverAnswers)
    (ctx : SwitchController) (input_report : SwitchInputReport)
    (hlen : ctx.m_hdls_controllers.length ≤ SIZE_MAX)
    (hZL : input_report.buttons.ZL = false) (hL : input_report.buttons.L = false)
    (hR : input_report.buttons.R = false) :
    ∃ st, TranslateInputReport STICK_CENTER drv ctx input_report = some st ∧
      st.report.buttons = input_report.buttons ∧
      st.report.left_stick = input_report.left_stick ∧
      st.report.right_stick = input_report.right_stick := by
  obtain ⟨st, htr, hrep⟩ := TranslateInputReport_unselected STICK_CENTER drv ctx input_report
    hlen hZL hL hR
  exact ⟨st, htr, by rw [hrep], by rw [hrep], by rw [hrep]⟩

theorem TranslateInputReport_passthrough_witness :
    ∃ st, TranslateInputReport 0x800 example_driver example_controller example_report
        = some st ∧
      st.report.buttons = example_report.buttons ∧
      st.report.left_stick = example_report.left_stick ∧
      st.report.right_stick = example_report.right_stick :=
  TranslateInputReport_passthrough 0x800 example_driver example_controller example_report
    (by decide) rfl rfl rfl

/-! ## Pending responses -/

theorem ingest_length (q : List HidResponse) (event : BtdrvHidEventType × HidReportEventInfo) :
    (ingest q event).length = q.length := by
  obtain ⟨kind, e⟩ := event
  cases q with
  | nil => cases kind <;> rfl
  | cons front rest =>
    cases kind
    · simp only [ingest, HandleDataReportEvent_responses]
      split <;> rfl
    · simp only [ingest, HandleSetReportEvent]
      split <;> rfl
    · simp only [ingest, HandleGetReportEvent]
      split <;> rfl

/-- C19: for every queue and every inbound event each handler looks at the front descriptor
only.  When the expected kind of the front is the kind of the event and, for a data report,
its tag is the first byte of the report, the front afterwards holds the payload of the event;
otherwise the queue is left as it was, so the front receives the payload exactly in that
case.  Nothing behind the front is touched, and the descriptors keep their number, order,
kinds and tags in every case. -/
theorem handlers_deliver_to_front_only (q : List HidResponse)
    (event_info : HidReportEventInfo) :
    FrontOnlyDelivery
        (fun front => front.type = BtdrvHidEventType.Data ∧
          front.user_data = event_info.report.data_0)
        q (HandleDataReportEvent_responses q event_info) event_info ∧
      FrontOnlyDelivery (fun front => front.type = BtdrvHidEventType.SetReport)
        q (HandleSetReportEvent q event_info).1 event_info ∧
      FrontOnlyDelivery (fun front => front.type = BtdrvHidEventType.GetReport)
        q (HandleGetReportEvent q event_info).1 event_info := by
  cases q with
  | nil =>
    refine ⟨?_, ?_, ?_⟩ <;>
      exact ⟨rfl, rfl, rfl, fun front rest h => by cases h⟩
  | cons f r =>
    refine ⟨?_, ?_, ?_⟩
    · by_cases hm : f.type = BtdrvHidEventType.Data ∧ f.user_data = event_info.report.data_0
      · have hq : HandleDataReportEvent_responses (f :: r) event_info
            = f.SetData event_info :: r := by
          simp [HandleDataReportEvent_responses, HidResponse.GetType, HidResponse.GetUserData, hm]
        rw [hq]
        refine ⟨rfl, rfl, rfl, ?_⟩
        intro front rest h
        cases h
        exact ⟨fun _ => rfl, fun hn => absurd hm hn, fun _ => ⟨fun _ => hm, fun _ => rfl⟩⟩
      · have hq : HandleDataReportEvent_responses (f :: r) event_info = f :: r := by
          simp only [HandleDataReportEvent_responses, HidResponse.GetType,
            HidResponse.GetUserData, hm, if_false]
        rw [hq]
        refine ⟨rfl, rfl, rfl, ?_⟩
        intro front rest h
        cases h
        exact ⟨fun hy => absurd hy hm, fun _ => rfl,
          fun hnone => ⟨fun h => by simp [hnone] at h, fun hy => absurd hy hm⟩⟩
    · by_cases hm : f.type = BtdrvHidEventType.SetReport
      · have hq : (HandleSetReportEvent (f :: r) event_info).1 = f.SetData event_info :: r := by
          simp [HandleSetReportEvent, HidResponse.GetType, hm]
        rw [hq]
        refine ⟨rfl, rfl, rfl, ?_⟩
        intro front rest h
        cases h
        exact ⟨fun _ => rfl, fun hn => absurd hm hn, fun _ => ⟨fun _ => hm, fun _ => rfl⟩⟩
      · have hq : (HandleSetReportEvent (f :: r) event_info).1 = f :: r := by
          simp [HandleSetReportEvent, HidResponse.GetType, hm]
        rw [hq]
        refine ⟨rfl, rfl, rfl, ?_⟩
        intro front rest h
        cases h
        exact ⟨fun hy => absurd hy hm, fun _ => rfl,
          fun hnone => ⟨fun h => by simp [hnone] at h, fun hy => absurd hy hm⟩⟩
    · by_cases hm : f.type = BtdrvHidEventType.GetReport
      · have hq : (HandleGetReportEvent (f :: r) event_info).1 = f.SetData event_info :: r := by
          simp [HandleGetReportEvent, HidResponse.GetType, hm]
        rw [hq]
        refine ⟨rfl, rfl, rfl, ?_⟩
        intro front rest h
        cases h
        exact ⟨fun _ => rfl, fun hn => absurd hm hn, fun _ => ⟨fun _ => hm, fun _ => rfl⟩⟩
      · have hq : (HandleGetReportEvent (f :: r) event_info).1 = f :: r := by
          simp [HandleGetReportEvent, HidResponse.GetType, hm]
        rw [hq]
        refine ⟨rfl, rfl, rfl, ?_⟩
        intro front rest h
        cases h
        exact ⟨fun hy => absurd hy hm, fun _ => rfl,
          fun hnone => ⟨fun h => by simp [hnone] at h, fun hy => absurd hy hm⟩⟩

theorem hdls_loop_body_skip (STICK_CENTER : Nat) (drv : DriverAnswers) (hdls_id i : Nat)
    (st : TickState) (c : hdls_controller)
    (hc : st.ctx.m_hdls_controllers[i]? = some c) (hinit : c.initialized = false) :
    hdls_loop_body STICK_CENTER drv hdls_id i st = some st := by
  unfold hdls_loop_body
  rw [hc]
  simp [hinit]

theorem hdls_loop_body_idle (STICK_CENTER : Nat) (drv : DriverAnswers) (hdls_id i : Nat)
    (st : TickState) (c : hdls_controller)
    (hc : st.ctx.m_hdls_controllers[i]? = some c) (hinit : c.initialized = true)
    (hne : i ≠ hdls_id) :
    hdls_loop_body STICK_CENTER drv hdls_id i st
      = some (push_slot drv i st c (idle_state c.state) st.report) := by
  unfold hdls_loop_body
  rw [hc]
  by_cases hfail : R_FAILED (drv.push_result i) = true
  · simp [hinit, hne, hfail, push_slot, idle_state]
  · simp [hinit, hne, hfail, push_slot, idle_state]

theorem hdls_loop_body_selected (STICK_CENTER : Nat) (drv : DriverAnswers) (hdls_id : Nat)
    (st : TickState) (c : hdls_controller) (lx ly rx ry : Int)
    (hc : st.ctx.m_hdls_controllers[hdls_id]? = some c) (hinit : c.initialized = true)
    (hlx : joycon_map_stick_val st.ctx.left_cal.x st.report.left_stick.GetX = some lx)
    (hly : joycon_map_stick_val st.ctx.left_cal.y st.report.left_stick.GetY = some ly)
    (hrx : joycon_map_stick_val st.ctx.right_cal.x st.report.right_stick.GetX = some rx)
    (hry : joycon_map_stick_val st.ctx.right_cal.y st.report.right_stick.GetY = some ry) :
    hdls_loop_body STICK_CENTER drv hdls_id hdls_id st
      = some (push_slot drv hdls_id st c
          { buttons := hdls_buttons st.report.buttons,
            analog_stick_l := { x := lx, y := ly },
            analog_stick_r := { x := rx, y := ry } }
          (consumed_report STICK_CENTER st.report)) := by
  unfold SwitchController.left_cal at hlx hly
  unfold SwitchController.right_cal at hrx hry
  unfold hdls_loop_body
  rw [hc]
  by_cases hfail : R_FAILED (drv.push_result hdls_id) = true
  · simp [hinit, hfail, push_slot, consumed_report, hlx, hly, hrx, hry]
  · simp [hinit, hfail, push_slot, consumed_report, hlx, hly, hrx, hry]

theorem push_slot_report (drv : DriverAnswers) (i : Nat) (st : TickState)
    (c : hdls_controller) (state : HiddbgHdlsState) (report : SwitchInputReport) :
    (push_slot drv i st c state report).report = report := by
  unfold push_slot
  split <;> rfl

theorem push_slot_slots (drv : DriverAnswers) (i : Nat) (st : TickState)
    (c : hdls_controller) (state : HiddbgHdlsState) (report : SwitchInputReport) :
    (push_slot drv i st c state report).ctx.m_hdls_controllers
      = st.ctx.m_hdls_controllers.set i
          { c with state := state, initialized := c.initialized && !R_FAILED (drv.push_result i) } := by
  unfold push_slot
  by_cases hfail : R_FAILED (drv.push_result i) = true
  · simp [hfail]
  · simp [hfail]

theorem push_slot_settings (drv : DriverAnswers) (i : Nat) (st : TickState)
    (c : hdls_controller) (state : HiddbgHdlsState) (report : SwitchInputReport) :
    (push_slot drv i st c state report).ctx.left_cal = st.ctx.left_cal ∧
      (push_slot drv i st c state report).ctx.right_cal = st.ctx.right_cal ∧
      (push_slot drv i st c state report).ctx.m_hdls_combo_pressed
        = st.ctx.m_hdls_combo_pressed := by
  unfold push_slot
  split <;> exact ⟨rfl, rfl, rfl⟩

theorem push_slot_calls (drv : DriverAnswers) (i : Nat) (st : TickState)
    (c : hdls_controller) (state : HiddbgHdlsState) (report : SwitchInputReport) :
    DriverCall.hiddbgSetHdlsState c.handle state ∈ (push_slot drv i st c state report).calls ∧
      ∀ x ∈ st.calls, x ∈ (push_slot drv i st c state report).calls := by
  unfold push_slot
  split <;> simp <;> tauto

theorem hdls_loop_body_other (STICK_CENTER : Nat) (drv : DriverAnswers) (hdls_id i : Nat)
    (st : TickState) (c : hdls_controller)
    (hc : st.ctx.m_hdls_controllers[i]? = some c)
    (h : c.initialized = false ∨ i ≠ hdls_id) :
    ∃ st', hdls_loop_body STICK_CENTER drv hdls_id i st = some st' ∧
      st'.report = st.report ∧
      st'.ctx.left_cal = st.ctx.left_cal ∧
      st'.ctx.right_cal = st.ctx.right_cal ∧
      st'.ctx.m_hdls_combo_pressed = st.ctx.m_hdls_combo_pressed ∧
      st'.ctx.m_hdls_controllers.length = st.ctx.m_hdls_controllers.length ∧
      (∀ j, j ≠ i → st'.ctx.m_hdls_controllers[j]? = st.ctx.m_hdls_controllers[j]?) ∧
      (∀ x ∈ st.calls, x ∈ st'.calls) := by
  by_cases hinit : c.initialized = true
  · have hne : i ≠ hdls_id := by
      rcases h with h | h
      · rw [hinit] at h; cases h
      · exact h
    refine ⟨_, hdls_loop_body_idle STICK_CENTER drv hdls_id i st c hc hinit hne,
      push_slot_report _ _ _ _ _ _, (push_slot_settings _ _ _ _ _ _).1,
      (push_slot_settings _ _ _ _ _ _).2.1, (push_slot_settings _ _ _ _ _ _).2.2, ?_, ?_,
      (push_slot_calls _ _ _ _ _ _).2⟩
    · rw [push_slot_slots, List.length_set]
    · intro j hj
      rw [push_slot_slots, List.getElem?_set_ne (Ne.symm hj)]
  · have hfalse : c.initialized = false := by simpa using hinit
    exact ⟨st, hdls_loop_body_skip STICK_CENTER drv hdls_id i st c hc hfalse, rfl, rfl, rfl,
      rfl, rfl, fun _ _ => rfl, fun _ hx => hx⟩

theorem hdls_loop_others (STICK_CENTER : Nat) (drv : DriverAnswers) (hdls_id : Nat) :
    ∀ (slots : List Nat) (st : TickState),
      (∀ i ∈ slots, i < st.ctx.m_hdls_controllers.length) →
      (hdls_id ∈ slots →
        ∃ c, st.ctx.m_hdls_controllers[hdls_id]? = some c ∧ c.initialized = false) →
      ∃ st', hdls_loop STICK_CENTER drv hdls_id slots st = some st' ∧
        st'.report = st.report ∧
        st'.ctx.left_cal = st.ctx.left_cal ∧
        st'.ctx.right_cal = st.ctx.right_cal ∧
        st'.ctx.m_hdls_combo_pressed = st.ctx.m_hdls_combo_pressed ∧
        st'.ctx.m_hdls_controllers.length = st.ctx.m_hdls_controllers.length ∧
        (∀ j, j ∉ slots → st'.ctx.m_hdls_controllers[j]? = st.ctx.m_hdls_controllers[j]?) ∧
        st'.ctx.m_hdls_controllers[hdls_id]? = st.ctx.m_hdls_controllers[hdls_id]? ∧
        (∀ x ∈ st.calls, x ∈ st'.calls) := by
  intro slots
  induction slots with
  | nil =>
    intro st _ _
    exact ⟨st, rfl, rfl, rfl, rfl, rfl, rfl, fun _ _ => rfl, rfl, fun _ hx => hx⟩
  | cons i rest ih =>
    intro st hlt hsel
    have hi : i < st.ctx.m_hdls_controllers.length := hlt i (List.mem_cons_self _ _)
    have hc : st.ctx.m_hdls_controllers[i]? = some st.ctx.m_hdls_controllers[i] :=
      List.getElem?_eq_getElem hi
    have hcase : st.ctx.m_hdls_controllers[i].initialized = false ∨ i ≠ hdls_id := by
      by_cases hid : i = hdls_id
      · left
        obtain ⟨c, hc', hinit⟩ := hsel (by rw [hid]; exact List.mem_cons_self _ _)
        rw [← hid, hc] at hc'
        cases hc'
        exact hinit
      · exact Or.inr hid
    obtain ⟨st1, hbody, hrep, hl, hr, hflag, hlen, hframe, hcalls⟩ :=
      hdls_loop_body_other STICK_CENTER drv hdls_id i st _ hc hcase
    have hsel1 : st1.ctx.m_hdls_controllers[hdls_id]? = st.ctx.m_hdls_controllers[hdls_id]? := by
      by_cases hid : hdls_id = i
      · rcases hcase with hinit | hne
        · have := hdls_loop_body_skip STICK_CENTER drv hdls_id i st _ hc hinit
          rw [this] at hbody
          cases hbody
          rfl
        · exact absurd hid.symm hne
      · exact hframe hdls_id hid
    obtain ⟨st2, hloop, hrep2, hl2, hr2, hflag2, hlen2, hframe2, hsel2, hcalls2⟩ := ih st1
      (by
        intro j hj
        rw [hlen]
        exact hlt j (List.mem_cons_of_mem _ hj))
      (by
        intro hmem
        rw [hsel1]
        exact hsel (List.mem_cons_of_mem _ hmem))
    refine ⟨st2, ?_, hrep2.trans hrep, hl2.trans hl, hr2.trans hr, hflag2.trans hflag,
      hlen2.trans hlen, ?_, hsel2.trans hsel1, fun x hx => hcalls2 x (hcalls x hx)⟩
    · simp only [hdls_loop, hbody, hloop]
    · intro j hj
      have hji : j ≠ i := fun h => hj (by rw [h]; exact List.mem_cons_self _ _)
      have hjr : j ∉ rest := fun h => hj (List.mem_cons_of_mem _ h)
      rw [hframe2 j hjr, hframe j hji]

theorem hdls_loop_selected (STICK_CENTER : Nat) (drv : DriverAnswers) (hdls_id : Nat)
    (c : hdls_controller) (rep : SwitchInputReport) (cal_l cal_r : joycon_stick_cal_xy)
    (lx ly rx ry : Int) (hinit : c.initialized = true)
    (hlx : joycon_map_stick_val cal_l.x rep.left_stick.GetX = some lx)
    (hly : joycon_map_stick_val cal_l.y rep.left_stick.GetY = some ly)
    (hrx : joycon_map_stick_val cal_r.x rep.right_stick.GetX = some rx)
    (hry : joycon_map_stick_val cal_r.y rep.right_stick.GetY = some ry) :
    ∀ (slots : List Nat) (st : TickState),
      slots.Nodup →
      (∀ i ∈ slots, i < st.ctx.m_hdls_controllers.length) →
      hdls_id ∈ slots →
      st.ctx.m_hdls_controllers[hdls_id]? = some c →
      st.report = rep → st.ctx.left_cal = cal_l → st.ctx.right_cal = cal_r →
      ∃ st', hdls_loop STICK_CENTER drv hdls_id slots st = some st' ∧
        st'.report = consumed_report STICK_CENTER rep ∧
        st'.ctx.m_hdls_controllers[hdls_id]? = some
          { c with
            state := { buttons := hdls_buttons rep.buttons,
                       analog_stick_l := { x := lx, y := ly },
                       analog_stick_r := { x := rx, y := ry } },
            initialized := c.initialized && !R_FAILED (drv.push_result hdls_id) } ∧
        DriverCall.hiddbgSetHdlsState c.handle
          { buttons := hdls_buttons rep.buttons,
            analog_stick_l := { x := lx, y := ly },
            analog_stick_r := { x := rx, y := ry } } ∈ st'.calls ∧
        st'.ctx.m_hdls_combo_pressed = st.ctx.m_hdls_combo_pressed ∧
        st'.ctx.m_hdls_controllers.length = st.ctx.m_hdls_controllers.length ∧
        (∀ j, j ∉ slots → st'.ctx.m_hdls_controllers[j]? = st.ctx.m_hdls_controllers[j]?) := by
  intro slots
  induction slots with
  | nil => intro st _ _ hmem; cases hmem
  | cons i rest ih =>
    intro st hnodup hlt hmem hc hrep hl hr
    have hi : i < st.ctx.m_hdls_controllers.length := hlt i (List.mem_cons_self _ _)
    obtain ⟨hirest, hnodup'⟩ := List.nodup_cons.mp hnodup
    by_cases hid : i = hdls_id
    · subst hid
      have hbody := hdls_loop_body_selected STICK_CENTER drv i st c lx ly rx ry hc hinit
        (by rw [hl, hrep]; exact hlx) (by rw [hl, hrep]; exact hly)
        (by rw [hr, hrep]; exact hrx) (by rw [hr, hrep]; exact hry)
      rw [hrep] at hbody
      obtain ⟨st2, hloop, hrep2, _, _, hflag2, hlen2, hframe2, hsel2, hcalls2⟩ :=
        hdls_loop_others STICK_CENTER drv i rest
          (push_slot drv i st c
            { buttons := hdls_buttons rep.buttons,
              analog_stick_l := { x := lx, y := ly },
              analog_stick_r := { x := rx, y := ry } }
            (consumed_report STICK_CENTER rep))
          (by
            intro j hj
            rw [push_slot_slots, List.length_set]
            exact hlt j (List.mem_cons_of_mem _ hj))
          (fun h => absurd h hirest)
      refine ⟨st2, ?_, ?_, ?_, ?_, ?_, ?_, ?_⟩
      · simp only [hdls_loop, hbody, hloop]
      · rw [hrep2, push_slot_report]
      · rw [hsel2, push_slot_slots, List.getElem?_set_self hi]
      · exact hcalls2 _ (push_slot_calls _ _ _ _ _ _).1
      · rw [hflag2, (push_slot_settings _ _ _ _ _ _).2.2]
      · rw [hlen2, push_slot_slots, List.length_set]
      · intro j hj
        have hji : j ≠ i := fun h => hj (by rw [h]; exact List.mem_cons_self _ _)
        have hjr : j ∉ rest := fun h => hj (List.mem_cons_of_mem _ h)
        rw [hframe2 j hjr, push_slot_slots, List.getElem?_set_ne (Ne.symm hji)]
    · have hci : st.ctx.m_hdls_controllers[i]? = some st.ctx.m_hdls_controllers[i] :=
        List.getElem?_eq_getElem hi
      obtain ⟨st1, hbody, hrep1, hl1, hr1, hflag1, hlen1, hframe1, hcalls1⟩ :=
        hdls_loop_body_other STICK_CENTER drv hdls_id i st _ hci (Or.inr hid)
      have hmem' : hdls_id ∈ rest := by
        rcases List.mem_cons.mp hmem with h | h
        · exact absurd h.symm hid
        · exact h
      obtain ⟨st2, hloop, hrep2, hslot2, hcall2, hflag2, hlen2, hframe2⟩ := ih st1 hnodup'
        (by
          intro j hj
          rw [hlen1]
          exact hlt j (List.mem_cons_of_mem _ hj))
        hmem'
        (by rw [hframe1 hdls_id (Ne.symm hid)]; exact hc)
        (hrep1.trans hrep) (hl1.trans hl) (hr1.trans hr)
      refine ⟨st2, ?_, hrep2, hslot2, hcall2, hflag2.trans hflag1, hlen2.trans hlen1, ?_⟩
      · simp only [hdls_loop, hbody, hloop]
      · intro j hj
        have hji : j ≠ i := fun h => hj (by rw [h]; exact List.mem_cons_self _ _)
        have hjr : j ∉ rest := fun h => hj (List.mem_cons_of_mem _ h)
        rw [hframe2 j hjr, hframe1 j hji]

/-! ## The attach chord -/

theorem hdls_combo_frame (drv : DriverAnswers) (hdls_id : Nat) (st st1 : TickState)
    (h : hdls_combo drv hdls_id st = some st1) :
    st1.report = st.report ∧
      st1.ctx.left_cal = st.ctx.left_cal ∧
      st1.ctx.right_cal = st.ctx.right_cal ∧
      st1.ctx.m_hdls_controllers.length = st.ctx.m_hdls_controllers.length ∧
      (∀ j, j ≠ hdls_id → st1.ctx.m_hdls_controllers[j]? = st.ctx.m_hdls_controllers[j]?) := by
  unfold hdls_combo at h
  dsimp only at h
  split at h
  · split at h
    · cases h
    · split at h
      · split at h
        · cases h
          refine ⟨rfl, rfl, rfl, by simp, ?_⟩
          intro j hj
          simp [List.getElem?_set_ne (Ne.symm hj)]
        · split at h
          · cases h
          · split at h
            · cases h
            · cases h
              refine ⟨rfl, rfl, rfl, by simp, ?_⟩
              intro j hj
              simp [List.getElem?_set_ne (Ne.symm hj)]
      · cases h
        exact ⟨rfl, rfl, rfl, rfl, fun _ _ => rfl⟩
  · cases h
    exact ⟨rfl, rfl, rfl, rfl, fun _ _ => rfl⟩

theorem joycon_map_stick_val_defined (cal : joycon_stick_cal) (hvalid : cal.valid) (val : Int) :
    ∃ r, joycon_map_stick_val cal val = some r := by
  obtain ⟨⟨hmax, hmin, hcen⟩, hlo, hhi⟩ := hvalid
  by_cases hgt : val > cal.center
  · have hne : wrap32 (cal.max - cal.center) ≠ 0 := wrap32_span_ne_zero hcen hmax hhi
    have hne1 : wrap32 (cal.max - cal.center) ≠ -1 :=
      wrap32_span_ne_neg_one hcen hmax hhi (Or.inl (by unfold isS32 at hmin; omega))
    simp only [joycon_map_stick_val, hgt, if_true, sdiv32_eq _ _ hne hne1, Option.map_some']
    exact ⟨_, rfl⟩
  · have hne : wrap32 (cal.center - cal.min) ≠ 0 := wrap32_span_ne_zero hmin hcen hlo
    have hne1 : wrap32 (cal.center - cal.min) ≠ -1 :=
      wrap32_span_ne_neg_one hmin hcen hlo (Or.inr (by unfold isS32 at hmax; omega))
    simp only [joycon_map_stick_val, hgt, if_false, sdiv32_eq _ _ hne hne1, Option.map_some']
    exact ⟨_, rfl⟩

/-- A tick whose selected slot is attached when the loop visits it, with the four stick
values mapped: the tick returns, the report is consumed and the selected slot is pushed the
mapped state. -/
theorem TranslateInputReport_selected (STICK_CENTER : Nat) (drv : DriverAnswers)
    (ctx : SwitchController) (input_report : SwitchInputReport) (st1 : TickState)
    (c : hdls_controller) (lx ly rx ry : Int)
    (hcombo : hdls_combo drv (select_hdls_id input_report.buttons)
      { ctx := ctx, report := input_report, calls := [] } = some st1)
    (hslot : st1.ctx.m_hdls_controllers[select_hdls_id input_report.buttons]? = some c)
    (hinit : c.initialized = true)
    (hlx : joycon_map_stick_val ctx.left_cal.x input_report.left_stick.GetX = some lx)
    (hly : joycon_map_stick_val ctx.left_cal.y input_report.left_stick.GetY = some ly)
    (hrx : joycon_map_stick_val ctx.right_cal.x input_report.right_stick.GetX = some rx)
    (hry : joycon_map_stick_val ctx.right_cal.y input_report.right_stick.GetY = some ry) :
    ∃ st, TranslateInputReport STICK_CENTER drv ctx input_report = some st ∧
      st.report = consumed_report STICK_CENTER input_report ∧
      st.ctx.m_hdls_controllers[select_hdls_id input_report.buttons]? = some
        { c with
          state := { buttons := hdls_buttons input_report.buttons,
                     analog_stick_l := { x := lx, y := ly },
                     analog_stick_r := { x := rx, y := ry } },
          initialized := c.initialized &&
            !R_FAILED (drv.push_result (select_hdls_id input_report.buttons)) } ∧
      DriverCall.hiddbgSetHdlsState c.handle
        { buttons := hdls_buttons input_report.buttons,
          analog_stick_l := { x := lx, y := ly },
          analog_stick_r := { x := rx, y := ry } } ∈ st.calls := by
  obtain ⟨hrep, hl, hr, _, _⟩ := hdls_combo_frame drv _ _ st1 hcombo
  have hlt : select_hdls_id input_report.buttons < st1.ctx.m_hdls_controllers.length := by
    obtain ⟨h, _⟩ := List.getElem?_eq_some.mp hslot
    exact h
  obtain ⟨st, hloop, hrep2, hslot2, hcall2, _, _, _⟩ :=
    hdls_loop_selected STICK_CENTER drv (select_hdls_id input_report.buttons) c input_report
      ctx.left_cal ctx.right_cal lx ly rx ry hinit hlx hly hrx hry
      (List.range st1.ctx.m_hdls_controllers.length) st1 (List.nodup_range _)
      (fun i hi => List.mem_range.mp hi) (List.mem_range.mpr hlt) hslot hrep hl hr
  refine ⟨st, ?_, hrep2, hslot2, hcall2⟩
  simp only [TranslateInputReport, hcombo]
  exact hloop

/-- A tick whose selected slot is not attached when the loop visits it: the tick returns and
the report is left as received. -/
theorem TranslateInputReport_selected_detached (STICK_CENTER : Nat) (drv : DriverAnswers)
    (ctx : SwitchController) (input_report : SwitchInputReport) (st1 : TickState)
    (c : hdls_controller)
    (hcombo : hdls_combo drv (select_hdls_id input_report.buttons)
      { ctx := ctx, report := input_report, calls := [] } = some st1)
    (hslot : st1.ctx.m_hdls_controllers[select_hdls_id input_report.buttons]? = some c)
    (hinit : c.initialized = false) :
    ∃ st, TranslateInputReport STICK_CENTER drv ctx input_report = some st ∧
      st.report = input_report := by
  obtain ⟨hrep, _, _, _, _⟩ := hdls_combo_frame drv _ _ st1 hcombo
  obtain ⟨st, hloop, hrep2, _⟩ :=
    hdls_loop_others STICK_CENTER drv (select_hdls_id input_report.buttons)
      (List.range st1.ctx.m_hdls_controllers.length) st1
      (fun i hi => List.mem_range.mp hi) (fun _ => ⟨c, hslot, hinit⟩)
  refine ⟨st, ?_, hrep2.trans hrep⟩
  simp only [TranslateInputReport, hcombo]
  exact hloop

theorem cals_valid_defined (ctx : SwitchController) (hvalid : ctx.cals_valid)
    (input_report : SwitchInputReport) :
    ∃ lx ly rx ry,
      joycon_map_stick_val ctx.left_cal.x input_report.left_stick.GetX = some lx ∧
      joycon_map_stick_val ctx.left_cal.y input_report.left_stick.GetY = some ly ∧
      joycon_map_stick_val ctx.right_cal.x input_report.right_stick.GetX = some rx ∧
      joycon_map_stick_val ctx.right_cal.y input_report.right_stick.GetY = some ry := by
  obtain ⟨h1, h2, h3, h4⟩ := hvalid
  obtain ⟨lx, hlx⟩ := joycon_map_stick_val_defined _ h1 input_report.left_stick.GetX
  obtain ⟨ly, hly⟩ := joycon_map_stick_val_defined _ h2 input_report.left_stick.GetY
  obtain ⟨rx, hrx⟩ := joycon_map_stick_val_defined _ h3 input_report.right_stick.GetX
  obtain ⟨ry, hry⟩ := joycon_map_stick_val_defined _ h4 input_report.right_stick.GetY
  exact ⟨lx, ly, rx, ry, hlx, hly, hrx, hry⟩

/-- C13, as the code has it: for every tick whose selected slot is attached when the loop
visits it, that is after the chord has been applied, and whose applied calibrations are valid,
the report is left with its button field cleared and both sticks set to `STICK_CENTER`; when
the selected slot is not attached at that point the report is left exactly as received. -/
theorem report_consumed_iff_selected_slot_attached (STICK_CENTER : Nat) (drv : DriverAnswers)
    (ctx : SwitchController) (input_report : SwitchInputReport) (st1 : TickState)
    (c : hdls_controller)
    (hcombo : hdls_combo drv (select_hdls_id input_report.buttons)
      { ctx := ctx, report := input_report, calls := [] } = some st1)
    (hslot : st1.ctx.m_hdls_controllers[select_hdls_id input_report.buttons]? = some c) :
    (c.initialized = true → ctx.cals_valid →
        ∃ st, TranslateInputReport STICK_CENTER drv ctx input_report = some st ∧
          st.report.buttons = SwitchButtonData.zero ∧
          st.report.left_stick = ⟨STICK_CENTER, STICK_CENTER⟩ ∧
          st.report.right_stick = ⟨STICK_CENTER, STICK_CENTER⟩) ∧
      (c.initialized = false →
        ∃ st, TranslateInputReport STICK_CENTER drv ctx input_report = some st ∧
          st.report = input_report) := by
  constructor
  · intro hinit hvalid
    obtain ⟨lx, ly, rx, ry, hlx, hly, hrx, hry⟩ := cals_valid_defined ctx hvalid input_report
    obtain ⟨st, htr, hrep, _⟩ := TranslateInputReport_selected STICK_CENTER drv ctx
      input_report st1 c lx ly rx ry hcombo hslot hinit hlx hly hrx hry
    exact ⟨st, htr, by rw [hrep]; rfl, by rw [hrep]; rfl, by rw [hrep]; rfl⟩
  · intro hinit
    exact TranslateInputReport_selected_detached STICK_CENTER drv ctx input_report st1 c
      hcombo hslot hinit

theorem report_consumed_iff_selected_slot_attached_witness :
    (∃ st, TranslateInputReport 0x800 accepting_driver example_controller l_report = some st ∧
        st.report.buttons = SwitchButtonData.zero ∧
        st.report.left_stick = ⟨0x800, 0x800⟩ ∧
        st.report.right_stick = ⟨0x800, 0x800⟩) ∧
      (∃ st, TranslateInputReport 0x800 accepting_driver example_controller zl_report
          = some st ∧
        st.report = zl_report) :=
  ⟨(report_consumed_iff_selected_slot_attached 0x800 accepting_driver example_controller
      l_report
      { ctx := { example_controller with m_hdls_combo_pressed := false }, report := l_report,
        calls := [] }
      ⟨true, 7, ⟨64, ⟨100, -100⟩, ⟨5, 6⟩⟩⟩ (by decide) (by decide)).1 rfl (by decide),
    (report_consumed_iff_selected_slot_attached 0x800 accepting_driver example_controller
      zl_report
      { ctx := { example_controller with m_hdls_combo_pressed := false }, report := zl_report,
        calls := [] }
      ⟨false, 0, ⟨0, ⟨0, 0⟩, ⟨0, 0⟩⟩⟩ (by decide) (by decide)).2 rfl⟩

/-- C13 as stated fails: with ZL held, so slot 0 selected, and slot 0 not attached, the tick
returns the report as it received it, ZL still set. -/
theorem report_kept_when_selected_slot_detached :
    select_hdls_id zl_report.buttons = 0 ∧
      (TranslateInputReport 0x800 accepting_driver calibrated_controller zl_report).map
        (fun st => st.report) = some zl_report ∧
      zl_report.buttons ≠ SwitchButtonData.zero := by
  decide

/-! ## The loop body as a slot update -/

theorem hdls_loop_body_eq (STICK_CENTER : Nat) (drv : DriverAnswers) (hdls_id i : Nat)
    (st : TickState) :
    hdls_loop_body STICK_CENTER drv hdls_id i st =
      match st.ctx.m_hdls_controllers[i]? with
      | none => none
      | some c =>
        if c.initialized = true then
          (slot_update STICK_CENTER hdls_id i st.ctx.left_cal st.ctx.right_cal st.report c).map
            (fun p => push_slot drv i st c p.1 p.2)
        else some st := by
  cases hc : st.ctx.m_hdls_controllers[i]? with
  | none => simp [hdls_loop_body, hc]
  | some c =>
    by_cases hinit : c.initialized = true
    · by_cases hid : i = hdls_id
      · subst hid
        simp only [hinit, if_true]
        cases hlx : joycon_map_stick_val st.ctx.left_cal.x st.report.left_stick.GetX with
        | none =>
          unfold SwitchController.left_cal at hlx
          simp [hdls_loop_body, hc, hinit, slot_update, SwitchController.left_cal, hlx]
        | some lx =>
          cases hly : joycon_map_stick_val st.ctx.left_cal.y st.report.left_stick.GetY with
          | none =>
            unfold SwitchController.left_cal at hlx hly
            simp [hdls_loop_body, hc, hinit, slot_update, SwitchController.left_cal, hlx, hly]
          | some ly =>
            cases hrx : joycon_map_stick_val st.ctx.right_cal.x st.report.right_stick.GetX with
            | none =>
              unfold SwitchController.left_cal at hlx hly
              unfold SwitchController.right_cal at hrx
              simp [hdls_loop_body, hc, hinit, slot_update, SwitchController.left_cal,
                SwitchController.right_cal, hlx, hly, hrx]
            | some rx =>
              cases hry : joycon_map_stick_val st.ctx.right_cal.y
                  st.report.right_stick.GetY with
              | none =>
                unfold SwitchController.left_cal at hlx hly
                unfold SwitchController.right_cal at hrx hry
                simp [hdls_loop_body, hc, hinit, slot_update, SwitchController.left_cal,
                  SwitchController.right_cal, hlx, hly, hrx, hry]
              | some ry =>
                rw [hdls_loop_body_selected STICK_CENTER drv i st c lx ly rx ry hc hinit
                  hlx hly hrx hry]
                simp [slot_update, hlx, hly, hrx, hry]
      · rw [hdls_loop_body_idle STICK_CENTER drv hdls_id i st c hc hinit hid]
        simp [hinit, slot_update, hid]
    · have hfalse : c.initialized = false := by simpa using hinit
      rw [hdls_loop_body_skip STICK_CENTER drv hdls_id i st c hc hfalse]
      simp [hfalse]

theorem map_set_same {α β : Type} (f : α → β) (l : List α) (i : Nat) (c c' : α)
    (hc : l[i]? = some c) (hf : f c' = f c) : (l.set i c').map f = l.map f := by
  apply List.ext_getElem?
  intro k
  rw [List.map_set, List.getElem?_set]
  by_cases hik : i = k
  · subst hik
    obtain ⟨hlt, hget⟩ := List.getElem?_eq_some.mp hc
    simp [hlt, hf, hget]
  · simp [hik]

/-- What a returning loop body preserves: the applied calibrations, the chord flag and the
number of slots, and the attached flags when the push of the slot is accepted. -/
theorem hdls_loop_body_preserves (STICK_CENTER : Nat) (drv : DriverAnswers) (hdls_id i : Nat)
    (st st' : TickState) (h : hdls_loop_body STICK_CENTER drv hdls_id i st = some st') :
    st'.ctx.left_cal = st.ctx.left_cal ∧
      st'.ctx.right_cal = st.ctx.right_cal ∧
      st'.ctx.m_hdls_combo_pressed = st.ctx.m_hdls_combo_pressed ∧
      st'.ctx.m_hdls_controllers.length = st.ctx.m_hdls_controllers.length ∧
      (R_FAILED (drv.push_result i) = false → st'.ctx.attached = st.ctx.attached) := by
  rw [hdls_loop_body_eq] at h
  cases hc : st.ctx.m_hdls_controllers[i]? with
  | none => rw [hc] at h; cases h
  | some c =>
    rw [hc] at h
    by_cases hinit : c.initialized = true
    · simp only [hinit, if_true] at h
      cases hu : slot_update STICK_CENTER hdls_id i st.ctx.left_cal st.ctx.right_cal
          st.report c with
      | none => rw [hu] at h; cases h
      | some p =>
        rw [hu] at h
        cases h
        refine ⟨(push_slot_settings _ _ _ _ _ _).1, (push_slot_settings _ _ _ _ _ _).2.1,
          (push_slot_settings _ _ _ _ _ _).2.2, ?_, ?_⟩
        · rw [push_slot_slots, List.length_set]
        · intro hok
          unfold SwitchController.attached
          rw [push_slot_slots]
          exact map_set_same _ _ _ c _ hc (by simp [hok])
    · simp only [hinit] at h
      cases h
      exact ⟨rfl, rfl, rfl, rfl, fun _ => rfl⟩

theorem hdls_loop_preserves (STICK_CENTER : Nat) (drv : DriverAnswers) (hdls_id : Nat) :
    ∀ (slots : List Nat) (st st' : TickState),
      hdls_loop STICK_CENTER drv hdls_id slots st = some st' →
      st'.ctx.left_cal = st.ctx.left_cal ∧
        st'.ctx.right_cal = st.ctx.right_cal ∧
        st'.ctx.m_hdls_combo_pressed = st.ctx.m_hdls_combo_pressed ∧
        st'.ctx.m_hdls_controllers.length = st.ctx.m_hdls_controllers.length ∧
        ((∀ i, R_FAILED (drv.push_result i) = false) → st'.ctx.attached = st.ctx.attached) := by
  intro slots
  induction slots with
  | nil =>
    intro st st' h
    simp only [hdls_loop] at h
    cases h
    exact ⟨rfl, rfl, rfl, rfl, fun _ => rfl⟩
  | cons i rest ih =>
    intro st st' h
    simp only [hdls_loop] at h
    cases hbody : hdls_loop_body STICK_CENTER drv hdls_id i st with
    | none => rw [hbody] at h; cases h
    | some st1 =>
      rw [hbody] at h
      obtain ⟨h1, h2, h3, h4, h5⟩ := hdls_loop_body_preserves STICK_CENTER drv hdls_id i st st1
        hbody
      obtain ⟨g1, g2, g3, g4, g5⟩ := ih st1 st' h
      exact ⟨g1.trans h1, g2.trans h2, g3.trans h3, g4.trans h4,
        fun hok => (g5 hok).trans (h5 (hok i))⟩

/-! ## The state pushed to the selected slot -/

theorem ite_or_testBit (c : Bool) (x m k : Nat) :
    (if c = true then x ||| m else x).testBit k = (x.testBit k || (c && m.testBit k)) := by
  cases c <;> simp

theorem hdls_buttons_testBit (b : SwitchButtonData) (k : Nat) :
    (hdls_buttons b).testBit k =
      ((b.A && decide (0 = k)) || (b.B && decide (1 = k)) || (b.L && decide (6 = k)) ||
        (b.R && decide (7 = k)) || (b.X && decide (2 = k)) || (b.Y && decide (3 = k)) ||
        (b.ZR && decide (9 = k)) || (b.plus && decide (10 = k)) ||
        (b.minus && decide (11 = k)) || (b.dpad_left && decide (12 = k)) ||
        (b.dpad_right && decide (14 = k)) || (b.dpad_up && decide (13 = k)) ||
        (b.dpad_down && decide (15 = k)) || (b.lstick_press && decide (4 = k)) ||
        (b.rstick_press && decide (5 = k))) := by
  have hA : HidNpadButton_A = 2 ^ 0 := rfl
  have hB : HidNpadButton_B = 2 ^ 1 := rfl
  have hX : HidNpadButton_X = 2 ^ 2 := rfl
  have hY : HidNpadButton_Y = 2 ^ 3 := rfl
  have hSL : HidNpadButton_StickL = 2 ^ 4 := rfl
  have hSR : HidNpadButton_StickR = 2 ^ 5 := rfl
  have hL : HidNpadButton_L = 2 ^ 6 := rfl
  have hR : HidNpadButton_R = 2 ^ 7 := rfl
  have hZR : HidNpadButton_ZR = 2 ^ 9 := rfl
  have hP : HidNpadButton_Plus = 2 ^ 10 := rfl
  have hM : HidNpadButton_Minus = 2 ^ 11 := rfl
  have hLe : HidNpadButton_Left = 2 ^ 12 := rfl
  have hU : HidNpadButton_Up = 2 ^ 13 := rfl
  have hRi : HidNpadButton_Right = 2 ^ 14 := rfl
  have hD : HidNpadButton_Down = 2 ^ 15 := rfl
  simp only [hdls_buttons, ite_or_testBit, Nat.zero_testBit, Bool.false_or, hA, hB, hX, hY,
    hSL, hSR, hL, hR, hZR, hP, hM, hLe, hU, hRi, hD, Nat.testBit_two_pow]

theorem hdls_buttons_ZL (b : SwitchButtonData) : hdls_buttons b &&& HidNpadButton_ZL = 0 := by
  have h : HidNpadButton_ZL = 2 ^ 8 := rfl
  rw [h, Nat.and_two_pow, hdls_buttons_testBit]
  simp

theorem hdls_buttons_L (b : SwitchButtonData) :
    hdls_buttons b &&& HidNpadButton_L = if b.L = true then HidNpadButton_L else 0 := by
  have h : HidNpadButton_L = 2 ^ 6 := rfl
  rw [h, Nat.and_two_pow, hdls_buttons_testBit]
  cases b.L <;> simp

theorem hdls_buttons_R (b : SwitchButtonData) :
    hdls_buttons b &&& HidNpadButton_R = if b.R = true then HidNpadButton_R else 0 := by
  have h : HidNpadButton_R = 2 ^ 7 := rfl
  rw [h, Nat.and_two_pow, hdls_buttons_testBit]
  cases b.R <;> simp

/-- C16, as the code has it: for every tick in which a slot is selected and attached, with the
applied calibrations valid, the button mask pushed to that slot is built from the physical
buttons A, B, L, R, X, Y, ZR, plus, minus, the d-pad and the stick presses.  It never holds
the ZL bit, so the trigger of slot 0 is not passed through; it holds the L bit exactly when L
is held and the R bit exactly when R is held, so the triggers of slots 1 and 2 are. -/
theorem pushed_mask_of_selected_slot (STICK_CENTER : Nat) (drv : DriverAnswers)
    (ctx : SwitchController) (input_report : SwitchInputReport) (st1 : TickState)
    (c : hdls_controller)
    (hcombo : hdls_combo drv (select_hdls_id input_report.buttons)
      { ctx := ctx, report := input_report, calls := [] } = some st1)
    (hslot : st1.ctx.m_hdls_controllers[select_hdls_id input_report.buttons]? = some c)
    (hinit : c.initialized = true) (hvalid : ctx.cals_valid) :
    ∃ st state, TranslateInputReport STICK_CENTER drv ctx input_report = some st ∧
      DriverCall.hiddbgSetHdlsState c.handle state ∈ st.calls ∧
      (st.ctx.m_hdls_controllers[select_hdls_id input_report.buttons]?).map
        (fun slot => slot.state) = some state ∧
      state.buttons = hdls_buttons input_report.buttons ∧
      state.buttons &&& HidNpadButton_ZL = 0 ∧
      state.buttons &&& HidNpadButton_L
        = (if input_report.buttons.L = true then HidNpadButton_L else 0) ∧
      state.buttons &&& HidNpadButton_R
        = (if input_report.buttons.R = true then HidNpadButton_R else 0) := by
  obtain ⟨lx, ly, rx, ry, hlx, hly, hrx, hry⟩ := cals_valid_defined ctx hvalid input_report
  obtain ⟨st, htr, _, hslot2, hcall⟩ := TranslateInputReport_selected STICK_CENTER drv ctx
    input_report st1 c lx ly rx ry hcombo hslot hinit hlx hly hrx hry
  refine ⟨st, _, htr, hcall, by rw [hslot2]; rfl, rfl, ?_, ?_, ?_⟩
  · exact hdls_buttons_ZL _
  · exact hdls_buttons_L _
  · exact hdls_buttons_R _

theorem pushed_mask_of_selected_slot_witness :
    ∃ st state, TranslateInputReport 0x800 accepting_driver example_controller l_report
        = some st ∧
      DriverCall.hiddbgSetHdlsState 7 state ∈ st.calls ∧
      (st.ctx.m_hdls_controllers[select_hdls_id l_report.buttons]?).map
        (fun slot => slot.state) = some state ∧
      state.buttons = hdls_buttons l_report.buttons ∧
      state.buttons &&& HidNpadButton_ZL = 0 ∧
      state.buttons &&& HidNpadButton_L
        = (if l_report.buttons.L = true then HidNpadButton_L else 0) ∧
      state.buttons &&& HidNpadButton_R
        = (if l_report.buttons.R = true then HidNpadButton_R else 0) :=
  pushed_mask_of_selected_slot 0x800 accepting_driver example_controller l_report
    { ctx := { example_controller with m_hdls_combo_pressed := false }, report := l_report,
      calls := [] }
    ⟨true, 7, ⟨64, ⟨100, -100⟩, ⟨5, 6⟩⟩⟩ (by decide) (by decide) rfl (by decide)

/-- C16 as stated fails: with L held and slot 1 attached, slot 1 is selected and the mask
pushed to it is `65`, which holds the L bit. -/
theorem trigger_L_passed_through :
    select_hdls_id l_report.buttons = 1 ∧
      (TranslateInputReport 0x800 accepting_driver example_controller l_report).map
          (fun st => st.calls)
        = some [DriverCall.hiddbgSetHdlsState 7 ⟨65, ⟨0, 0⟩, ⟨0, 0⟩⟩] ∧
      65 &&& HidNpadButton_L = HidNpadButton_L := by
  decide

theorem joycon_map_stick_val_at_max (cal : joycon_stick_cal) (hvalid : cal.valid)
    (hspan : cal.max - cal.center ≤ 65538) :
    joycon_map_stick_val cal cal.max = some 32767 := by
  obtain ⟨_, _, hhi⟩ := hvalid
  rw [joycon_map_stick_val_above cal cal.max hhi hspan hhi (by omega)]
  have hne : cal.max - cal.center ≠ 0 := by omega
  rw [Int.mul_ediv_cancel_left _ hne]
  rfl

/-- The left stick at its calibration maximum, when no axis is mapped with a degenerate
calibration: for every tick in which a slot is selected and attached, the left
user-calibration flag is false, the factory left `x` calibration is valid with
`max - center ≤ 65538`, the raw left-stick `x` of the report equals that calibration's `max`,
and the other three applied axis calibrations are valid, the state pushed to the selected slot
has left-stick `x = 32767` and the left stick of the report is reset to `STICK_CENTER`. -/
theorem pushed_left_x_at_calibration_max (STICK_CENTER : Nat) (drv : DriverAnswers)
    (ctx : SwitchController) (input_report : SwitchInputReport) (st1 : TickState)
    (c : hdls_controller)
    (hcombo : hdls_combo drv (select_hdls_id input_report.buttons)
      { ctx := ctx, report := input_report, calls := [] } = some st1)
    (hslot : st1.ctx.m_hdls_controllers[select_hdls_id input_report.buttons]? = some c)
    (hinit : c.initialized = true)
    (huser : ctx.m_has_user_cal_left = false)
    (hx : ctx.m_cal_left.x.valid)
    (hspan : ctx.m_cal_left.x.max - ctx.m_cal_left.x.center ≤ 65538)
    (hraw : (input_report.left_stick.GetX : Int) = ctx.m_cal_left.x.max)
    (hy : ctx.m_cal_left.y.valid)
    (hrx : ctx.right_cal.x.valid) (hry : ctx.right_cal.y.valid) :
    ∃ st state, TranslateInputReport STICK_CENTER drv ctx input_report = some st ∧
      DriverCall.hiddbgSetHdlsState c.handle state ∈ st.calls ∧
      (st.ctx.m_hdls_controllers[select_hdls_id input_report.buttons]?).map
        (fun slot => slot.state) = some state ∧
      state.analog_stick_l.x = 32767 ∧
      st.report.left_stick = ⟨STICK_CENTER, STICK_CENTER⟩ := by
  have hleft : ctx.left_cal = ctx.m_cal_left := by
    simp [SwitchController.left_cal, huser]
  have hlx : joycon_map_stick_val ctx.left_cal.x input_report.left_stick.GetX = some 32767 := by
    rw [hleft, hraw]
    exact joycon_map_stick_val_at_max _ hx hspan
  obtain ⟨ly, hly⟩ := joycon_map_stick_val_defined ctx.left_cal.y (by rw [hleft]; exact hy)
    input_report.left_stick.GetY
  obtain ⟨rx, hrx'⟩ := joycon_map_stick_val_defined _ hrx input_report.right_stick.GetX
  obtain ⟨ry, hry'⟩ := joycon_map_stick_val_defined _ hry input_report.right_stick.GetY
  obtain ⟨st, htr, hrep, hslot2, hcall⟩ := TranslateInputReport_selected STICK_CENTER drv ctx
    input_report st1 c 32767 ly rx ry hcombo hslot hinit hlx hly hrx' hry'
  exact ⟨st, _, htr, hcall, by rw [hslot2]; rfl, rfl, by rw [hrep]; rfl⟩

theorem pushed_left_x_at_calibration_max_witness :
    ∃ st state, TranslateInputReport 0x800 accepting_driver example_controller
        { l_report with left_stick := ⟨3000, 2000⟩ } = some st ∧
      DriverCall.hiddbgSetHdlsState 7 state ∈ st.calls ∧
      (st.ctx.m_hdls_controllers[select_hdls_id l_report.buttons]?).map
        (fun slot => slot.state) = some state ∧
      state.analog_stick_l.x = 32767 ∧
      st.report.left_stick = ⟨0x800, 0x800⟩ :=
  pushed_left_x_at_calibration_max 0x800 accepting_driver example_controller
    { l_report with left_stick := ⟨3000, 2000⟩ }
    { ctx := { example_controller with m_hdls_combo_pressed := false },
      report := { l_report with left_stick := ⟨3000, 2000⟩ }, calls := [] }
    ⟨true, 7, ⟨64, ⟨100, -100⟩, ⟨5, 6⟩⟩⟩ (by decide) (by decide) rfl rfl (by decide)
    (by decide) (by decide) (by decide) (by decide) (by decide)

/-- C17: on a controller whose factory left calibration has been parsed from flash and whose
right calibration has not been read yet, a tick holding the chord of slot 0 with the raw
left-stick `x` at the calibration maximum has slot 0 selected and attached, the left
user-calibration flag false and `min < center < max` on the left `x` axis.  The left `x`
maps to `32767`, but the same tick maps the right stick with the zero calibration, and the
division by zero leaves the tick without a result: no state is pushed and the report is not
reset. -/
theorem left_x_at_max_tick_faults :
    joycon_read_stick_calibration left_cal_blob fresh_controller.m_cal_left true
        = some left_calibrated_controller.m_cal_left ∧
      left_calibrated_controller.m_has_user_cal_left = false ∧
      left_calibrated_controller.m_cal_left.x.min
        < left_calibrated_controller.m_cal_left.x.center ∧
      left_calibrated_controller.m_cal_left.x.center
        < left_calibrated_controller.m_cal_left.x.max ∧
      (left_max_report.left_stick.GetX : Int) = left_calibrated_controller.m_cal_left.x.max ∧
      select_hdls_id left_max_report.buttons = 0 ∧
      (hdls_combo accepting_driver 0
          { ctx := left_calibrated_controller, report := left_max_report, calls := [] }).map
        (fun st => st.ctx.attached) = some [true, false, false] ∧
      joycon_map_stick_val left_calibrated_controller.m_cal_left.x
        left_max_report.left_stick.GetX = some 32767 ∧
      joycon_map_stick_val left_calibrated_controller.m_cal_right.x
        left_max_report.right_stick.GetX = none ∧
      TranslateInputReport 0x800 accepting_driver left_calibrated_controller left_max_report
        = none := by
  decide

/-! ## Idle slots and the first chord -/

/-- C15: from the calibrated controller with no slot attached, a first tick holding the chord
of slot 0 with the right stick at its maximum attaches slot 0 and pushes the right stick
`(32767, 0)`; on the next tick, whose report holds nothing, slot 0 is attached and not
selected, and the state pushed to it still has the right stick `(32767, 0)`. -/
theorem idle_slot_keeps_right_stick :
    (run_ticks 0x800 calibrated_controller
        [(accepting_driver, chord_report), (accepting_driver, idle_report)]).map
        (fun sts => sts.map (fun st => st.calls))
      = some
        [ [ DriverCall.hiddbgAttachHdlsVirtualDevice 0,
            DriverCall.hiddbgSetHdlsState 9 ⟨0, ⟨0, 0⟩, ⟨0, 0⟩⟩,
            DriverCall.hiddbgSetHdlsState 9 ⟨48, ⟨0, 0⟩, ⟨32767, 0⟩⟩ ],
          [ DriverCall.hiddbgSetHdlsState 9 ⟨0, ⟨0, 0⟩, ⟨32767, 0⟩⟩ ] ] := by
  decide

/-- C12: on a controller whose calibrations have not been read, the first tick holding the
chord of slot 0 attaches the slot and then maps the sticks of the selected slot with the zero
calibration; the division by zero leaves the tick without a result. -/
theorem first_chord_tick_faults :
    fresh_controller.m_hdls_combo_pressed = false ∧
      chord_held chord_report = true ∧
      accepting_driver.attach_result = 0 ∧ accepting_driver.attach_push_result = 0 ∧
      TranslateInputReport 0x800 accepting_driver fresh_controller chord_report = none := by
  decide

/-! ## A rejected state push -/

theorem hdls_loop_body_rel (STICK_CENTER : Nat) (drv drv' : DriverAnswers)
    (hdls_id i j : Nat) (a b : TickState)
    (hdrv : j ≠ i → drv.push_result j = drv'.push_result j)
    (hfail : R_FAILED (drv.push_result i) = true)
    (hok : R_FAILED (drv'.push_result i) = false)
    (hrel : a.agree_except i b)
    (hslot : a.ctx.m_hdls_controllers[j]? = b.ctx.m_hdls_controllers[j]?) :
    (hdls_loop_body STICK_CENTER drv hdls_id j a = none ∧
        hdls_loop_body STICK_CENTER drv' hdls_id j b = none) ∨
      ∃ a1 b1, hdls_loop_body STICK_CENTER drv hdls_id j a = some a1 ∧
        hdls_loop_body STICK_CENTER drv' hdls_id j b = some b1 ∧
        a1.agree_except i b1 ∧
        (j ≠ i → a1.ctx.m_hdls_controllers[i]? = a.ctx.m_hdls_controllers[i]? ∧
          b1.ctx.m_hdls_controllers[i]? = b.ctx.m_hdls_controllers[i]?) ∧
        (j = i → a1.detached_where_attached i b1) := by
  obtain ⟨hrep, hl, hr, hlen, hframe⟩ := hrel
  rw [hdls_loop_body_eq, hdls_loop_body_eq, hslot, hrep, hl, hr]
  cases hc : b.ctx.m_hdls_controllers[j]? with
  | none => exact Or.inl ⟨rfl, rfl⟩
  | some c =>
    have hjb : j < b.ctx.m_hdls_controllers.length := (List.getElem?_eq_some.mp hc).1
    have hja : j < a.ctx.m_hdls_controllers.length := by rw [hlen]; exact hjb
    by_cases hinit : c.initialized = true
    · simp only [hinit, if_true]
      cases hu : slot_update STICK_CENTER hdls_id j b.ctx.left_cal b.ctx.right_cal
          b.report c with
      | none => exact Or.inl ⟨rfl, rfl⟩
      | some p =>
        refine Or.inr ⟨push_slot drv j a c p.1 p.2, push_slot drv' j b c p.1 p.2, rfl, rfl,
          ⟨?_, ?_, ?_, ?_, ?_⟩, ?_, ?_⟩
        · rw [push_slot_report, push_slot_report]
        · rw [(push_slot_settings _ _ _ _ _ _).1, (push_slot_settings _ _ _ _ _ _).1, hl]
        · rw [(push_slot_settings _ _ _ _ _ _).2.1, (push_slot_settings _ _ _ _ _ _).2.1, hr]
        · rw [push_slot_slots, push_slot_slots, List.length_set, List.length_set, hlen]
        · intro k hk
          rw [push_slot_slots, push_slot_slots]
          by_cases hjk : j = k
          · subst hjk
            rw [List.getElem?_set_self hja, List.getElem?_set_self hjb, hdrv hk]
          · rw [List.getElem?_set_ne hjk, List.getElem?_set_ne hjk]
            exact hframe k hk
        · intro hji
          rw [push_slot_slots, push_slot_slots, List.getElem?_set_ne hji,
            List.getElem?_set_ne hji]
          exact ⟨rfl, rfl⟩
        · intro hji
          subst hji
          intro c' _ _
          have hget : (push_slot drv j a c p.1 p.2).ctx.m_hdls_controllers[j]? = some
              { c with
                state := p.1,
                initialized := c.initialized && !R_FAILED (drv.push_result j) } := by
            rw [push_slot_slots, List.getElem?_set_self hja]
          exact ⟨_, hget, by simp [hfail]⟩
    · have hfalse : c.initialized = false := by simpa using hinit
      simp only [hfalse, Bool.false_eq_true, if_false]
      refine Or.inr ⟨a, b, rfl, rfl, ⟨hrep, hl, hr, hlen, hframe⟩, fun _ => ⟨rfl, rfl⟩, ?_⟩
      intro hji
      subst hji
      intro c' hc' hinit'
      rw [hc] at hc'
      cases hc'
      rw [hfalse] at hinit'
      cases hinit'

theorem hdls_loop_rel (STICK_CENTER : Nat) (drv drv' : DriverAnswers) (hdls_id i : Nat)
    (hdrv : ∀ j, j ≠ i → drv.push_result j = drv'.push_result j)
    (hfail : R_FAILED (drv.push_result i) = true)
    (hok : R_FAILED (drv'.push_result i) = false) :
    ∀ (slots : List Nat) (a b : TickState),
      slots.Nodup → a.agree_except i b →
      (i ∈ slots → a.ctx.m_hdls_controllers[i]? = b.ctx.m_hdls_controllers[i]?) →
      (i ∉ slots → a.detached_where_attached i b) →
      (hdls_loop STICK_CENTER drv hdls_id slots a = none ∧
          hdls_loop STICK_CENTER drv' hdls_id slots b = none) ∨
        ∃ a' b', hdls_loop STICK_CENTER drv hdls_id slots a = some a' ∧
          hdls_loop STICK_CENTER drv' hdls_id slots b = some b' ∧
          a'.agree_except i b' ∧ a'.detached_where_attached i b' := by
  intro slots
  induction slots with
  | nil =>
    intro a b _ hrel _ hpost
    exact Or.inr ⟨a, b, rfl, rfl, hrel, hpost (List.not_mem_nil _)⟩
  | cons j rest ih =>
    intro a b hnodup hrel hpre hpost
    obtain ⟨hjrest, hnodup'⟩ := List.nodup_cons.mp hnodup
    have hslot : a.ctx.m_hdls_controllers[j]? = b.ctx.m_hdls_controllers[j]? := by
      by_cases hji : j = i
      · subst hji
        exact hpre (List.mem_cons_self _ _)
      · exact hrel.2.2.2.2 j hji
    rcases hdls_loop_body_rel STICK_CENTER drv drv' hdls_id i j a b (fun h => hdrv j h) hfail
        hok hrel hslot with ⟨ha, hb⟩ | ⟨a1, b1, ha, hb, hrel1, hother, hvisit⟩
    · left
      simp only [hdls_loop, ha, hb, and_self]
    · have hpre1 : i ∈ rest →
          a1.ctx.m_hdls_controllers[i]? = b1.ctx.m_hdls_controllers[i]? := by
        intro hmem
        have hji : j ≠ i := fun h => hjrest (by rw [h]; exact hmem)
        obtain ⟨e1, e2⟩ := hother hji
        rw [e1, e2]
        exact hpre (List.mem_cons_of_mem _ hmem)
      have hpost1 : i ∉ rest → a1.detached_where_attached i b1 := by
        intro hnot
        by_cases hji : j = i
        · exact hvisit hji
        · obtain ⟨e1, e2⟩ := hother hji
          have hnotl : i ∉ j :: rest := by
            intro hmem
            rcases List.mem_cons.mp hmem with h | h
            · exact hji h.symm
            · exact hnot h
          intro c hc hinit
          rw [e2] at hc
          obtain ⟨c', hc', hinit'⟩ := hpost hnotl c hc hinit
          exact ⟨c', by rw [e1]; exact hc', hinit'⟩
      rcases ih a1 b1 hnodup' hrel1 hpre1 hpost1 with ⟨ha', hb'⟩ | ⟨a', b', ha', hb', hr', hp'⟩
      · left
        simp only [hdls_loop, ha, hb, ha', hb', and_self]
      · right
        exact ⟨a', b', by simp only [hdls_loop, ha, ha'], by simp only [hdls_loop, hb, hb'],
          hr', hp'⟩

theorem hdls_combo_accepting_push (drv : DriverAnswers) (i hdls_id : Nat) (st : TickState) :
    hdls_combo (drv.accepting_push i) hdls_id st = hdls_combo drv hdls_id st := by
  unfold hdls_combo DriverAnswers.accepting_push
  rfl

/-- What the loop body of slot `j` does to slot `i` when it returns: the body of another slot
leaves slot `i` as it is; the body of slot `i` itself, when the slot is attached, writes a state
to the slot and pushes it, and leaves the slot attached exactly when the push is accepted, with
a detach call made when it is rejected.  The calls made before are kept. -/
theorem hdls_loop_body_slot (STICK_CENTER : Nat) (drv : DriverAnswers) (hdls_id i j : Nat)
    (a a1 : TickState) (hbody : hdls_loop_body STICK_CENTER drv hdls_id j a = some a1) :
    (∀ x ∈ a.calls, x ∈ a1.calls) ∧
      (j ≠ i → a1.ctx.m_hdls_controllers[i]? = a.ctx.m_hdls_controllers[i]?) ∧
      (j = i → ∀ c, a.ctx.m_hdls_controllers[i]? = some c → c.initialized = true →
        ∃ state, a1.ctx.m_hdls_controllers[i]? = some
            { c with state := state, initialized := !R_FAILED (drv.push_result i) } ∧
          DriverCall.hiddbgSetHdlsState c.handle state ∈ a1.calls ∧
          (R_FAILED (drv.push_result i) = true →
            DriverCall.hiddbgDetachHdlsVirtualDevice c.handle ∈ a1.calls)) := by
  rw [hdls_loop_body_eq] at hbody
  cases hc : a.ctx.m_hdls_controllers[j]? with
  | none => rw [hc] at hbody; cases hbody
  | some cj =>
    rw [hc] at hbody
    by_cases hinit : cj.initialized = true
    · simp only [hinit, if_true] at hbody
      cases hu : slot_update STICK_CENTER hdls_id j a.ctx.left_cal a.ctx.right_cal
          a.report cj with
      | none => rw [hu] at hbody; cases hbody
      | some p =>
        rw [hu] at hbody
        cases hbody
        have hj : j < a.ctx.m_hdls_controllers.length := (List.getElem?_eq_some.mp hc).1
        refine ⟨(push_slot_calls _ _ _ _ _ _).2, ?_, ?_⟩
        · intro hji
          rw [push_slot_slots, List.getElem?_set_ne hji]
        · intro hji c hci _
          subst hji
          rw [hc] at hci
          cases hci
          refine ⟨p.1, ?_, (push_slot_calls _ _ _ _ _ _).1, ?_⟩
          · rw [push_slot_slots, List.getElem?_set_self hj, hinit, Bool.true_and]
          · intro hfail
            unfold push_slot
            simp [hfail]
    · simp only [hinit] at hbody
      cases hbody
      refine ⟨fun _ hx => hx, fun _ => rfl, ?_⟩
      intro hji c hci hcinit
      subst hji
      rw [hc] at hci
      cases hci
      exact absurd hcinit hinit

/-- A returning loop over slots other than `i` leaves slot `i` as it is and keeps the calls
made before. -/
theorem hdls_loop_frame_slot (STICK_CENTER : Nat) (drv : DriverAnswers) (hdls_id i : Nat) :
    ∀ (slots : List Nat) (a a' : TickState), i ∉ slots →
      hdls_loop STICK_CENTER drv hdls_id slots a = some a' →
      a'.ctx.m_hdls_controllers[i]? = a.ctx.m_hdls_controllers[i]? ∧
        ∀ x ∈ a.calls, x ∈ a'.calls := by
  intro slots
  induction slots with
  | nil =>
    intro a a' _ h
    simp only [hdls_loop] at h
    cases h
    exact ⟨rfl, fun _ hx => hx⟩
  | cons j rest ih =>
    intro a a' hnot h
    simp only [hdls_loop] at h
    cases hbody : hdls_loop_body STICK_CENTER drv hdls_id j a with
    | none => rw [hbody] at h; cases h
    | some a1 =>
      rw [hbody] at h
      have hji : j ≠ i := fun e => hnot (by rw [e]; exact List.mem_cons_self _ _)
      have hrest : i ∉ rest := fun e => hnot (List.mem_cons_of_mem _ e)
      obtain ⟨hcalls, hother, _⟩ := hdls_loop_body_slot STICK_CENTER drv hdls_id i j a a1 hbody
      obtain ⟨hs, hc⟩ := ih a1 a' hrest h
      exact ⟨hs.trans (hother hji), fun x hx => hc x (hcalls x hx)⟩

/-- A returning loop that visits slot `i`, attached at the start: the slot is written a state,
which is pushed, and it ends attached exactly when that push is accepted; a detach call is made
when the push is rejected. -/
theorem hdls_loop_slot (STICK_CENTER : Nat) (drv : DriverAnswers) (hdls_id i : Nat)
    (c : hdls_controller) (hinit : c.initialized = true) :
    ∀ (slots : List Nat) (a a' : TickState), slots.Nodup → i ∈ slots →
      hdls_loop STICK_CENTER drv hdls_id slots a = some a' →
      a.ctx.m_hdls_controllers[i]? = some c →
      ∃ state, a'.ctx.m_hdls_controllers[i]? = some
          { c with state := state, initialized := !R_FAILED (drv.push_result i) } ∧
        DriverCall.hiddbgSetHdlsState c.handle state ∈ a'.calls ∧
        (R_FAILED (drv.push_result i) = true →
          DriverCall.hiddbgDetachHdlsVirtualDevice c.handle ∈ a'.calls) := by
  intro slots
  induction slots with
  | nil => intro a a' _ hmem; cases hmem
  | cons j rest ih =>
    intro a a' hnodup hmem h hc
    obtain ⟨hjrest, hnodup'⟩ := List.nodup_cons.mp hnodup
    simp only [hdls_loop] at h
    cases hbody : hdls_loop_body STICK_CENTER drv hdls_id j a with
    | none => rw [hbody] at h; cases h
    | some a1 =>
      rw [hbody] at h
      obtain ⟨hcalls, hother, hvisit⟩ :=
        hdls_loop_body_slot STICK_CENTER drv hdls_id i j a a1 hbody
      by_cases hji : j = i
      · obtain ⟨state, hs, hpush, hdet⟩ := hvisit hji c hc hinit
        have hrest : i ∉ rest := by rw [← hji]; exact hjrest
        obtain ⟨hs', hc'⟩ := hdls_loop_frame_slot STICK_CENTER drv hdls_id i rest a1 a' hrest h
        exact ⟨state, hs'.trans hs, hc' _ hpush, fun hfail => hc' _ (hdet hfail)⟩
      · have hmem' : i ∈ rest := by
          rcases List.mem_cons.mp hmem with e | e
          · exact absurd e.symm hji
          · exact e
        exact ih a1 a' hnodup' hmem' h ((hother hji).trans hc)

/-- A tick whose chord returns and whose applied calibrations are valid returns, whatever the
driver answers to the per-tick state pushes. -/
theorem TranslateInputReport_returns (STICK_CENTER : Nat) (drv : DriverAnswers)
    (ctx : SwitchController) (input_report : SwitchInputReport) (st1 : TickState)
    (hcombo : hdls_combo drv (select_hdls_id input_report.buttons)
      { ctx := ctx, report := input_report, calls := [] } = some st1)
    (hvalid : ctx.cals_valid) :
    ∃ st, TranslateInputReport STICK_CENTER drv ctx input_report = some st := by
  obtain ⟨hrep1, hl1, hr1, _, _⟩ := hdls_combo_frame drv _ _ st1 hcombo
  simp only [TranslateInputReport, hcombo]
  by_cases hsel : ∃ c, st1.ctx.m_hdls_controllers[select_hdls_id input_report.buttons]?
      = some c ∧ c.initialized = true
  · obtain ⟨c, hc, hinit⟩ := hsel
    obtain ⟨lx, ly, rx, ry, hlx, hly, hrx, hry⟩ := cals_valid_defined ctx hvalid input_report
    have hlt : select_hdls_id input_report.buttons < st1.ctx.m_hdls_controllers.length :=
      (List.getElem?_eq_some.mp hc).1
    obtain ⟨st, h, _⟩ := hdls_loop_selected STICK_CENTER drv
      (select_hdls_id input_report.buttons) c input_report ctx.left_cal ctx.right_cal
      lx ly rx ry hinit hlx hly hrx hry (List.range st1.ctx.m_hdls_controllers.length) st1
      (List.nodup_range _) (fun i hi => List.mem_range.mp hi) (List.mem_range.mpr hlt) hc
      hrep1 hl1 hr1
    exact ⟨st, h⟩
  · obtain ⟨st, h, _⟩ := hdls_loop_others STICK_CENTER drv
      (select_hdls_id input_report.buttons)
      (List.range st1.ctx.m_hdls_controllers.length) st1
      (fun i hi => List.mem_range.mp hi)
      (by
        intro hmem
        have hlt := List.mem_range.mp hmem
        refine ⟨_, List.getElem?_eq_getElem hlt, ?_⟩
        by_contra hinit
        exact hsel ⟨_, List.getElem?_eq_getElem hlt, by simpa using hinit⟩)
    exact ⟨st, h⟩

/-- C18: for every tick and every slot `i` whose per-tick state push the driver rejects, the
tick returns exactly when it would return had that push been accepted, which it does whenever
the chord returns and the applied calibrations are valid; and then the report and every other
slot are the same as in that case.  When slot `i` is attached as the loop reaches it, that is
in the state `st_i` left by the chord and the loop bodies of the slots before it, its state is
pushed and the slot is detached when the tick returns, a detach call for its handle having been
made, while it is still attached in the tick whose push is accepted. -/
theorem rejected_push_detaches_only_its_slot (STICK_CENTER : Nat) (drv : DriverAnswers)
    (ctx : SwitchController) (input_report : SwitchInputReport) (i : Nat)
    (hfail : R_FAILED (drv.push_result i) = true) :
    ((TranslateInputReport STICK_CENTER drv ctx input_report = none ∧
        TranslateInputReport STICK_CENTER (drv.accepting_push i) ctx input_report = none) ∨
      ∃ st st_ok, TranslateInputReport STICK_CENTER drv ctx input_report = some st ∧
        TranslateInputReport STICK_CENTER (drv.accepting_push i) ctx input_report
          = some st_ok ∧
        st.report = st_ok.report ∧
        (∀ j, j ≠ i → st.ctx.m_hdls_controllers[j]? = st_ok.ctx.m_hdls_controllers[j]?) ∧
        (∀ st1 st_i c,
          hdls_combo drv (select_hdls_id input_report.buttons)
            { ctx := ctx, report := input_report, calls := [] } = some st1 →
          hdls_loop STICK_CENTER drv (select_hdls_id input_report.buttons) (List.range i) st1
            = some st_i →
          st_i.ctx.m_hdls_controllers[i]? = some c → c.initialized = true →
          ∃ c' c_ok, st.ctx.m_hdls_controllers[i]? = some c' ∧ c'.initialized = false ∧
            st_ok.ctx.m_hdls_controllers[i]? = some c_ok ∧ c_ok.initialized = true ∧
            DriverCall.hiddbgSetHdlsState c.handle c'.state ∈ st.calls ∧
            DriverCall.hiddbgDetachHdlsVirtualDevice c.handle ∈ st.calls) ∧
        (∀ c, st_ok.ctx.m_hdls_controllers[i]? = some c → c.initialized = true →
          ∃ c', st.ctx.m_hdls_controllers[i]? = some c' ∧ c'.initialized = false)) ∧
      (∀ st1,
        hdls_combo drv (select_hdls_id input_report.buttons)
          { ctx := ctx, report := input_report, calls := [] } = some st1 →
        ctx.cals_valid →
        ∃ st, TranslateInputReport STICK_CENTER drv ctx input_report = some st) := by
  refine ⟨?_, fun st1 hcombo hvalid =>
    TranslateInputReport_returns STICK_CENTER drv ctx input_report st1 hcombo hvalid⟩
  simp only [TranslateInputReport, hdls_combo_accepting_push]
  cases hcombo : hdls_combo drv (select_hdls_id input_report.buttons)
      { ctx := ctx, report := input_report, calls := [] } with
  | none => exact Or.inl ⟨rfl, rfl⟩
  | some st1 =>
    have hrefl : st1.agree_except i st1 := ⟨rfl, rfl, rfl, rfl, fun _ _ => rfl⟩
    have hpost : i ∉ List.range st1.ctx.m_hdls_controllers.length →
        st1.detached_where_attached i st1 := by
      intro hnot c hc _
      have hlt : i < st1.ctx.m_hdls_controllers.length := (List.getElem?_eq_some.mp hc).1
      exact absurd (List.mem_range.mpr hlt) hnot
    rcases hdls_loop_rel STICK_CENTER drv (drv.accepting_push i)
        (select_hdls_id input_report.buttons) i
        (by intro j hj; simp [DriverAnswers.accepting_push, hj]) hfail
        (by simp [DriverAnswers.accepting_push, R_FAILED])
        (List.range st1.ctx.m_hdls_controllers.length) st1 st1 (List.nodup_range _) hrefl
        (fun _ => rfl) hpost with ⟨ha, hb⟩ | ⟨a', b', ha, hb, hrel, hp⟩
    · exact Or.inl ⟨ha, hb⟩
    · refine Or.inr ⟨a', b', ha, hb, hrel.1, hrel.2.2.2.2, ?_, hp⟩
      intro st1' st_i c hst1 hreach hslot_i hinit
      cases hst1
      have hslot : st1.ctx.m_hdls_controllers[i]? = some c := by
        rw [← (hdls_loop_frame_slot STICK_CENTER drv (select_hdls_id input_report.buttons) i
          (List.range i) st1 st_i (by simp) hreach).1]
        exact hslot_i
      have hmem : i ∈ List.range st1.ctx.m_hdls_controllers.length :=
        List.mem_range.mpr (List.getElem?_eq_some.mp hslot).1
      obtain ⟨state, hs, hpush, hdet⟩ := hdls_loop_slot STICK_CENTER drv
        (select_hdls_id input_report.buttons) i c hinit _ st1 a' (List.nodup_range _) hmem ha
        hslot
      obtain ⟨state_ok, hs_ok, _, _⟩ := hdls_loop_slot STICK_CENTER (drv.accepting_push i)
        (select_hdls_id input_report.buttons) i c hinit _ st1 b' (List.nodup_range _) hmem hb
        hslot
      refine ⟨_, _, hs, by simp [hfail], hs_ok, ?_, hpush, hdet hfail⟩
      simp [DriverAnswers.accepting_push, R_FAILED]

theorem rejected_push_detaches_only_its_slot_witness :
    ∃ st st_ok, TranslateInputReport 0x800 example_driver example_controller example_report
        = some st ∧
      TranslateInputReport 0x800 (example_driver.accepting_push 1) example_controller
        example_report = some st_ok ∧
      st.report = st_ok.report ∧
      (∀ j, j ≠ 1 → st.ctx.m_hdls_controllers[j]? = st_ok.ctx.m_hdls_controllers[j]?) ∧
      (∃ c' c_ok, st.ctx.m_hdls_controllers[1]? = some c' ∧ c'.initialized = false ∧
        st_ok.ctx.m_hdls_controllers[1]? = some c_ok ∧ c_ok.initialized = true ∧
        DriverCall.hiddbgSetHdlsState 7 c'.state ∈ st.calls ∧
        DriverCall.hiddbgDetachHdlsVirtualDevice 7 ∈ st.calls) :=
  match (rejected_push_detaches_only_its_slot 0x800 example_driver example_controller
      example_report 1 (by decide)).1.resolve_left (fun h => absurd h.1 (by decide)) with
  | ⟨st, st_ok, h1, h2, h3, h4, h5, _⟩ =>
    ⟨st, st_ok, h1, h2, h3, h4,
      h5 { ctx := { example_controller with m_hdls_combo_pressed := false },
           report := example_report, calls := [] }
        { ctx := { example_controller with m_hdls_combo_pressed := false },
          report := example_report, calls := [] }
        ⟨true, 7, ⟨64, ⟨100, -100⟩, ⟨5, 6⟩⟩⟩ (by decide) (by decide) (by decide) rfl⟩

/-! ## The chord as an edge trigger, with valid calibrations -/

theorem select_hdls_id_lt (b : SwitchButtonData) :
    select_hdls_id b = SIZE_MAX ∨ select_hdls_id b < 3 := by
  unfold select_hdls_id
  split
  · right; decide
  · split
    · right; decide
    · split
      · right; decide
      · left; rfl

theorem attached_getD (ctx : SwitchController) (i : Nat) (c : hdls_controller)
    (hc : ctx.m_hdls_controllers[i]? = some c) : ctx.attached.getD i false = c.initialized := by
  unfold SwitchController.attached
  rw [List.getD_eq_getElem?_getD, List.getElem?_map, hc]
  rfl

/-- The attach chord with an accepting driver: the chord flag records whether the chord is
held, and the selected slot is toggled exactly on a rising edge. -/
theorem hdls_combo_attached (drv : DriverAnswers) (hdls_id : Nat) (st : TickState)
    (hattach : drv.attach_result = 0) (hpush : drv.attach_push_result = 0)
    (hlt : hdls_id ≠ SIZE_MAX → hdls_id < st.ctx.m_hdls_controllers.length) :
    ∃ st1, hdls_combo drv hdls_id st = some st1 ∧
      st1.ctx.m_hdls_combo_pressed
        = (st.report.buttons.lstick_press && st.report.buttons.rstick_press &&
            hdls_id != SIZE_MAX) ∧
      st1.ctx.attached
        = (if (st.report.buttons.lstick_press && st.report.buttons.rstick_press &&
              hdls_id != SIZE_MAX) = true ∧ st.ctx.m_hdls_combo_pressed = false then
            st.ctx.attached.set hdls_id (!(st.ctx.attached.getD hdls_id false))
          else st.ctx.attached) := by
  by_cases hchord : (st.report.buttons.lstick_press && st.report.buttons.rstick_press &&
      hdls_id != SIZE_MAX) = true
  · have hne : hdls_id ≠ SIZE_MAX := by
      intro h
      simp [h] at hchord
    have hi := hlt hne
    have hc : st.ctx.m_hdls_controllers[hdls_id]? = some st.ctx.m_hdls_controllers[hdls_id] :=
      List.getElem?_eq_getElem hi
    have hget := attached_getD st.ctx hdls_id _ hc
    by_cases hflag : st.ctx.m_hdls_combo_pressed = true
    · refine ⟨{ st with ctx := { st.ctx with m_hdls_combo_pressed := true } }, ?_, ?_, ?_⟩
      · simp only [hdls_combo, hchord, if_true, hc, hflag, Bool.not_true, Bool.false_eq_true,
          if_false]
      · rw [hchord]
      · simp [hflag, SwitchController.attached]
    · have hflag' : st.ctx.m_hdls_combo_pressed = false := by simpa using hflag
      by_cases hinit : st.ctx.m_hdls_controllers[hdls_id].initialized = true
      · have hres : hdls_combo drv hdls_id st = some
            { st with
              ctx := { st.ctx with
                m_hdls_controllers := st.ctx.m_hdls_controllers.set hdls_id
                  { st.ctx.m_hdls_controllers[hdls_id] with initialized := false },
                m_hdls_combo_pressed := true },
              calls := st.calls ++ [DriverCall.hiddbgDetachHdlsVirtualDevice
                st.ctx.m_hdls_controllers[hdls_id].handle] } := by
          simp only [hdls_combo, hchord, if_true, hc, hflag', Bool.not_false, hinit]
        refine ⟨_, hres, ?_, ?_⟩
        · rw [hchord]
        · rw [if_pos ⟨hchord, hflag'⟩, hget, hinit]
          simp [SwitchController.attached, List.map_set]
      · have hinit' : st.ctx.m_hdls_controllers[hdls_id].initialized = false := by
          simpa using hinit
        have hres : hdls_combo drv hdls_id st = some
            { st with
              ctx := { st.ctx with
                m_hdls_controllers := st.ctx.m_hdls_controllers.set hdls_id
                  { st.ctx.m_hdls_controllers[hdls_id] with
                    handle := drv.attach_handle, initialized := true },
                m_hdls_combo_pressed := true },
              calls := st.calls ++ [DriverCall.hiddbgAttachHdlsVirtualDevice hdls_id,
                DriverCall.hiddbgSetHdlsState drv.attach_handle
                  st.ctx.m_hdls_controllers[hdls_id].state] } := by
          simp only [hdls_combo, hchord, if_true, hc, hflag', Bool.not_false, hinit',
            Bool.false_eq_true, if_false, hattach, hpush, R_FAILED, bne_self_eq_false]
        refine ⟨_, hres, ?_, ?_⟩
        · rw [hchord]
        · rw [if_pos ⟨hchord, hflag'⟩, hget, hinit']
          simp [SwitchController.attached, List.map_set]
  · refine ⟨{ st with ctx := { st.ctx with m_hdls_combo_pressed := false } }, ?_, ?_, ?_⟩
    · simp only [hdls_combo, hchord, Bool.false_eq_true, if_false]
    · simpa using hchord
    · simp [hchord, SwitchController.attached]

/-- One tick with an accepting driver and valid calibrations: the tick returns, the chord flag
records whether the chord is held, and the attached flags change only by the toggle of the
selected slot on a rising edge of the chord. -/
theorem TranslateInputReport_attached (STICK_CENTER : Nat) (drv : DriverAnswers)
    (ctx : SwitchController) (input_report : SwitchInputReport)
    (hdrv : drv.all_succeed) (hvalid : ctx.cals_valid)
    (hlen : 3 ≤ ctx.m_hdls_controllers.length) :
    ∃ st, TranslateInputReport STICK_CENTER drv ctx input_report = some st ∧
      st.ctx.m_hdls_combo_pressed = chord_held input_report ∧
      st.ctx.attached
        = (if chord_held input_report = true ∧ ctx.m_hdls_combo_pressed = false then
            ctx.attached.set (select_hdls_id input_report.buttons)
              (!(ctx.attached.getD (select_hdls_id input_report.buttons) false))
          else ctx.attached) ∧
      st.ctx.cals_valid ∧ 3 ≤ st.ctx.m_hdls_controllers.length := by
  obtain ⟨hattach, hpush, hall⟩ := hdrv
  obtain ⟨st1, hcombo, hflag1, hatt1⟩ := hdls_combo_attached drv
    (select_hdls_id input_report.buttons)
    { ctx := ctx, report := input_report, calls := [] } hattach hpush
    (by
      intro hne
      rcases select_hdls_id_lt input_report.buttons with h | h
      · exact absurd h hne
      · exact Nat.lt_of_lt_of_le h hlen)
  obtain ⟨hrep1, hl1, hr1, hlen1, _⟩ := hdls_combo_frame drv _ _ st1 hcombo
  have hloop : ∃ st, hdls_loop STICK_CENTER drv (select_hdls_id input_report.buttons)
      (List.range st1.ctx.m_hdls_controllers.length) st1 = some st := by
    by_cases hsel : ∃ c, st1.ctx.m_hdls_controllers[select_hdls_id input_report.buttons]?
        = some c ∧ c.initialized = true
    · obtain ⟨c, hc, hinit⟩ := hsel
      obtain ⟨lx, ly, rx, ry, hlx, hly, hrx, hry⟩ := cals_valid_defined ctx hvalid input_report
      have hlt : select_hdls_id input_report.buttons < st1.ctx.m_hdls_controllers.length :=
        (List.getElem?_eq_some.mp hc).1
      obtain ⟨st, h, _⟩ := hdls_loop_selected STICK_CENTER drv
        (select_hdls_id input_report.buttons) c input_report ctx.left_cal ctx.right_cal
        lx ly rx ry hinit hlx hly hrx hry (List.range st1.ctx.m_hdls_controllers.length) st1
        (List.nodup_range _) (fun i hi => List.mem_range.mp hi) (List.mem_range.mpr hlt) hc
        hrep1 hl1 hr1
      exact ⟨st, h⟩
    · obtain ⟨st, h, _⟩ := hdls_loop_others STICK_CENTER drv
        (select_hdls_id input_report.buttons)
        (List.range st1.ctx.m_hdls_controllers.length) st1
        (fun i hi => List.mem_range.mp hi)
        (by
          intro hmem
          have hlt := List.mem_range.mp hmem
          refine ⟨_, List.getElem?_eq_getElem hlt, ?_⟩
          by_contra hinit
          exact hsel ⟨_, List.getElem?_eq_getElem hlt, by simpa using hinit⟩)
      exact ⟨st, h⟩
  obtain ⟨st, hloop⟩ := hloop
  obtain ⟨hl2, hr2, hflag2, hlen2, hatt2⟩ := hdls_loop_preserves STICK_CENTER drv _ _ st1 st
    hloop
  refine ⟨st, ?_, ?_, ?_, ?_, ?_⟩
  · simp only [TranslateInputReport, hcombo]
    exact hloop
  · rw [hflag2, hflag1]
    rfl
  · rw [hatt2 (fun i => by simp [R_FAILED, hall i]), hatt1]
    rfl
  · unfold SwitchController.cals_valid
    rw [hl2, hr2, hl1, hr1]
    exact hvalid
  · rw [hlen2, hlen1]
    exact hlen

theorem run_ticks_chord_held (STICK_CENTER : Nat) :
    ∀ (ticks : List (DriverAnswers × SwitchInputReport)) (ctx : SwitchController),
      (∀ t ∈ ticks, t.1.all_succeed ∧ chord_held t.2 = true) →
      ctx.cals_valid → 3 ≤ ctx.m_hdls_controllers.length →
      ctx.m_hdls_combo_pressed = true →
      ∃ sts, run_ticks STICK_CENTER ctx ticks = some sts ∧ sts.length = ticks.length ∧
        ∀ st ∈ sts, st.ctx.attached = ctx.attached := by
  intro ticks
  induction ticks with
  | nil =>
    intro ctx _ _ _ _
    exact ⟨[], rfl, rfl, fun _ h => by cases h⟩
  | cons t rest ih =>
    intro ctx hall hvalid hlen hflag
    obtain ⟨drv, rep⟩ := t
    obtain ⟨hdrv, hchord⟩ := hall (drv, rep) (List.mem_cons_self _ _)
    obtain ⟨st, htick, hflag1, hatt1, hvalid1, hlen1⟩ :=
      TranslateInputReport_attached STICK_CENTER drv ctx rep hdrv hvalid hlen
    have hatt : st.ctx.attached = ctx.attached := by
      rw [hatt1, if_neg]
      intro h
      rw [hflag] at h
      cases h.2
    obtain ⟨sts, hrun, hlens, hsame⟩ := ih st.ctx
      (fun t ht => hall t (List.mem_cons_of_mem _ ht)) hvalid1 hlen1
      (by rw [hflag1]; exact hchord)
    refine ⟨st :: sts, ?_, by simp [hlens], ?_⟩
    · simp only [run_ticks, htick, hrun]
    · intro s hs
      rcases List.mem_cons.mp hs with h | h
      · rw [h]; exact hatt
      · rw [hsame s h]; exact hatt

/-- The chord as an edge trigger, for valid calibrations and an accepting driver: from a state
whose chord flag is clear, ticks that all hold the chord toggle the slot selected on the first
tick on that tick and change no attached flag afterwards; and after a tick without the chord,
a tick with it toggles the slot it selects. -/
theorem chord_edge_trigger_valid_calibrations (STICK_CENTER : Nat) (ctx : SwitchController)
    (hvalid : ctx.cals_valid) (hlen : 3 ≤ ctx.m_hdls_controllers.length)
    (drv : DriverAnswers) (input_report : SwitchInputReport)
    (hdrv : drv.all_succeed) (hchord : chord_held input_report = true) :
    (ctx.m_hdls_combo_pressed = false →
        ∀ rest : List (DriverAnswers × SwitchInputReport),
          (∀ t ∈ rest, t.1.all_succeed ∧ chord_held t.2 = true) →
          ∃ st sts, run_ticks STICK_CENTER ctx ((drv, input_report) :: rest)
              = some (st :: sts) ∧
            sts.length = rest.length ∧
            st.ctx.attached = ctx.attached.set (select_hdls_id input_report.buttons)
              (!(ctx.attached.getD (select_hdls_id input_report.buttons) false)) ∧
            ∀ s ∈ sts, s.ctx.attached = st.ctx.attached) ∧
      (∀ (drv0 : DriverAnswers) (released : SwitchInputReport),
        drv0.all_succeed → chord_held released = false →
        ∃ st0 st, run_ticks STICK_CENTER ctx [(drv0, released), (drv, input_report)]
            = some [st0, st] ∧
          st0.ctx.attached = ctx.attached ∧
          st.ctx.attached = ctx.attached.set (select_hdls_id input_report.buttons)
            (!(ctx.attached.getD (select_hdls_id input_report.buttons) false))) := by
  constructor
  · intro hflag rest hrest
    obtain ⟨st, htick, hflag1, hatt1, hvalid1, hlen1⟩ :=
      TranslateInputReport_attached STICK_CENTER drv ctx input_report hdrv hvalid hlen
    obtain ⟨sts, hrun, hlens, hsame⟩ := run_ticks_chord_held STICK_CENTER rest st.ctx hrest
      hvalid1 hlen1 (by rw [hflag1]; exact hchord)
    refine ⟨st, sts, ?_, hlens, ?_, hsame⟩
    · simp only [run_ticks, htick, hrun]
    · rw [hatt1, if_pos ⟨hchord, hflag⟩]
  · intro drv0 released hdrv0 hreleased
    obtain ⟨st0, htick0, hflag0, hatt0, hvalid0, hlen0⟩ :=
      TranslateInputReport_attached STICK_CENTER drv0 ctx released hdrv0 hvalid hlen
    have hsame : st0.ctx.attached = ctx.attached := by
      rw [hatt0, if_neg]
      intro h
      rw [hreleased] at h
      cases h.1
    obtain ⟨st, htick, _, hatt, _, _⟩ :=
      TranslateInputReport_attached STICK_CENTER drv st0.ctx input_report hdrv hvalid0 hlen0
    refine ⟨st0, st, ?_, hsame, ?_⟩
    · simp only [run_ticks, htick0, htick]
    · rw [hatt, if_pos ⟨hchord, by rw [hflag0]; exact hreleased⟩, hsame]

/-! ## Bounds of a parsed calibration -/

theorem joycon_read_stick_calibration_left_eq (b0 b1 b2 b3 b4 b5 b6 b7 b8 : Nat)
    (cal : joycon_stick_cal_xy)
    (h0 : b0 < 256) (h1 : b1 < 256) (h2 : b2 < 256) (h3 : b3 < 256) (h4 : b4 < 256)
    (h5 : b5 < 256) (h6 : b6 < 256) (h7 : b7 < 256) (h8 : b8 < 256) :
    joycon_read_stick_calibration [b0, b1, b2, b3, b4, b5, b6, b7, b8] cal true
      = some
        { x := { max := ((b3 ||| ((b4 &&& 0xF) <<< 8) : Nat) : Int)
                    + ((b0 ||| ((b1 &&& 0xF) <<< 8) : Nat) : Int),
                 min := ((b3 ||| ((b4 &&& 0xF) <<< 8) : Nat) : Int)
                    - ((b6 ||| ((b7 &&& 0xF) <<< 8) : Nat) : Int),
                 center := ((b3 ||| ((b4 &&& 0xF) <<< 8) : Nat) : Int) },
          y := { max := (((b4 >>> 4) ||| (b5 <<< 4) : Nat) : Int)
                    + (((b1 >>> 4) ||| (b2 <<< 4) : Nat) : Int),
                 min := (((b4 >>> 4) ||| (b5 <<< 4) : Nat) : Int)
                    - (((b7 >>> 4) ||| (b8 <<< 4) : Nat) : Int),
                 center := (((b4 >>> 4) ||| (b5 <<< 4) : Nat) : Int) } } := by
  have l0 := field12_lo_lt b0 b1 h0
  have l3 := field12_lo_lt b3 b4 h3
  have l6 := field12_lo_lt b6 b7 h6
  have l1 := field12_hi_lt b1 b2 h1 h2
  have l4 := field12_hi_lt b4 b5 h4 h5
  have l7 := field12_hi_lt b7 b8 h7 h8
  have e0 : hid_field_extract (List.drop 0 [b0, b1, b2, b3, b4, b5, b6, b7, b8]) 0 12 = _ :=
    extract12_lo b0 b1 _ h0
  have e3 : hid_field_extract (List.drop 3 [b0, b1, b2, b3, b4, b5, b6, b7, b8]) 0 12 = _ :=
    extract12_lo b3 b4 _ h3
  have e6 : hid_field_extract (List.drop 6 [b0, b1, b2, b3, b4, b5, b6, b7, b8]) 0 12 = _ :=
    extract12_lo b6 b7 _ h6
  have e1 : hid_field_extract (List.drop 1 [b0, b1, b2, b3, b4, b5, b6, b7, b8]) 4 12 = _ :=
    extract12_hi b1 b2 _ h1 h2
  have e4 : hid_field_extract (List.drop 4 [b0, b1, b2, b3, b4, b5, b6, b7, b8]) 4 12 = _ :=
    extract12_hi b4 b5 _ h4 h5
  have e7 : hid_field_extract (List.drop 7 [b0, b1, b2, b3, b4, b5, b6, b7, b8]) 4 12 = _ :=
    extract12_hi b7 b8 _ h7 h8
  unfold joycon_read_stick_calibration
  rw [if_pos rfl, e0, e3, e6, e1, e4, e7]
  simp only [Option.bind_eq_bind, Option.some_bind, Option.pure_def, wrap32_field _ l0,
    wrap32_field _ l1, wrap32_field _ l3, wrap32_field _ l4, wrap32_field _ l6,
    wrap32_field _ l7, wrap32_field_add _ _ l3 l0, wrap32_field_add _ _ l4 l1,
    wrap32_field_sub _ _ l3 l6, wrap32_field_sub _ _ l4 l7]

theorem joycon_read_stick_calibration_right_eq (b0 b1 b2 b3 b4 b5 b6 b7 b8 : Nat)
    (cal : joycon_stick_cal_xy)
    (h0 : b0 < 256) (h1 : b1 < 256) (h2 : b2 < 256) (h3 : b3 < 256) (h4 : b4 < 256)
    (h5 : b5 < 256) (h6 : b6 < 256) (h7 : b7 < 256) (h8 : b8 < 256) :
    joycon_read_stick_calibration [b0, b1, b2, b3, b4, b5, b6, b7, b8] cal false
      = some
        { x := { max := ((b0 ||| ((b1 &&& 0xF) <<< 8) : Nat) : Int)
                    + ((b6 ||| ((b7 &&& 0xF) <<< 8) : Nat) : Int),
                 min := ((b0 ||| ((b1 &&& 0xF) <<< 8) : Nat) : Int)
                    - ((b3 ||| ((b4 &&& 0xF) <<< 8) : Nat) : Int),
                 center := ((b0 ||| ((b1 &&& 0xF) <<< 8) : Nat) : Int) },
          y := { max := (((b1 >>> 4) ||| (b2 <<< 4) : Nat) : Int)
                    + (((b7 >>> 4) ||| (b8 <<< 4) : Nat) : Int),
                 min := (((b1 >>> 4) ||| (b2 <<< 4) : Nat) : Int)
                    - (((b4 >>> 4) ||| (b5 <<< 4) : Nat) : Int),
                 center := (((b1 >>> 4) ||| (b2 <<< 4) : Nat) : Int) } } := by
  have l0 := field12_lo_lt b0 b1 h0
  have l3 := field12_lo_lt b3 b4 h3
  have l6 := field12_lo_lt b6 b7 h6
  have l1 := field12_hi_lt b1 b2 h1 h2
  have l4 := field12_hi_lt b4 b5 h4 h5
  have l7 := field12_hi_lt b7 b8 h7 h8
  have e0 : hid_field_extract (List.drop 0 [b0, b1, b2, b3, b4, b5, b6, b7, b8]) 0 12 = _ :=
    extract12_lo b0 b1 _ h0
  have e3 : hid_field_extract (List.drop 3 [b0, b1, b2, b3, b4, b5, b6, b7, b8]) 0 12 = _ :=
    extract12_lo b3 b4 _ h3
  have e6 : hid_field_extract (List.drop 6 [b0, b1, b2, b3, b4, b5, b6, b7, b8]) 0 12 = _ :=
    extract12_lo b6 b7 _ h6
  have e1 : hid_field_extract (List.drop 1 [b0, b1, b2, b3, b4, b5, b6, b7, b8]) 4 12 = _ :=
    extract12_hi b1 b2 _ h1 h2
  have e4 : hid_field_extract (List.drop 4 [b0, b1, b2, b3, b4, b5, b6, b7, b8]) 4 12 = _ :=
    extract12_hi b4 b5 _ h4 h5
  have e7 : hid_field_extract (List.drop 7 [b0, b1, b2, b3, b4, b5, b6, b7, b8]) 4 12 = _ :=
    extract12_hi b7 b8 _ h7 h8
  unfold joycon_read_stick_calibration
  rw [if_neg Bool.false_ne_true, e0, e3, e6, e1, e4, e7]
  simp only [Option.bind_eq_bind, Option.some_bind, Option.pure_def, wrap32_field _ l0,
    wrap32_field _ l1, wrap32_field _ l3, wrap32_field _ l4, wrap32_field _ l6,
    wrap32_field _ l7, wrap32_field_add _ _ l0 l6, wrap32_field_add _ _ l1 l7,
    wrap32_field_sub _ _ l0 l3, wrap32_field_sub _ _ l1 l4]

/-- The bounds of one axis built from a 12-bit center and two 12-bit deltas. -/
theorem axis_bounds (center above below : Nat) (hc : center < 4096) (ha : above < 4096)
    (hb : below < 4096) :
    (0 : Int) ≤ (center : Int) ∧ (center : Int) ≤ 4095 ∧
      (center : Int) - 4095 ≤ (center : Int) - (below : Int) ∧
      (center : Int) - (below : Int) ≤ (center : Int) ∧
      (center : Int) ≤ (center : Int) + (above : Int) ∧
      (center : Int) + (above : Int) ≤ (center : Int) + 4095 ∧
      (((center : Int) - (below : Int) < (center : Int) ∧
          (center : Int) < (center : Int) + (above : Int)) ↔ (above ≠ 0 ∧ below ≠ 0)) := by
  refine ⟨by omega, by omega, by omega, by omega, by omega, by omega, ?_⟩
  constructor
  · rintro ⟨h1, h2⟩
    exact ⟨by omega, by omega⟩
  · rintro ⟨h1, h2⟩
    exact ⟨by omega, by omega⟩

/-- C21: for every 9-byte blob and both layouts, `joycon_read_stick_calibration` returns a
calibration with, on each axis, `0 ≤ center ≤ 4095` and
`center - 4095 ≤ min ≤ center ≤ max ≤ center + 4095`, and `min < center < max` holds exactly
when the two 12-bit deltas the code extracts for that axis are both non-zero. -/
theorem joycon_read_stick_calibration_bounds (b : List Nat) (cal : joycon_stick_cal_xy)
    (left_stick : Bool) (hlen : b.length = 9) (hb : ∀ v ∈ b, v < 256) :
    ∃ out x_max_above x_min_below y_max_above y_min_below,
      joycon_read_stick_calibration b cal left_stick = some out ∧
      hid_field_extract (b.drop (if left_stick = true then 0 else 6)) 0 12
        = some x_max_above ∧
      hid_field_extract (b.drop (if left_stick = true then 6 else 3)) 0 12
        = some x_min_below ∧
      hid_field_extract (b.drop (if left_stick = true then 1 else 7)) 4 12
        = some y_max_above ∧
      hid_field_extract (b.drop (if left_stick = true then 7 else 4)) 4 12
        = some y_min_below ∧
      (0 ≤ out.x.center ∧ out.x.center ≤ 4095 ∧
        out.x.center - 4095 ≤ out.x.min ∧ out.x.min ≤ out.x.center ∧
        out.x.center ≤ out.x.max ∧ out.x.max ≤ out.x.center + 4095 ∧
        ((out.x.min < out.x.center ∧ out.x.center < out.x.max) ↔
          (x_max_above ≠ 0 ∧ x_min_below ≠ 0))) ∧
      (0 ≤ out.y.center ∧ out.y.center ≤ 4095 ∧
        out.y.center - 4095 ≤ out.y.min ∧ out.y.min ≤ out.y.center ∧
        out.y.center ≤ out.y.max ∧ out.y.max ≤ out.y.center + 4095 ∧
        ((out.y.min < out.y.center ∧ out.y.center < out.y.max) ↔
          (y_max_above ≠ 0 ∧ y_min_below ≠ 0))) := by
  obtain ⟨b0, b1, b2, b3, b4, b5, b6, b7, b8, rfl⟩ := nine_bytes b hlen
  have h0 : b0 < 256 := hb _ (by simp)
  have h1 : b1 < 256 := hb _ (by simp)
  have h2 : b2 < 256 := hb _ (by simp)
  have h3 : b3 < 256 := hb _ (by simp)
  have h4 : b4 < 256 := hb _ (by simp)
  have h5 : b5 < 256 := hb _ (by simp)
  have h6 : b6 < 256 := hb _ (by simp)
  have h7 : b7 < 256 := hb _ (by simp)
  have h8 : b8 < 256 := hb _ (by simp)
  have l0 := field12_lo_lt b0 b1 h0
  have l3 := field12_lo_lt b3 b4 h3
  have l6 := field12_lo_lt b6 b7 h6
  have l1 := field12_hi_lt b1 b2 h1 h2
  have l4 := field12_hi_lt b4 b5 h4 h5
  have l7 := field12_hi_lt b7 b8 h7 h8
  have e0 : hid_field_extract (List.drop 0 [b0, b1, b2, b3, b4, b5, b6, b7, b8]) 0 12 = _ :=
    extract12_lo b0 b1 _ h0
  have e3 : hid_field_extract (List.drop 3 [b0, b1, b2, b3, b4, b5, b6, b7, b8]) 0 12 = _ :=
    extract12_lo b3 b4 _ h3
  have e6 : hid_field_extract (List.drop 6 [b0, b1, b2, b3, b4, b5, b6, b7, b8]) 0 12 = _ :=
    extract12_lo b6 b7 _ h6
  have e1 : hid_field_extract (List.drop 1 [b0, b1, b2, b3, b4, b5, b6, b7, b8]) 4 12 = _ :=
    extract12_hi b1 b2 _ h1 h2
  have e4 : hid_field_extract (List.drop 4 [b0, b1, b2, b3, b4, b5, b6, b7, b8]) 4 12 = _ :=
    extract12_hi b4 b5 _ h4 h5
  have e7 : hid_field_extract (List.drop 7 [b0, b1, b2, b3, b4, b5, b6, b7, b8]) 4 12 = _ :=
    extract12_hi b7 b8 _ h7 h8
  cases left_stick with
  | true =>
    exact ⟨_, _, _, _, _,
      joycon_read_stick_calibration_left_eq b0 b1 b2 b3 b4 b5 b6 b7 b8 cal h0 h1 h2 h3 h4 h5
        h6 h7 h8,
      e0, e6, e1, e7, axis_bounds _ _ _ l3 l0 l6, axis_bounds _ _ _ l4 l1 l7⟩
  | false =>
    exact ⟨_, _, _, _, _,
      joycon_read_stick_calibration_right_eq b0 b1 b2 b3 b4 b5 b6 b7 b8 cal h0 h1 h2 h3 h4 h5
        h6 h7 h8,
      e6, e3, e7, e4, axis_bounds _ _ _ l0 l6 l3, axis_bounds _ _ _ l1 l7 l4⟩

theorem joycon_read_stick_calibration_bounds_witness :
    (∃ out x_max_above x_min_below y_max_above y_min_below,
      joycon_read_stick_calibration ([1, 2, 3, 4, 5, 6, 7, 8, 9] : List Nat) ⟨⟨0, 0, 0⟩, ⟨0, 0, 0⟩⟩ true = some out ∧
      hid_field_extract (([1, 2, 3, 4, 5, 6, 7, 8, 9] : List Nat).drop (if true = true then 0 else 6)) 0 12
        = some x_max_above ∧
      hid_field_extract (([1, 2, 3, 4, 5, 6, 7, 8, 9] : List Nat).drop (if true = true then 6 else 3)) 0 12
        = some x_min_below ∧
      hid_field_extract (([1, 2, 3, 4, 5, 6, 7, 8, 9] : List Nat).drop (if true = true then 1 else 7)) 4 12
        = some y_max_above ∧
      hid_field_extract (([1, 2, 3, 4, 5, 6, 7, 8, 9] : List Nat).drop (if true = true then 7 else 4)) 4 12
        = some y_min_below ∧
      (0 ≤ out.x.center ∧ out.x.center ≤ 4095 ∧
        out.x.center - 4095 ≤ out.x.min ∧ out.x.min ≤ out.x.center ∧
        out.x.center ≤ out.x.max ∧ out.x.max ≤ out.x.center + 4095 ∧
        ((out.x.min < out.x.center ∧ out.x.center < out.x.max) ↔
          (x_max_above ≠ 0 ∧ x_min_below ≠ 0))) ∧
      (0 ≤ out.y.center ∧ out.y.center ≤ 4095 ∧
        out.y.center - 4095 ≤ out.y.min ∧ out.y.min ≤ out.y.center ∧
        out.y.center ≤ out.y.max ∧ out.y.max ≤ out.y.center + 4095 ∧
        ((out.y.min < out.y.center ∧ out.y.center < out.y.max) ↔
          (y_max_above ≠ 0 ∧ y_min_below ≠ 0)))) ∧
    (∃ out x_max_above x_min_below y_max_above y_min_below,
      joycon_read_stick_calibration ([1, 2, 3, 4, 5, 6, 7, 8, 9] : List Nat) ⟨⟨0, 0, 0⟩, ⟨0, 0, 0⟩⟩ false = some out ∧
      hid_field_extract (([1, 2, 3, 4, 5, 6, 7, 8, 9] : List Nat).drop (if false = true then 0 else 6)) 0 12
        = some x_max_above ∧
      hid_field_extract (([1, 2, 3, 4, 5, 6, 7, 8, 9] : List Nat).drop (if false = true then 6 else 3)) 0 12
        = some x_min_below ∧
      hid_field_extract (([1, 2, 3, 4, 5, 6, 7, 8, 9] : List Nat).drop (if false = true then 1 else 7)) 4 12
        = some y_max_above ∧
      hid_field_extract (([1, 2, 3, 4, 5, 6, 7, 8, 9] : List Nat).drop (if false = true then 7 else 4)) 4 12
        = some y_min_below ∧
      (0 ≤ out.x.center ∧ out.x.center ≤ 4095 ∧
        out.x.center - 4095 ≤ out.x.min ∧ out.x.min ≤ out.x.center ∧
        out.x.center ≤ out.x.max ∧ out.x.max ≤ out.x.center + 4095 ∧
        ((out.x.min < out.x.center ∧ out.x.center < out.x.max) ↔
          (x_max_above ≠ 0 ∧ x_min_below ≠ 0))) ∧
      (0 ≤ out.y.center ∧ out.y.center ≤ 4095 ∧
        out.y.center - 4095 ≤ out.y.min ∧ out.y.min ≤ out.y.center ∧
        out.y.center ≤ out.y.max ∧ out.y.max ≤ out.y.center + 4095 ∧
        ((out.y.min < out.y.center ∧ out.y.center < out.y.max) ↔
          (y_max_above ≠ 0 ∧ y_min_below ≠ 0)))) :=
  ⟨joycon_read_stick_calibration_bounds [1, 2, 3, 4, 5, 6, 7, 8, 9] ⟨⟨0, 0, 0⟩, ⟨0, 0, 0⟩⟩ true
      (by decide) (by decide),
    joycon_read_stick_calibration_bounds [1, 2, 3, 4, 5, 6, 7, 8, 9] ⟨⟨0, 0, 0⟩, ⟨0, 0, 0⟩⟩
      false (by decide) (by decide)⟩
end MissionControl
